import Mathlib

/-!
# ultimate-nag52-fw: signal cache, gear ratio table and solenoid duty

A shallow embedding of three pieces of the firmware:

* `lib/egs52_ecus/src/GS.h`: the frame unions `GS_218` .. `GS_CUSTOM_558` with
  their field setters and getters, and the class `ECU_GS` (frame import and
  expiry-checked getters);
* `src/gearbox.h`: the gear ratio tolerance table `GEAR_RATIO_LIMITS` and the
  gear fields of `Gearbox`;
* `src/solenoids/solenoids.cpp`: the duty output of `Solenoid`, its current
  readback and baseline, the sampling loop `read_solenoids_i2s` and the
  threshold checks of `init_all_solenoids`.

Machine integers are natural numbers; where the C++ arithmetic can wrap, the
reduction modulo `2 ^ w` is written out.
-/

namespace Nag52

/-! ## Machine arithmetic -/

/-- The number of values of a `uint64_t`. -/
def U64 : Nat := 2 ^ 64

/-- Subtraction of two `uint64_t` values as C++ computes it: modulo `2 ^ 64`. -/
def u64_sub (a b : Nat) : Nat := (a + U64 - b % U64) % U64

/-! ## GS.h: CAN identifiers -/

def GS_218_CAN_ID : Nat := 0x0218
def GS_338_CAN_ID : Nat := 0x0338
def GS_418_CAN_ID : Nat := 0x0418
def GS_CUSTOM_558_CAN_ID : Nat := 0x0558

/-! ## GS.h: frame unions

Each union is its `raw` 64-bit member. -/

/-- Union `GS_218`. -/
structure GS_218 where
  raw : Nat
  deriving DecidableEq, Repr

/-- Union `GS_338`. -/
structure GS_338 where
  raw : Nat
  deriving DecidableEq, Repr

/-- Union `GS_418`. -/
structure GS_418 where
  raw : Nat
  deriving DecidableEq, Repr

/-- Union `GS_CUSTOM_558`. -/
structure GS_CUSTOM_558 where
  raw : Nat
  deriving DecidableEq, Repr

/-- Enumeration `GS_218h_GIC` (actual gear); all sixteen values of the 4-bit
field are listed in the source. -/
inductive GS_218h_GIC where
  | G_N | G_D1 | G_D2 | G_D3 | G_D4 | G_D5 | G_D6 | G_D7
  | G_D_CVT | G_R_CVT | G_R3 | G_R | G_R2 | G_P | G_KRAFTFREI | G_SNV
  deriving DecidableEq, Repr

/-- The underlying integer of a `GS_218h_GIC` member. -/
def GS_218h_GIC.toNat : GS_218h_GIC → Nat
  | .G_N => 0 | .G_D1 => 1 | .G_D2 => 2 | .G_D3 => 3
  | .G_D4 => 4 | .G_D5 => 5 | .G_D6 => 6 | .G_D7 => 7
  | .G_D_CVT => 8 | .G_R_CVT => 9 | .G_R3 => 10 | .G_R => 11
  | .G_R2 => 12 | .G_P => 13 | .G_KRAFTFREI => 14 | .G_SNV => 15

/-- Setter `GS_218::set_GIC`:
`raw = (raw & 0xfffff0ffffffffff) | ((uint64_t)value & 0xf) << 40`.
The enum argument is given by its underlying integer. The shifted operand is
below `2 ^ 44`, so nothing is lost in 64 bits. -/
def GS_218.set_GIC (f : GS_218) (value : Nat) : GS_218 :=
  { raw := (f.raw &&& 0xfffff0ffffffffff) ||| ((value &&& 0xf) <<< 40) }

/-- Getter `GS_218::get_GIC`: `(GS_218h_GIC)(raw >> 40 & 0xf)`, as the underlying
integer of the enum value. -/
def GS_218.get_GIC (f : GS_218) : Nat :=
  (f.raw >>> 40) &&& 0xf

/-! ## GS.h: class ECU_GS -/

/-- Class `ECU_GS`: the two private arrays `FRAME_DATA[4]` and
`LAST_FRAME_TIMES[4]`. -/
structure ECU_GS where
  FRAME_DATA : Fin 4 → Nat
  LAST_FRAME_TIMES : Fin 4 → Nat

/-- An `ECU_GS` object before any member function has run. The class has no
constructor and its arrays are private, so the only object whose getters may be
called is a zero-initialised one (static storage or value-initialisation). -/
def ECU_GS.init : ECU_GS :=
  { FRAME_DATA := fun _ => 0, LAST_FRAME_TIMES := fun _ => 0 }

/-- Member `ECU_GS::import_frames`: the returned flag and the object afterwards. -/
def ECU_GS.import_frames (s : ECU_GS) (value can_id timestamp_now : Nat) : Bool × ECU_GS :=
  if can_id = GS_218_CAN_ID then
    (true, { LAST_FRAME_TIMES := Function.update s.LAST_FRAME_TIMES 0 timestamp_now,
             FRAME_DATA := Function.update s.FRAME_DATA 0 value })
  else if can_id = GS_338_CAN_ID then
    (true, { LAST_FRAME_TIMES := Function.update s.LAST_FRAME_TIMES 1 timestamp_now,
             FRAME_DATA := Function.update s.FRAME_DATA 1 value })
  else if can_id = GS_418_CAN_ID then
    (true, { LAST_FRAME_TIMES := Function.update s.LAST_FRAME_TIMES 2 timestamp_now,
             FRAME_DATA := Function.update s.FRAME_DATA 2 value })
  else if can_id = GS_CUSTOM_558_CAN_ID then
    (true, { LAST_FRAME_TIMES := Function.update s.LAST_FRAME_TIMES 3 timestamp_now,
             FRAME_DATA := Function.update s.FRAME_DATA 3 value })
  else
    (false, s)

/-- Member `ECU_GS::get_GS_218`. The pointer `dest` is `none` for `nullptr` and
`some d` for a pointer to an object whose content is `d`; the result is the
returned flag and the content behind `dest` afterwards. -/
def ECU_GS.get_GS_218 (s : ECU_GS) (now max_expire_time : Nat) (dest : Option GS_218) :
    Bool × Option GS_218 :=
  if s.LAST_FRAME_TIMES 0 = 0 ∨ dest = none then
    (false, dest)
  else if u64_sub now (s.LAST_FRAME_TIMES 0) > max_expire_time then
    (false, dest)
  else
    (true, some { raw := s.FRAME_DATA 0 })

/-- Member `ECU_GS::get_GS_338`, modelled as `get_GS_218`. -/
def ECU_GS.get_GS_338 (s : ECU_GS) (now max_expire_time : Nat) (dest : Option GS_338) :
    Bool × Option GS_338 :=
  if s.LAST_FRAME_TIMES 1 = 0 ∨ dest = none then
    (false, dest)
  else if u64_sub now (s.LAST_FRAME_TIMES 1) > max_expire_time then
    (false, dest)
  else
    (true, some { raw := s.FRAME_DATA 1 })

/-- Member `ECU_GS::get_GS_418`, modelled as `get_GS_218`. -/
def ECU_GS.get_GS_418 (s : ECU_GS) (now max_expire_time : Nat) (dest : Option GS_418) :
    Bool × Option GS_418 :=
  if s.LAST_FRAME_TIMES 2 = 0 ∨ dest = none then
    (false, dest)
  else if u64_sub now (s.LAST_FRAME_TIMES 2) > max_expire_time then
    (false, dest)
  else
    (true, some { raw := s.FRAME_DATA 2 })

/-- Member `ECU_GS::get_GS_CUSTOM_558`, modelled as `get_GS_218`. -/
def ECU_GS.get_GS_CUSTOM_558 (s : ECU_GS) (now max_expire_time : Nat)
    (dest : Option GS_CUSTOM_558) : Bool × Option GS_CUSTOM_558 :=
  if s.LAST_FRAME_TIMES 3 = 0 ∨ dest = none then
    (false, dest)
  else if u64_sub now (s.LAST_FRAME_TIMES 3) > max_expire_time then
    (false, dest)
  else
    (true, some { raw := s.FRAME_DATA 3 })

/-! ### Reading through the cache by frame identifier

The four getters differ only in the slot index and the union type. `slot_of`
names the slot that `import_frames` writes for an identifier, and `read` runs
the getter of that slot on a non-null destination and gives back the payload
that was written, or `none` when the getter returned `false`. -/

/-- The slot index that `import_frames` uses for a CAN identifier. -/
def slot_of (can_id : Nat) : Option (Fin 4) :=
  if can_id = GS_218_CAN_ID then some 0
  else if can_id = GS_338_CAN_ID then some 1
  else if can_id = GS_418_CAN_ID then some 2
  else if can_id = GS_CUSTOM_558_CAN_ID then some 3
  else none

/-- The raw payload a getter delivers: `some raw` when it returned `true` and
wrote `raw` into the destination, `none` when it returned `false`. The
destination handed to the getter holds `0` beforehand. -/
def ECU_GS.read (s : ECU_GS) (i : Fin 4) (now max_expire_time : Nat) : Option Nat :=
  match i with
  | 0 =>
    match s.get_GS_218 now max_expire_time (some { raw := 0 }) with
    | (true, some d) => some d.raw
    | _ => none
  | 1 =>
    match s.get_GS_338 now max_expire_time (some { raw := 0 }) with
    | (true, some d) => some d.raw
    | _ => none
  | 2 =>
    match s.get_GS_418 now max_expire_time (some { raw := 0 }) with
    | (true, some d) => some d.raw
    | _ => none
  | 3 =>
    match s.get_GS_CUSTOM_558 now max_expire_time (some { raw := 0 }) with
    | (true, some d) => some d.raw
    | _ => none

/-- A call of `import_frames` as data: payload, identifier, timestamp. -/
structure Frame where
  value : Nat
  can_id : Nat
  timestamp_now : Nat
  deriving DecidableEq, Repr

/-- The object after a sequence of `import_frames` calls, oldest first. -/
def ECU_GS.import_all (s : ECU_GS) : List Frame → ECU_GS
  | [] => s
  | f :: fs => ECU_GS.import_all (s.import_frames f.value f.can_id f.timestamp_now).2 fs

/-! ## Binary floating point

The values of a `float` (24 significant bits) and of a `double` (53) are
rational numbers; an operation gives the representable number nearest to the
exact result, the one with an even last bit in a tie. Exponent limits play no
part for the magnitudes that occur here. -/

/-- The binary logarithm rounded down, by halving, with `fuel` steps allowed. -/
def log2_fuel : Nat → Nat → Nat
  | 0, _ => 0
  | fuel + 1, n => if n < 2 then 0 else log2_fuel fuel (n / 2) + 1

/-- The binary logarithm of a positive natural number, rounded down. -/
def ilog2 (n : Nat) : Nat := log2_fuel n n

/-- The exponent `e` with `2 ^ e <= |x| < 2 ^ (e + 1)`, for `x != 0`: the
difference of the logarithms of numerator and denominator, or one less. -/
def binade (x : ℚ) : Int :=
  let e0 : Int := (ilog2 x.num.natAbs : Int) - (ilog2 x.den : Int)
  if (2 : ℚ) ^ e0 ≤ |x| then e0 else e0 - 1

/-- Rounding to `p` significant bits, to nearest, ties to even. -/
def round_to (p : Nat) (x : ℚ) : ℚ :=
  if x = 0 then 0
  else
    let ulp : ℚ := (2 : ℚ) ^ (binade x - ((p : Int) - 1))
    let q := x / ulp
    let f := ⌊q⌋
    let r := q - f
    let m : Int :=
      if r < 1 / 2 then f else if 1 / 2 < r then f + 1 else if f % 2 = 0 then f else f + 1
    m * ulp

/-- The `float` nearest to a number. -/
def to_float (x : ℚ) : ℚ := round_to 24 x

/-- The `double` nearest to a number. -/
def to_double (x : ℚ) : ℚ := round_to 53 x

/-- Multiplication of two `double`s. -/
def double_mul (a b : ℚ) : ℚ := to_double (a * b)

/-- Addition of two `double`s. -/
def double_add (a b : ℚ) : ℚ := to_double (a + b)

/-- Subtraction of two `double`s. -/
def double_sub (a b : ℚ) : ℚ := to_double (a - b)

/-! ## gearbox.h: the gear ratio tolerance table

`LARGE_NAG` is not defined (its define is commented out), so the ratios of the
second preprocessor branch apply. `RAT_n` and `MAX_LIMIT` below are the decimal
numbers written in the macros. In the table each of them is a `double`
literal, the initialiser expressions are evaluated in `double`, and the result
is stored in a `float` member. -/

def RAT_1 : ℚ := 3.9319
def RAT_2 : ℚ := 2.4079
def RAT_3 : ℚ := 1.4857
def RAT_4 : ℚ := 1.0000
def RAT_5 : ℚ := 0.8305
def RAT_R1 : ℚ := -3.1002
def RAT_R2 : ℚ := -1.8986

/-- Struct `GearRatioLimit`. -/
structure GearRatioLimit where
  max : ℚ
  min : ℚ
  deriving DecidableEq

/-- The drift allowed around a nominal ratio: 10%. -/
def MAX_LIMIT : ℚ := 0.10

/-- The `double` value of the expression `RAT*(1.0+MAX_LIMIT)`. -/
def RAT_PLUS (rat : ℚ) : ℚ :=
  double_mul (to_double rat) (double_add (to_double 1.0) (to_double MAX_LIMIT))

/-- The `double` value of the expression `RAT*(1.0-MAX_LIMIT)`. -/
def RAT_MINUS (rat : ℚ) : ℚ :=
  double_mul (to_double rat) (double_sub (to_double 1.0) (to_double MAX_LIMIT))

/-- The table `GEAR_RATIO_LIMITS[7]`: gears 1 to 5, then R1 and R2. Each member
is the `float` nearest to the `double` value of its initialiser. -/
def GEAR_RATIO_LIMITS : Fin 7 → GearRatioLimit
  | 0 => { max := to_float (RAT_PLUS RAT_1), min := to_float (RAT_MINUS RAT_1) }
  | 1 => { max := to_float (RAT_PLUS RAT_2), min := to_float (RAT_MINUS RAT_2) }
  | 2 => { max := to_float (RAT_PLUS RAT_3), min := to_float (RAT_MINUS RAT_3) }
  | 3 => { max := to_float (RAT_PLUS RAT_4), min := to_float (RAT_MINUS RAT_4) }
  | 4 => { max := to_float (RAT_PLUS RAT_5), min := to_float (RAT_MINUS RAT_5) }
  | 5 => { max := to_float (RAT_MINUS RAT_R1), min := to_float (RAT_PLUS RAT_R1) }
  | 6 => { max := to_float (RAT_MINUS RAT_R2), min := to_float (RAT_PLUS RAT_R2) }

/-- A ratio lies in the tolerance window `[min, max]` of a table entry. -/
def in_window (l : GearRatioLimit) (ratio : ℚ) : Prop :=
  l.min ≤ ratio ∧ ratio ≤ l.max

instance (l : GearRatioLimit) (ratio : ℚ) : Decidable (in_window l ratio) := by
  unfold in_window
  infer_instance

/-- Modelled from the spec: the body of `Gearbox::calcGearFromRatio`, which
`gearbox.h` only declares. Following section 4.2 of the specification: no
result when the output speed is zero (the specification says "at or near
zero" and names no threshold); otherwise the ratio input / output is
looked up in the forward windows (entries 0 to 4), or in the reverse windows
(entries 5 and 6) when the hint is set, in table order, and the first entry
whose window contains the ratio is the result. The result is the table index. -/
def classify (input_speed output_speed : Nat) (reverse_hint : Bool) : Option (Fin 7) :=
  if output_speed = 0 then none
  else
    (if reverse_hint then [5, 6] else [0, 1, 2, 3, 4]).find?
      (fun i => decide (in_window (GEAR_RATIO_LIMITS i) ((input_speed : ℚ) / (output_speed : ℚ))))

/-! ## solenoids.cpp: duty output -/

/-- Class `Solenoid`. Of the hardware channel the model keeps the duty values
handed to `ledc_set_duty_and_update`, latest first; the call is taken to
succeed (on an error the source only logs). -/
structure Solenoid where
  ready : Bool
  adc_reading : Nat
  vref : Nat
  vref_calibrated : Bool
  ledc_writes : List Nat
  deriving DecidableEq, Repr

/-- The duty of the channel: the last value committed, and 0 (the value of the
channel configuration) before the first write. -/
def Solenoid.duty (s : Solenoid) : Nat := s.ledc_writes.headD 0

/-- Member `Solenoid::write_pwm(uint8_t pwm)`: commits `(uint32_t)pwm << 4`. The
argument is converted to `uint8_t` on entry. -/
def Solenoid.write_pwm (s : Solenoid) (pwm : Nat) : Solenoid :=
  { s with ledc_writes := ((pwm % 2 ^ 8) <<< 4) :: s.ledc_writes }

/-- Member `Solenoid::write_pwm_percent(uint16_t percent)`; `clamped` and `request`
are `uint32_t`. -/
def Solenoid.write_pwm_percent (s : Solenoid) (percent : Nat) : Solenoid :=
  let clamped := if percent > 1000 then 1000 else percent
  let request := ((255 * clamped) % 2 ^ 32) / 1000
  s.write_pwm request

/-! ## solenoids.cpp: current readback and calibrated baseline -/

/-- Subtraction of two `uint16_t` values stored back into a `uint16_t`: the
difference is formed in `int` and reduced modulo `2 ^ 16` by the conversion. -/
def u16_sub (a b : Nat) : Nat := (a + 2 ^ 16 - b % 2 ^ 16) % 2 ^ 16

/-- Member `Solenoid::get_vref`. -/
def Solenoid.get_vref (s : Solenoid) : Nat := s.vref

/-- Member `Solenoid::get_current_estimate`: `r = adc_reading - vref` in
`uint16_t`, then `r * 0.0974` converted to `uint16_t`. The product is at most
6383.1, so the conversion truncates it; for every 16-bit `r` the truncated
`double` product is `r * 974 / 10000` rounded down. -/
def Solenoid.get_current_estimate (s : Solenoid) : Nat :=
  let r := u16_sub s.adc_reading s.vref
  r * 974 / 10000

/-- Member `Solenoid::__set_current_internal(uint16_t c)`; the argument is
converted to `uint16_t` on entry. -/
def Solenoid.__set_current_internal (s : Solenoid) (c : Nat) : Solenoid :=
  { s with adc_reading := c % 2 ^ 16 }

/-- Member `Solenoid::__set_vref(uint16_t ref)`; the argument is converted to
`uint16_t` on entry. -/
def Solenoid.__set_vref (s : Solenoid) (ref : Nat) : Solenoid :=
  { s with vref := ref % 2 ^ 16, vref_calibrated := true }

/-! ## solenoids.cpp: voltage-compensated duty -/

/-- How a call ends: it returns, or it reaches a conversion from a floating
value to an integer type that cannot hold it, for which C++ defines no result.
Either way the solenoid is given as it is at that point. -/
inductive Outcome where
  | returned (s : Solenoid)
  | undefined (s : Solenoid)
  deriving DecidableEq, Repr

/-- The value of `(float)percent * solenoid_vref / (float)curr_v_mv` for
`curr_v_mv != 0`. The constant `solenoid_vref` is declared outside the sources
at hand and is a parameter here, a whole number of millivolts of an integer
type, which the product converts to `float`; the product and the quotient are
`float` operations, each rounded. -/
def scaled_percent (solenoid_vref percent curr_v_mv : Nat) : ℚ :=
  to_float (to_float (to_float percent * to_float solenoid_vref) / to_float curr_v_mv)

/-- Member `Solenoid::write_pwm_percent_with_voltage(uint16_t percent, uint16_t curr_v_mv)`,
as far as C++ defines it. With `curr_v_mv == 0` the quotient is a NaN or an
infinity, and a quotient of 65536 or more does not fit `uint16_t want_percent`:
in both cases the conversion is undefined and the solenoid is given as it is
when the conversion is reached. Otherwise the conversion truncates the
quotient. There is no `return` after the first `write_pwm_percent(0)`. What
the statements after the conversion do in either case is
`write_pwm_percent_with_voltage_calls`. -/
def Solenoid.write_pwm_percent_with_voltage (solenoid_vref : Nat) (s : Solenoid)
    (percent curr_v_mv : Nat) : Outcome :=
  let s1 := if percent = 0 then s.write_pwm_percent 0 else s
  if curr_v_mv = 0 then .undefined s1
  else if ⌊scaled_percent solenoid_vref percent curr_v_mv⌋₊ > 65535 then .undefined s1
  else
    let want_percent := ⌊scaled_percent solenoid_vref percent curr_v_mv⌋₊
    let want_percent := if want_percent > 1000 then 1000 else want_percent
    .returned (s1.write_pwm_percent want_percent)

/-- Member `Solenoid::write_pwm_percent_with_voltage`, all its statements: the
arguments of its calls of `write_pwm_percent` in order, and the solenoid at
the end. Where C++ leaves the conversion to `uint16_t want_percent` undefined
the variable still holds sixteen bits, those of `converted`, and the clamp and
the last call follow as they do otherwise. -/
def Solenoid.write_pwm_percent_with_voltage_calls (solenoid_vref converted : Nat)
    (s : Solenoid) (percent curr_v_mv : Nat) : List Nat × Solenoid :=
  let calls := if percent = 0 then [0] else []
  let s1 := if percent = 0 then s.write_pwm_percent 0 else s
  let want_percent :=
    if curr_v_mv = 0 then converted % 2 ^ 16
    else if ⌊scaled_percent solenoid_vref percent curr_v_mv⌋₊ > 65535 then converted % 2 ^ 16
    else ⌊scaled_percent solenoid_vref percent curr_v_mv⌋₊
  let want_percent := if want_percent > 1000 then 1000 else want_percent
  (calls ++ [want_percent], s1.write_pwm_percent want_percent)

/-! ## solenoids.cpp: the sampling loop and the start-up check -/

/-- The six solenoids in the order of `sol_order`: Y3, Y4, Y5, MPC, SPC, TCC. -/
def sol_y3 : Fin 6 := 0
def sol_y4 : Fin 6 := 1
def sol_y5 : Fin 6 := 2
def sol_mpc : Fin 6 := 3
def sol_spc : Fin 6 := 4
def sol_tcc : Fin 6 := 5

/-- The variables of `read_solenoids_i2s` that live across iterations, the
global `all_calibrated`, and the six solenoid objects. -/
structure SamplerState where
  solenoid_id : Nat
  all_calibrated : Bool
  sol_order : Fin 6 → Solenoid

/-- A solenoid as its constructor leaves it when the LEDC set-up succeeds. -/
def Solenoid.constructed : Solenoid :=
  { ready := true, adc_reading := 0, vref := 0, vref_calibrated := false, ledc_writes := [] }

/-- The state in which `read_solenoids_i2s` enters its loop. -/
def SamplerState.start (sols : Fin 6 → Solenoid) : SamplerState :=
  { solenoid_id := 0, all_calibrated := false, sol_order := sols }

/-- One iteration of the `while(true)` loop of `read_solenoids_i2s`, from the
point where `avg` has been computed: `avg` is the input. Indexing `sol_order`
with a `solenoid_id` of 6 or more has no defined result (`none`).
`solenoid_id` is a `uint8_t`. -/
def read_solenoids_i2s_step (st : SamplerState) (avg : Nat) : Option SamplerState :=
  if h : st.solenoid_id < 6 then
    let i : Fin 6 := ⟨st.solenoid_id, h⟩
    let s1 := (st.sol_order i).__set_current_internal avg
    let s2 := if !st.all_calibrated then s1.__set_vref avg else s1
    let sols := Function.update st.sol_order i s2
    let solenoid_id := (st.solenoid_id + 1) % 2 ^ 8
    if solenoid_id = 6 then
      some { solenoid_id := 0, all_calibrated := true, sol_order := sols }
    else
      some { solenoid_id := solenoid_id, all_calibrated := st.all_calibrated, sol_order := sols }
  else none

/-- The loop run over a sequence of averaged readings, one per iteration. -/
def read_solenoids_i2s_run (st : SamplerState) : List Nat → Option SamplerState
  | [] => some st
  | avg :: avgs =>
    match read_solenoids_i2s_step st avg with
    | some st1 => read_solenoids_i2s_run st1 avgs
    | none => none

/-- The threshold checks at the end of `init_all_solenoids`, after
`all_calibrated` has been seen: the returned flag and the solenoid named in
the error message, if any. The checks only call `get_vref`. -/
def init_all_solenoids_check (sols : Fin 6 → Solenoid) : Bool × Option (Fin 6) :=
  if (sols sol_y3).get_vref > 500 then (false, some sol_y3)
  else if (sols sol_y4).get_vref > 500 then (false, some sol_y4)
  else if (sols sol_y5).get_vref > 500 then (false, some sol_y5)
  else if (sols sol_mpc).get_vref > 500 then (false, some sol_mpc)
  else if (sols sol_spc).get_vref > 500 then (false, some sol_spc)
  else if (sols sol_tcc).get_vref > 500 then (false, some sol_tcc)
  else (true, none)

/-! ## solenoids.cpp: accesses to the shared fields

The members that touch `adc_reading` and `vref`, each as the sequence of lock
operations and field accesses its body performs, in source order. -/

/-- An operation on the lock `adc_reading_mutex` or on a shared field of one
solenoid. -/
inductive MemOp where
  | portENTER_CRITICAL
  | portEXIT_CRITICAL
  | load_adc_reading
  | load_vref
  | store_adc_reading (v : Nat)
  | store_vref (v : Nat)
  | store_vref_calibrated (b : Bool)
  deriving DecidableEq, Repr

/-- The effect of one operation on the solenoid: stores write their field. -/
def MemOp.apply (s : Solenoid) : MemOp → Solenoid
  | .store_adc_reading v => { s with adc_reading := v }
  | .store_vref v => { s with vref := v }
  | .store_vref_calibrated b => { s with vref_calibrated := b }
  | _ => s

/-- The solenoid after a sequence of operations. -/
def run_ops (s : Solenoid) (ops : List MemOp) : Solenoid := ops.foldl MemOp.apply s

/-- The body of `Solenoid::get_vref`: `return this->vref;`. -/
def Solenoid.get_vref_ops : List MemOp := [.load_vref]

/-- The body of `Solenoid::get_current_estimate` up to the scaling of `r`. -/
def Solenoid.get_current_estimate_ops : List MemOp :=
  [.portENTER_CRITICAL, .load_adc_reading, .load_vref, .portEXIT_CRITICAL]

/-- The body of `Solenoid::__set_current_internal(c)`. -/
def Solenoid.__set_current_internal_ops (c : Nat) : List MemOp :=
  [.portENTER_CRITICAL, .store_adc_reading (c % 2 ^ 16), .portEXIT_CRITICAL]

/-- The body of `Solenoid::__set_vref(ref)`. -/
def Solenoid.__set_vref_ops (ref : Nat) : List MemOp :=
  [.portENTER_CRITICAL, .store_vref (ref % 2 ^ 16), .store_vref_calibrated true,
   .portEXIT_CRITICAL]

/-- Every load and store of `adc_reading` and `vref` in the sequence happens
while the lock is held, `held` telling whether it is held at the start, and
the lock is released at the end. -/
def in_critical (held : Bool) : List MemOp → Bool
  | [] => !held
  | .portENTER_CRITICAL :: ops => in_critical true ops
  | .portEXIT_CRITICAL :: ops => in_critical false ops
  | .load_adc_reading :: ops => held && in_critical held ops
  | .load_vref :: ops => held && in_critical held ops
  | .store_adc_reading _ :: ops => held && in_critical held ops
  | .store_vref _ :: ops => held && in_critical held ops
  | .store_vref_calibrated _ :: ops => in_critical held ops

/-! ## gearbox.h: gear requests -/

/-- Modelled from the spec: the enumeration `GearboxGear`, which `gearbox.h`
uses and does not declare. The members are the gears listed in section 3 of
the specification; `SignalNotAvaliable` is spelled as `gearbox.h` spells it. -/
inductive GearboxGear where
  | Park | Reverse2 | Reverse1 | Neutral
  | First | Second | Third | Fourth | Fifth
  | SignalNotAvaliable
  deriving DecidableEq, Repr

/-- The position of a forward gear among the forward gears, from 1. -/
def GearboxGear.fwd_rank : GearboxGear → Option Nat
  | .First => some 1 | .Second => some 2 | .Third => some 3
  | .Fourth => some 4 | .Fifth => some 5
  | _ => none

/-- The next forward gear. -/
def GearboxGear.next_fwd : GearboxGear → GearboxGear
  | .First => .Second | .Second => .Third | .Third => .Fourth | .Fourth => .Fifth
  | g => g

/-- Class `Gearbox`: the gear fields of `gearbox.h`. -/
structure Gearbox where
  target_gear : GearboxGear
  actual_gear : GearboxGear
  min_fwd_gear : GearboxGear
  deriving DecidableEq, Repr

/-- The initial values of the gear fields in `gearbox.h`. -/
def Gearbox.init : Gearbox :=
  { target_gear := .SignalNotAvaliable, actual_gear := .SignalNotAvaliable,
    min_fwd_gear := .First }

/-- Modelled from the spec: the body of `Gearbox::inc_gear_request`, which
`gearbox.h` only declares. Following section 4.4 of the specification, the
request moves `target_gear` to the next forward gear and is clamped at the
maximum forward gear of the transmission, here a parameter. The specification
names no effect for a target that is not a forward gear; it is left as it is. -/
def Gearbox.inc_gear_request (max_fwd_gear : GearboxGear) (g : Gearbox) : Gearbox :=
  match g.target_gear.fwd_rank, max_fwd_gear.fwd_rank with
  | some r, some m => if r < m then { g with target_gear := g.target_gear.next_fwd } else g
  | _, _ => g

/-! ## GS.h: enumerations

Each enumeration with the underlying integer of its members. The member `_`
of `GS_418h_FPC` is written `UNDERSCORE`. -/

/-- Enumeration `GS_218h_GZC`: Goal Gang. -/
inductive GS_218h_GZC where
  | G_N | G_D1 | G_D2 | G_D3 | G_D4 | G_D5 | G_D6 | G_D7 | G_D_CVT | G_R_CVT | G_R3 | G_R
  | G_R2 | G_P | G_ABBRUCH | G_SNV
  deriving DecidableEq, Repr

/-- The underlying integer of a `GS_218h_GZC` member. -/
def GS_218h_GZC.toNat : GS_218h_GZC → Nat
  | .G_N => 0 | .G_D1 => 1 | .G_D2 => 2 | .G_D3 => 3 | .G_D4 => 4 | .G_D5 => 5 | .G_D6 => 6
  | .G_D7 => 7 | .G_D_CVT => 8 | .G_R_CVT => 9 | .G_R3 => 10 | .G_R => 11 | .G_R2 => 12
  | .G_P => 13 | .G_ABBRUCH => 14 | .G_SNV => 15

/-- Enumeration `GS_218h_FPC_AAD`: Driving program for AAD. -/
inductive GS_218h_FPC_AAD where
  | SPORT | KOMFORT | UNKNOWN | SNV
  deriving DecidableEq, Repr

/-- The underlying integer of a `GS_218h_FPC_AAD` member. -/
def GS_218h_FPC_AAD.toNat : GS_218h_FPC_AAD → Nat
  | .SPORT => 0 | .KOMFORT => 1 | .UNKNOWN => 2 | .SNV => 3

/-- Enumeration `GS_218h_FEHLPRF_ST`: Status Error Check. -/
inductive GS_218h_FEHLPRF_ST where
  | WAIT | OK | ERROR | UNKNOWN
  deriving DecidableEq, Repr

/-- The underlying integer of a `GS_218h_FEHLPRF_ST` member. -/
def GS_218h_FEHLPRF_ST.toNat : GS_218h_FEHLPRF_ST → Nat
  | .WAIT => 0 | .OK => 1 | .ERROR => 2 | .UNKNOWN => 3

/-- Enumeration `GS_418h_FPC`: Driving program. -/
inductive GS_418h_FPC where
  | C_MGFB_WT | C_MGSNN | C_MGBB | C_MGGEA | C_MGZSN | A_MGFB_WT | A_MGSNN | A_MGBB | A_MGGEA
  | A_MGZSN | S_MGFB_WT | S_MGSNN | S_MGBB | S_MGGEA | S_MGZSN | HOCH | RUNTER | BLANK
  | BLANK_MGN | A | C | F | M | S | W | UNDERSCORE | BLANK_MGW | A_MGN | C_MGN | M_MGN | S_MGN
  | W_MGN | __MGN | A_MGW | C_MGW | F_MGW | M_MGW | S_MGW | W_MGW | __MGW | SNV
  deriving DecidableEq, Repr

/-- The underlying integer of a `GS_418h_FPC` member. -/
def GS_418h_FPC.toNat : GS_418h_FPC → Nat
  | .C_MGFB_WT => 2 | .C_MGSNN => 3 | .C_MGBB => 4 | .C_MGGEA => 6 | .C_MGZSN => 7
  | .A_MGFB_WT => 10 | .A_MGSNN => 11 | .A_MGBB => 12 | .A_MGGEA => 14 | .A_MGZSN => 15
  | .S_MGFB_WT => 18 | .S_MGSNN => 19 | .S_MGBB => 20 | .S_MGGEA => 22 | .S_MGZSN => 23
  | .HOCH => 24 | .RUNTER => 25 | .BLANK => 32 | .BLANK_MGN => 64 | .A => 65 | .C => 67
  | .F => 70 | .M => 77 | .S => 83 | .W => 87 | .UNDERSCORE => 95 | .BLANK_MGW => 96
  | .A_MGN => 97 | .C_MGN => 99 | .M_MGN => 109 | .S_MGN => 115 | .W_MGN => 119 | .__MGN => 127
  | .A_MGW => 129 | .C_MGW => 131 | .F_MGW => 134 | .M_MGW => 141 | .S_MGW => 147
  | .W_MGW => 151 | .__MGW => 159 | .SNV => 255

/-- Enumeration `GS_418h_MECH`: Gear mechanics variant. -/
inductive GS_418h_MECH where
  | GROSS | KLEIN | GROSS2 | KLEIN2
  deriving DecidableEq, Repr

/-- The underlying integer of a `GS_418h_MECH` member. -/
def GS_418h_MECH.toNat : GS_418h_MECH → Nat
  | .GROSS => 0 | .KLEIN => 1 | .GROSS2 => 2 | .KLEIN2 => 3

/-- Enumeration `GS_418h_GZC`: target gear. -/
inductive GS_418h_GZC where
  | G_N | G_D1 | G_D2 | G_D3 | G_D4 | G_D5 | G_D6 | G_D7 | G_D_CVT | G_R_CVT | G_R3 | G_R
  | G_R2 | G_P | G_ABBRUCH | G_SNV
  deriving DecidableEq, Repr

/-- The underlying integer of a `GS_418h_GZC` member. -/
def GS_418h_GZC.toNat : GS_418h_GZC → Nat
  | .G_N => 0 | .G_D1 => 1 | .G_D2 => 2 | .G_D3 => 3 | .G_D4 => 4 | .G_D5 => 5 | .G_D6 => 6
  | .G_D7 => 7 | .G_D_CVT => 8 | .G_R_CVT => 9 | .G_R3 => 10 | .G_R => 11 | .G_R2 => 12
  | .G_P => 13 | .G_ABBRUCH => 14 | .G_SNV => 15

/-- Enumeration `GS_418h_GIC`: actual gear. -/
inductive GS_418h_GIC where
  | G_N | G_D1 | G_D2 | G_D3 | G_D4 | G_D5 | G_D6 | G_D7 | G_D_CVT | G_R_CVT | G_R3 | G_R
  | G_R2 | G_P | G_KRAFTFREI | G_SNV
  deriving DecidableEq, Repr

/-- The underlying integer of a `GS_418h_GIC` member. -/
def GS_418h_GIC.toNat : GS_418h_GIC → Nat
  | .G_N => 0 | .G_D1 => 1 | .G_D2 => 2 | .G_D3 => 3 | .G_D4 => 4 | .G_D5 => 5 | .G_D6 => 6
  | .G_D7 => 7 | .G_D_CVT => 8 | .G_R_CVT => 9 | .G_R3 => 10 | .G_R => 11 | .G_R2 => 12
  | .G_P => 13 | .G_KRAFTFREI => 14 | .G_SNV => 15

/-- Enumeration `GS_418h_WHST`: gear selector lever position (NAG, KSG, CVT). -/
inductive GS_418h_WHST where
  | P | R | N | D | SNV
  deriving DecidableEq, Repr

/-- The underlying integer of a `GS_418h_WHST` member. -/
def GS_418h_WHST.toNat : GS_418h_WHST → Nat
  | .P => 0 | .R => 1 | .N => 2 | .D => 4 | .SNV => 7

/-! ## GS.h: the fields of GS_218, GS_338 and GS_418

Every setter is `raw = (raw & mask) | ((uint64_t)value & vmask) << offset` and
every getter `raw >> offset & vmask`, with the constants of the source. A
`bool` field takes and gives a `Bool`; a field of an integer, `char` or
enumeration type takes and gives the underlying number. In every setter the
shifted operand ends at bit 63 or below, so nothing is lost in 64 bits. -/

/-- Setter `GS_218::set_MTGL_EGS(bool)`, source line 190. -/
def GS_218.set_MTGL_EGS (f : GS_218) (value : Bool) : GS_218 :=
  { raw := (f.raw &&& 0x7fffffffffffffff) ||| ((value.toNat &&& 0x1) <<< 63) }

/-- Getter `GS_218::get_MTGL_EGS`. -/
def GS_218.get_MTGL_EGS (f : GS_218) : Bool :=
  ((f.raw >>> 63) &&& 0x1) != 0

/-- Setter `GS_218::set_MMIN_EGS(bool)`, source line 196. -/
def GS_218.set_MMIN_EGS (f : GS_218) (value : Bool) : GS_218 :=
  { raw := (f.raw &&& 0xbfffffffffffffff) ||| ((value.toNat &&& 0x1) <<< 62) }

/-- Getter `GS_218::get_MMIN_EGS`. -/
def GS_218.get_MMIN_EGS (f : GS_218) : Bool :=
  ((f.raw >>> 62) &&& 0x1) != 0

/-- Setter `GS_218::set_MMAX_EGS(bool)`, source line 202. -/
def GS_218.set_MMAX_EGS (f : GS_218) (value : Bool) : GS_218 :=
  { raw := (f.raw &&& 0xdfffffffffffffff) ||| ((value.toNat &&& 0x1) <<< 61) }

/-- Getter `GS_218::get_MMAX_EGS`. -/
def GS_218.get_MMAX_EGS (f : GS_218) : Bool :=
  ((f.raw >>> 61) &&& 0x1) != 0

/-- Setter `GS_218::set_M_EGS(uint16_t)`, source line 208. -/
def GS_218.set_M_EGS (f : GS_218) (value : Nat) : GS_218 :=
  { raw := (f.raw &&& 0xe000ffffffffffff) ||| ((value &&& 0x1fff) <<< 48) }

/-- Getter `GS_218::get_M_EGS`. -/
def GS_218.get_M_EGS (f : GS_218) : Nat :=
  (f.raw >>> 48) &&& 0x1fff

/-- Setter `GS_218::set_GZC(GS_218h_GZC)`, source line 214. -/
def GS_218.set_GZC (f : GS_218) (value : Nat) : GS_218 :=
  { raw := (f.raw &&& 0xffff0fffffffffff) ||| ((value &&& 0xf) <<< 44) }

/-- Getter `GS_218::get_GZC`. -/
def GS_218.get_GZC (f : GS_218) : Nat :=
  (f.raw >>> 44) &&& 0xf

/-- Setter `GS_218::set_K_S_B(bool)`, source line 226. -/
def GS_218.set_K_S_B (f : GS_218) (value : Bool) : GS_218 :=
  { raw := (f.raw &&& 0xffffff7fffffffff) ||| ((value.toNat &&& 0x1) <<< 39) }

/-- Getter `GS_218::get_K_S_B`. -/
def GS_218.get_K_S_B (f : GS_218) : Bool :=
  ((f.raw >>> 39) &&& 0x1) != 0

/-- Setter `GS_218::set_K_O_B(bool)`, source line 232. -/
def GS_218.set_K_O_B (f : GS_218) (value : Bool) : GS_218 :=
  { raw := (f.raw &&& 0xffffffbfffffffff) ||| ((value.toNat &&& 0x1) <<< 38) }

/-- Getter `GS_218::get_K_O_B`. -/
def GS_218.get_K_O_B (f : GS_218) : Bool :=
  ((f.raw >>> 38) &&& 0x1) != 0

/-- Setter `GS_218::set_K_G_B(bool)`, source line 238. -/
def GS_218.set_K_G_B (f : GS_218) (value : Bool) : GS_218 :=
  { raw := (f.raw &&& 0xffffffdfffffffff) ||| ((value.toNat &&& 0x1) <<< 37) }

/-- Getter `GS_218::get_K_G_B`. -/
def GS_218.get_K_G_B (f : GS_218) : Bool :=
  ((f.raw >>> 37) &&& 0x1) != 0

/-- Setter `GS_218::set_G_G(bool)`, source line 244. -/
def GS_218.set_G_G (f : GS_218) (value : Bool) : GS_218 :=
  { raw := (f.raw &&& 0xffffffefffffffff) ||| ((value.toNat &&& 0x1) <<< 36) }

/-- Getter `GS_218::get_G_G`. -/
def GS_218.get_G_G (f : GS_218) : Bool :=
  ((f.raw >>> 36) &&& 0x1) != 0

/-- Setter `GS_218::set_GSP_OK(bool)`, source line 250. -/
def GS_218.set_GSP_OK (f : GS_218) (value : Bool) : GS_218 :=
  { raw := (f.raw &&& 0xfffffff7ffffffff) ||| ((value.toNat &&& 0x1) <<< 35) }

/-- Getter `GS_218::get_GSP_OK`. -/
def GS_218.get_GSP_OK (f : GS_218) : Bool :=
  ((f.raw >>> 35) &&& 0x1) != 0

/-- Setter `GS_218::set_FW_HOCH(bool)`, source line 256. -/
def GS_218.set_FW_HOCH (f : GS_218) (value : Bool) : GS_218 :=
  { raw := (f.raw &&& 0xfffffffbffffffff) ||| ((value.toNat &&& 0x1) <<< 34) }

/-- Getter `GS_218::get_FW_HOCH`. -/
def GS_218.get_FW_HOCH (f : GS_218) : Bool :=
  ((f.raw >>> 34) &&& 0x1) != 0

/-- Setter `GS_218::set_SCHALT(bool)`, source line 262. -/
def GS_218.set_SCHALT (f : GS_218) (value : Bool) : GS_218 :=
  { raw := (f.raw &&& 0xfffffffdffffffff) ||| ((value.toNat &&& 0x1) <<< 33) }

/-- Getter `GS_218::get_SCHALT`. -/
def GS_218.get_SCHALT (f : GS_218) : Bool :=
  ((f.raw >>> 33) &&& 0x1) != 0

/-- Setter `GS_218::set_HSM(bool)`, source line 268. -/
def GS_218.set_HSM (f : GS_218) (value : Bool) : GS_218 :=
  { raw := (f.raw &&& 0xfffffffeffffffff) ||| ((value.toNat &&& 0x1) <<< 32) }

/-- Getter `GS_218::get_HSM`. -/
def GS_218.get_HSM (f : GS_218) : Bool :=
  ((f.raw >>> 32) &&& 0x1) != 0

/-- Setter `GS_218::set_GET_OK(bool)`, source line 274. -/
def GS_218.set_GET_OK (f : GS_218) (value : Bool) : GS_218 :=
  { raw := (f.raw &&& 0xffffffff7fffffff) ||| ((value.toNat &&& 0x1) <<< 31) }

/-- Getter `GS_218::get_GET_OK`. -/
def GS_218.get_GET_OK (f : GS_218) : Bool :=
  ((f.raw >>> 31) &&& 0x1) != 0

/-- Setter `GS_218::set_KS(bool)`, source line 280. -/
def GS_218.set_KS (f : GS_218) (value : Bool) : GS_218 :=
  { raw := (f.raw &&& 0xffffffffbfffffff) ||| ((value.toNat &&& 0x1) <<< 30) }

/-- Getter `GS_218::get_KS`. -/
def GS_218.get_KS (f : GS_218) : Bool :=
  ((f.raw >>> 30) &&& 0x1) != 0

/-- Setter `GS_218::set_ALF(bool)`, source line 286. -/
def GS_218.set_ALF (f : GS_218) (value : Bool) : GS_218 :=
  { raw := (f.raw &&& 0xffffffffdfffffff) ||| ((value.toNat &&& 0x1) <<< 29) }

/-- Getter `GS_218::get_ALF`. -/
def GS_218.get_ALF (f : GS_218) : Bool :=
  ((f.raw >>> 29) &&& 0x1) != 0

/-- Setter `GS_218::set_GS_NOTL(bool)`, source line 292. -/
def GS_218.set_GS_NOTL (f : GS_218) (value : Bool) : GS_218 :=
  { raw := (f.raw &&& 0xffffffffefffffff) ||| ((value.toNat &&& 0x1) <<< 28) }

/-- Getter `GS_218::get_GS_NOTL`. -/
def GS_218.get_GS_NOTL (f : GS_218) : Bool :=
  ((f.raw >>> 28) &&& 0x1) != 0

/-- Setter `GS_218::set_UEHITZ_GET(bool)`, source line 298. -/
def GS_218.set_UEHITZ_GET (f : GS_218) (value : Bool) : GS_218 :=
  { raw := (f.raw &&& 0xfffffffff7ffffff) ||| ((value.toNat &&& 0x1) <<< 27) }

/-- Getter `GS_218::get_UEHITZ_GET`. -/
def GS_218.get_UEHITZ_GET (f : GS_218) : Bool :=
  ((f.raw >>> 27) &&& 0x1) != 0

/-- Setter `GS_218::set_KD(bool)`, source line 304. -/
def GS_218.set_KD (f : GS_218) (value : Bool) : GS_218 :=
  { raw := (f.raw &&& 0xfffffffffbffffff) ||| ((value.toNat &&& 0x1) <<< 26) }

/-- Getter `GS_218::get_KD`. -/
def GS_218.get_KD (f : GS_218) : Bool :=
  ((f.raw >>> 26) &&& 0x1) != 0

/-- Setter `GS_218::set_FPC_AAD(GS_218h_FPC_AAD)`, source line 310. -/
def GS_218.set_FPC_AAD (f : GS_218) (value : Nat) : GS_218 :=
  { raw := (f.raw &&& 0xfffffffffcffffff) ||| ((value &&& 0x3) <<< 24) }

/-- Getter `GS_218::get_FPC_AAD`. -/
def GS_218.get_FPC_AAD (f : GS_218) : Nat :=
  (f.raw >>> 24) &&& 0x3

/-- Setter `GS_218::set_MPAR_EGS(bool)`, source line 316. -/
def GS_218.set_MPAR_EGS (f : GS_218) (value : Bool) : GS_218 :=
  { raw := (f.raw &&& 0xffffffffff7fffff) ||| ((value.toNat &&& 0x1) <<< 23) }

/-- Getter `GS_218::get_MPAR_EGS`. -/
def GS_218.get_MPAR_EGS (f : GS_218) : Bool :=
  ((f.raw >>> 23) &&& 0x1) != 0

/-- Setter `GS_218::set_DYN1_EGS(bool)`, source line 322. -/
def GS_218.set_DYN1_EGS (f : GS_218) (value : Bool) : GS_218 :=
  { raw := (f.raw &&& 0xffffffffffbfffff) ||| ((value.toNat &&& 0x1) <<< 22) }

/-- Getter `GS_218::get_DYN1_EGS`. -/
def GS_218.get_DYN1_EGS (f : GS_218) : Bool :=
  ((f.raw >>> 22) &&& 0x1) != 0

/-- Setter `GS_218::set_DYN0_AMR_EGS(bool)`, source line 328. -/
def GS_218.set_DYN0_AMR_EGS (f : GS_218) (value : Bool) : GS_218 :=
  { raw := (f.raw &&& 0xffffffffffdfffff) ||| ((value.toNat &&& 0x1) <<< 21) }

/-- Getter `GS_218::get_DYN0_AMR_EGS`. -/
def GS_218.get_DYN0_AMR_EGS (f : GS_218) : Bool :=
  ((f.raw >>> 21) &&& 0x1) != 0

/-- Setter `GS_218::set_K_LSTFR(bool)`, source line 334. -/
def GS_218.set_K_LSTFR (f : GS_218) (value : Bool) : GS_218 :=
  { raw := (f.raw &&& 0xfffffffffffbffff) ||| ((value.toNat &&& 0x1) <<< 18) }

/-- Getter `GS_218::get_K_LSTFR`. -/
def GS_218.get_K_LSTFR (f : GS_218) : Bool :=
  ((f.raw >>> 18) &&& 0x1) != 0

/-- Setter `GS_218::set_MOT_NAUS_CNF(bool)`, source line 340. -/
def GS_218.set_MOT_NAUS_CNF (f : GS_218) (value : Bool) : GS_218 :=
  { raw := (f.raw &&& 0xfffffffffffdffff) ||| ((value.toNat &&& 0x1) <<< 17) }

/-- Getter `GS_218::get_MOT_NAUS_CNF`. -/
def GS_218.get_MOT_NAUS_CNF (f : GS_218) : Bool :=
  ((f.raw >>> 17) &&& 0x1) != 0

/-- Setter `GS_218::set_MOT_NAUS(bool)`, source line 346. -/
def GS_218.set_MOT_NAUS (f : GS_218) (value : Bool) : GS_218 :=
  { raw := (f.raw &&& 0xfffffffffffeffff) ||| ((value.toNat &&& 0x1) <<< 16) }

/-- Getter `GS_218::get_MOT_NAUS`. -/
def GS_218.get_MOT_NAUS (f : GS_218) : Bool :=
  ((f.raw >>> 16) &&& 0x1) != 0

/-- Setter `GS_218::set_MKRIECH(uint8_t)`, source line 352. -/
def GS_218.set_MKRIECH (f : GS_218) (value : Nat) : GS_218 :=
  { raw := (f.raw &&& 0xffffffffffff00ff) ||| ((value &&& 0xff) <<< 8) }

/-- Getter `GS_218::get_MKRIECH`. -/
def GS_218.get_MKRIECH (f : GS_218) : Nat :=
  (f.raw >>> 8) &&& 0xff

/-- Setter `GS_218::set_FEHLPRF_ST(GS_218h_FEHLPRF_ST)`, source line 358. -/
def GS_218.set_FEHLPRF_ST (f : GS_218) (value : Nat) : GS_218 :=
  { raw := (f.raw &&& 0xffffffffffffff3f) ||| ((value &&& 0x3) <<< 6) }

/-- Getter `GS_218::get_FEHLPRF_ST`. -/
def GS_218.get_FEHLPRF_ST (f : GS_218) : Nat :=
  (f.raw >>> 6) &&& 0x3

/-- Setter `GS_218::set_CALID_CVN_AKT(bool)`, source line 364. -/
def GS_218.set_CALID_CVN_AKT (f : GS_218) (value : Bool) : GS_218 :=
  { raw := (f.raw &&& 0xffffffffffffffdf) ||| ((value.toNat &&& 0x1) <<< 5) }

/-- Getter `GS_218::get_CALID_CVN_AKT`. -/
def GS_218.get_CALID_CVN_AKT (f : GS_218) : Bool :=
  ((f.raw >>> 5) &&& 0x1) != 0

/-- Setter `GS_218::set_FEHLER(uint8_t)`, source line 370. -/
def GS_218.set_FEHLER (f : GS_218) (value : Nat) : GS_218 :=
  { raw := (f.raw &&& 0xffffffffffffffe0) ||| ((value &&& 0x1f) <<< 0) }

/-- Getter `GS_218::get_FEHLER`. -/
def GS_218.get_FEHLER (f : GS_218) : Nat :=
  (f.raw >>> 0) &&& 0x1f

/-- Setter `GS_338::set_NAB(uint16_t)`, source line 386. -/
def GS_338.set_NAB (f : GS_338) (value : Nat) : GS_338 :=
  { raw := (f.raw &&& 0x0000ffffffffffff) ||| ((value &&& 0xffff) <<< 48) }

/-- Getter `GS_338::get_NAB`. -/
def GS_338.get_NAB (f : GS_338) : Nat :=
  (f.raw >>> 48) &&& 0xffff

/-- Setter `GS_338::set_NTURBINE(uint16_t)`, source line 392. -/
def GS_338.set_NTURBINE (f : GS_338) (value : Nat) : GS_338 :=
  { raw := (f.raw &&& 0xffffffffffff0000) ||| ((value &&& 0xffff) <<< 0) }

/-- Getter `GS_338::get_NTURBINE`. -/
def GS_338.get_NTURBINE (f : GS_338) : Nat :=
  (f.raw >>> 0) &&& 0xffff

/-- Setter `GS_418::set_FSC(char)`, source line 408. -/
def GS_418.set_FSC (f : GS_418) (value : Nat) : GS_418 :=
  { raw := (f.raw &&& 0x00ffffffffffffff) ||| ((value &&& 0xff) <<< 56) }

/-- Getter `GS_418::get_FSC`. -/
def GS_418.get_FSC (f : GS_418) : Nat :=
  (f.raw >>> 56) &&& 0xff

/-- Setter `GS_418::set_FPC(GS_418h_FPC)`, source line 414. -/
def GS_418.set_FPC (f : GS_418) (value : Nat) : GS_418 :=
  { raw := (f.raw &&& 0xff00ffffffffffff) ||| ((value &&& 0xff) <<< 48) }

/-- Getter `GS_418::get_FPC`. -/
def GS_418.get_FPC (f : GS_418) : Nat :=
  (f.raw >>> 48) &&& 0xff

/-- Setter `GS_418::set_T_GET(uint8_t)`, source line 420. -/
def GS_418.set_T_GET (f : GS_418) (value : Nat) : GS_418 :=
  { raw := (f.raw &&& 0xffff00ffffffffff) ||| ((value &&& 0xff) <<< 40) }

/-- Getter `GS_418::get_T_GET`. -/
def GS_418.get_T_GET (f : GS_418) : Nat :=
  (f.raw >>> 40) &&& 0xff

/-- Setter `GS_418::set_ALLRAD(bool)`, source line 426. -/
def GS_418.set_ALLRAD (f : GS_418) (value : Bool) : GS_418 :=
  { raw := (f.raw &&& 0xffffff7fffffffff) ||| ((value.toNat &&& 0x1) <<< 39) }

/-- Getter `GS_418::get_ALLRAD`. -/
def GS_418.get_ALLRAD (f : GS_418) : Bool :=
  ((f.raw >>> 39) &&& 0x1) != 0

/-- Setter `GS_418::set_FRONT(bool)`, source line 432. -/
def GS_418.set_FRONT (f : GS_418) (value : Bool) : GS_418 :=
  { raw := (f.raw &&& 0xffffffbfffffffff) ||| ((value.toNat &&& 0x1) <<< 38) }

/-- Getter `GS_418::get_FRONT`. -/
def GS_418.get_FRONT (f : GS_418) : Bool :=
  ((f.raw >>> 38) &&& 0x1) != 0

/-- Setter `GS_418::set_SCHALT(bool)`, source line 438. -/
def GS_418.set_SCHALT (f : GS_418) (value : Bool) : GS_418 :=
  { raw := (f.raw &&& 0xffffffdfffffffff) ||| ((value.toNat &&& 0x1) <<< 37) }

/-- Getter `GS_418::get_SCHALT`. -/
def GS_418.get_SCHALT (f : GS_418) : Bool :=
  ((f.raw >>> 37) &&& 0x1) != 0

/-- Setter `GS_418::set_CVT(bool)`, source line 444. -/
def GS_418.set_CVT (f : GS_418) (value : Bool) : GS_418 :=
  { raw := (f.raw &&& 0xffffffefffffffff) ||| ((value.toNat &&& 0x1) <<< 36) }

/-- Getter `GS_418::get_CVT`. -/
def GS_418.get_CVT (f : GS_418) : Bool :=
  ((f.raw >>> 36) &&& 0x1) != 0

/-- Setter `GS_418::set_MECH(GS_418h_MECH)`, source line 450. -/
def GS_418.set_MECH (f : GS_418) (value : Nat) : GS_418 :=
  { raw := (f.raw &&& 0xfffffff3ffffffff) ||| ((value &&& 0x3) <<< 34) }

/-- Getter `GS_418::get_MECH`. -/
def GS_418.get_MECH (f : GS_418) : Nat :=
  (f.raw >>> 34) &&& 0x3

/-- Setter `GS_418::set_ESV_BRE(bool)`, source line 456. -/
def GS_418.set_ESV_BRE (f : GS_418) (value : Bool) : GS_418 :=
  { raw := (f.raw &&& 0xfffffffdffffffff) ||| ((value.toNat &&& 0x1) <<< 33) }

/-- Getter `GS_418::get_ESV_BRE`. -/
def GS_418.get_ESV_BRE (f : GS_418) : Bool :=
  ((f.raw >>> 33) &&& 0x1) != 0

/-- Setter `GS_418::set_KD(bool)`, source line 462. -/
def GS_418.set_KD (f : GS_418) (value : Bool) : GS_418 :=
  { raw := (f.raw &&& 0xfffffffeffffffff) ||| ((value.toNat &&& 0x1) <<< 32) }

/-- Getter `GS_418::get_KD`. -/
def GS_418.get_KD (f : GS_418) : Bool :=
  ((f.raw >>> 32) &&& 0x1) != 0

/-- Setter `GS_418::set_GZC(GS_418h_GZC)`, source line 468. -/
def GS_418.set_GZC (f : GS_418) (value : Nat) : GS_418 :=
  { raw := (f.raw &&& 0xffffffff0fffffff) ||| ((value &&& 0xf) <<< 28) }

/-- Getter `GS_418::get_GZC`. -/
def GS_418.get_GZC (f : GS_418) : Nat :=
  (f.raw >>> 28) &&& 0xf

/-- Setter `GS_418::set_GIC(GS_418h_GIC)`, source line 474. -/
def GS_418.set_GIC (f : GS_418) (value : Nat) : GS_418 :=
  { raw := (f.raw &&& 0xfffffffff0ffffff) ||| ((value &&& 0xf) <<< 24) }

/-- Getter `GS_418::get_GIC`. -/
def GS_418.get_GIC (f : GS_418) : Nat :=
  (f.raw >>> 24) &&& 0xf

/-- Setter `GS_418::set_M_VERL(uint8_t)`, source line 480. -/
def GS_418.set_M_VERL (f : GS_418) (value : Nat) : GS_418 :=
  { raw := (f.raw &&& 0xffffffffff00ffff) ||| ((value &&& 0xff) <<< 16) }

/-- Getter `GS_418::get_M_VERL`. -/
def GS_418.get_M_VERL (f : GS_418) : Nat :=
  (f.raw >>> 16) &&& 0xff

/-- Setter `GS_418::set_FMRADPAR(bool)`, source line 486. -/
def GS_418.set_FMRADPAR (f : GS_418) (value : Bool) : GS_418 :=
  { raw := (f.raw &&& 0xffffffffffff7fff) ||| ((value.toNat &&& 0x1) <<< 15) }

/-- Getter `GS_418::get_FMRADPAR`. -/
def GS_418.get_FMRADPAR (f : GS_418) : Bool :=
  ((f.raw >>> 15) &&& 0x1) != 0

/-- Setter `GS_418::set_FMRADTGL(bool)`, source line 492. -/
def GS_418.set_FMRADTGL (f : GS_418) (value : Bool) : GS_418 :=
  { raw := (f.raw &&& 0xffffffffffffbfff) ||| ((value.toNat &&& 0x1) <<< 14) }

/-- Getter `GS_418::get_FMRADTGL`. -/
def GS_418.get_FMRADTGL (f : GS_418) : Bool :=
  ((f.raw >>> 14) &&& 0x1) != 0

/-- Setter `GS_418::set_WHST(GS_418h_WHST)`, source line 498. -/
def GS_418.set_WHST (f : GS_418) (value : Nat) : GS_418 :=
  { raw := (f.raw &&& 0xffffffffffffc7ff) ||| ((value &&& 0x7) <<< 11) }

/-- Getter `GS_418::get_WHST`. -/
def GS_418.get_WHST (f : GS_418) : Nat :=
  (f.raw >>> 11) &&& 0x7

/-- Setter `GS_418::set_FMRAD(uint16_t)`, source line 504. -/
def GS_418.set_FMRAD (f : GS_418) (value : Nat) : GS_418 :=
  { raw := (f.raw &&& 0xfffffffffffff800) ||| ((value &&& 0x7ff) <<< 0) }

/-- Getter `GS_418::get_FMRAD`. -/
def GS_418.get_FMRAD (f : GS_418) : Nat :=
  (f.raw >>> 0) &&& 0x7ff

/-- A setter and getter pair of a field of width `w` round-trips: the getter
after the setter gives the argument modulo `2 ^ w`, hence the argument itself
when it is below `2 ^ w`. -/
def RoundTrip {α : Type} (set : α → Nat → α) (get : α → Nat) (w : Nat) : Prop :=
  ∀ (f : α) (v : Nat), get (set f v) = v % 2 ^ w ∧ (v < 2 ^ w → get (set f v) = v)

/-- A setter and getter pair of a `bool` field round-trips. -/
def RoundTripFlag {α : Type} (set : α → Bool → α) (get : α → Bool) : Prop :=
  ∀ (f : α) (b : Bool), get (set f b) = b

/-! ## gearbox.h: the nominal ratios and the stored values of the table entries -/

/-- The values of the members of `GEAR_RATIO_LIMITS` written out; that the
table has these values is `GEAR_RATIO_LIMITS_eq_values`. -/
def GEAR_RATIO_LIMITS_values : Fin 7 → GearRatioLimit
  | 0 => { max := 9070371 / 2 ^ 21, min := 7421213 / 2 ^ 21 }
  | 1 => { max := 11109411 / 2 ^ 22, min := 4544759 / 2 ^ 21 }
  | 2 => { max := 6854625 / 2 ^ 22, min := 11216659 / 2 ^ 23 }
  | 3 => { max := 9227469 / 2 ^ 23, min := 7549747 / 2 ^ 23 }
  | 4 => { max := 7663413 / 2 ^ 23, min := 6270065 / 2 ^ 23 }
  | 5 => { max := -11702863 / 2 ^ 22, min := -14303499 / 2 ^ 22 }
  | 6 => { max := -7166975 / 2 ^ 22, min := -2189909 / 2 ^ 20 }


/-- The nominal ratio `RAT_n` from which entry `i` of `GEAR_RATIO_LIMITS` is
built. -/
def GEAR_RATIO_NOMINAL : Fin 7 → ℚ
  | 0 => RAT_1
  | 1 => RAT_2
  | 2 => RAT_3
  | 3 => RAT_4
  | 4 => RAT_5
  | 5 => RAT_R1
  | 6 => RAT_R2

/-! ## solenoids.cpp: the averaging of the sampling loop -/

def BYTES_PER_SAMPLE : Nat := 2
def NUM_SAMPLES : Nat := 1024
def SAMPLE_COUNT : Nat := 3

/-- The 16-bit sample at byte index `i` of `dma_buffer`:
`(uint32_t)(dma_buffer[i] << 8 | dma_buffer[i+1])`. The buffer is the list of
its bytes, each taken as an unsigned value. -/
def dma_sample (dma_buffer : List Nat) (i : Nat) : Nat :=
  (((dma_buffer.getD i 0) <<< 8) ||| (dma_buffer.getD (i + 1) 0)) % 2 ^ 32

/-- The inner `for` loop over the buffer with `n` iterations left to run:
`tmp += sample` in `uint32_t`, then `i += BYTES_PER_SAMPLE`. -/
def dma_sum_loop (dma_buffer : List Nat) : Nat → Nat → Nat → Nat
  | 0, _, tmp => tmp
  | n + 1, i, tmp =>
    dma_sum_loop dma_buffer n (i + BYTES_PER_SAMPLE) ((tmp + dma_sample dma_buffer i) % 2 ^ 32)

/-- The value `samples[sample_id] = tmp / NUM_SAMPLES` of one read: the loop
runs from `i = 0` while `i < BYTES_PER_SAMPLE*NUM_SAMPLES`, which is
`NUM_SAMPLES` iterations. -/
def dma_mean (dma_buffer : List Nat) : Nat :=
  dma_sum_loop dma_buffer NUM_SAMPLES 0 0 / NUM_SAMPLES

/-- The value of `avg` after the three reads of one visit: the means are added
up in `uint32_t`, then `avg /= SAMPLE_COUNT`. The arguments are the buffer
contents at the three reads. -/
def dma_average (b0 b1 b2 : List Nat) : Nat :=
  let avg := 0
  let avg := (avg + dma_mean b0) % 2 ^ 32
  let avg := (avg + dma_mean b1) % 2 ^ 32
  let avg := (avg + dma_mean b2) % 2 ^ 32
  avg / SAMPLE_COUNT

/-- The sum of the samples of the first `n` iterations without any reduction
modulo `2 ^ 32`, for comparison with `dma_sum_loop`. -/
def dma_sum_exact (dma_buffer : List Nat) : Nat → Nat → Nat
  | 0, _ => 0
  | n + 1, i =>
    ((dma_buffer.getD i 0) * 256 + dma_buffer.getD (i + 1) 0) +
      dma_sum_exact dma_buffer n (i + BYTES_PER_SAMPLE)

/-! ## GS.h: the fields of GS_CUSTOM_558 -/

/-- Setter `GS_CUSTOM_558::set_MPC_DUTY(uint8_t)`, source line 520. -/
def GS_CUSTOM_558.set_MPC_DUTY (f : GS_CUSTOM_558) (value : Nat) : GS_CUSTOM_558 :=
  { raw := (f.raw &&& 0x00ffffffffffffff) ||| ((value &&& 0xff) <<< 56) }

/-- Getter `GS_CUSTOM_558::get_MPC_DUTY`. -/
def GS_CUSTOM_558.get_MPC_DUTY (f : GS_CUSTOM_558) : Nat :=
  (f.raw >>> 56) &&& 0xff

/-- Setter `GS_CUSTOM_558::set_SPC_DUTY(uint8_t)`, source line 526. -/
def GS_CUSTOM_558.set_SPC_DUTY (f : GS_CUSTOM_558) (value : Nat) : GS_CUSTOM_558 :=
  { raw := (f.raw &&& 0xff00ffffffffffff) ||| ((value &&& 0xff) <<< 48) }

/-- Getter `GS_CUSTOM_558::get_SPC_DUTY`. -/
def GS_CUSTOM_558.get_SPC_DUTY (f : GS_CUSTOM_558) : Nat :=
  (f.raw >>> 48) &&& 0xff

/-- Setter `GS_CUSTOM_558::set_TCC_DUTY(uint8_t)`, source line 532. -/
def GS_CUSTOM_558.set_TCC_DUTY (f : GS_CUSTOM_558) (value : Nat) : GS_CUSTOM_558 :=
  { raw := (f.raw &&& 0xffff00ffffffffff) ||| ((value &&& 0xff) <<< 40) }

/-- Getter `GS_CUSTOM_558::get_TCC_DUTY`. -/
def GS_CUSTOM_558.get_TCC_DUTY (f : GS_CUSTOM_558) : Nat :=
  (f.raw >>> 40) &&& 0xff

/-- Setter `GS_CUSTOM_558::set_TCC_SLIP(uint16_t)`, source line 538. -/
def GS_CUSTOM_558.set_TCC_SLIP (f : GS_CUSTOM_558) (value : Nat) : GS_CUSTOM_558 :=
  { raw := (f.raw &&& 0xffffffff0000ffff) ||| ((value &&& 0xffff) <<< 16) }

/-- Getter `GS_CUSTOM_558::get_TCC_SLIP`. -/
def GS_CUSTOM_558.get_TCC_SLIP (f : GS_CUSTOM_558) : Nat :=
  (f.raw >>> 16) &&& 0xffff

/-- Setter `GS_CUSTOM_558::set_AI_UP(uint8_t)`, source line 544. -/
def GS_CUSTOM_558.set_AI_UP (f : GS_CUSTOM_558) (value : Nat) : GS_CUSTOM_558 :=
  { raw := (f.raw &&& 0xffffffffffff00ff) ||| ((value &&& 0xff) <<< 8) }

/-- Getter `GS_CUSTOM_558::get_AI_UP`. -/
def GS_CUSTOM_558.get_AI_UP (f : GS_CUSTOM_558) : Nat :=
  (f.raw >>> 8) &&& 0xff

/-- Setter `GS_CUSTOM_558::set_AI_DN(uint8_t)`, source line 550. -/
def GS_CUSTOM_558.set_AI_DN (f : GS_CUSTOM_558) (value : Nat) : GS_CUSTOM_558 :=
  { raw := (f.raw &&& 0xffffffffffff00ff) ||| ((value &&& 0xff) <<< 8) }

/-- Getter `GS_CUSTOM_558::get_AI_DN`. -/
def GS_CUSTOM_558.get_AI_DN (f : GS_CUSTOM_558) : Nat :=
  (f.raw >>> 8) &&& 0xff

/-! ## GS.h: which numbers are members of an enumeration -/

/-- The member of `GS_218h_GZC` with a given underlying integer, if there is one. -/
def GS_218h_GZC.ofNat? : Nat → Option GS_218h_GZC
  | 0 => some .G_N | 1 => some .G_D1 | 2 => some .G_D2 | 3 => some .G_D3 | 4 => some .G_D4
  | 5 => some .G_D5 | 6 => some .G_D6 | 7 => some .G_D7 | 8 => some .G_D_CVT
  | 9 => some .G_R_CVT | 10 => some .G_R3 | 11 => some .G_R | 12 => some .G_R2
  | 13 => some .G_P | 14 => some .G_ABBRUCH | 15 => some .G_SNV
  | _ => none

/-- The member of `GS_218h_GIC` with a given underlying integer, if there is one. -/
def GS_218h_GIC.ofNat? : Nat → Option GS_218h_GIC
  | 0 => some .G_N | 1 => some .G_D1 | 2 => some .G_D2 | 3 => some .G_D3 | 4 => some .G_D4
  | 5 => some .G_D5 | 6 => some .G_D6 | 7 => some .G_D7 | 8 => some .G_D_CVT
  | 9 => some .G_R_CVT | 10 => some .G_R3 | 11 => some .G_R | 12 => some .G_R2
  | 13 => some .G_P | 14 => some .G_KRAFTFREI | 15 => some .G_SNV
  | _ => none

/-- The member of `GS_218h_FPC_AAD` with a given underlying integer, if there is one. -/
def GS_218h_FPC_AAD.ofNat? : Nat → Option GS_218h_FPC_AAD
  | 0 => some .SPORT | 1 => some .KOMFORT | 2 => some .UNKNOWN | 3 => some .SNV
  | _ => none

/-- The member of `GS_218h_FEHLPRF_ST` with a given underlying integer, if there is one. -/
def GS_218h_FEHLPRF_ST.ofNat? : Nat → Option GS_218h_FEHLPRF_ST
  | 0 => some .WAIT | 1 => some .OK | 2 => some .ERROR | 3 => some .UNKNOWN
  | _ => none

/-- The member of `GS_418h_FPC` with a given underlying integer, if there is one. -/
def GS_418h_FPC.ofNat? : Nat → Option GS_418h_FPC
  | 2 => some .C_MGFB_WT | 3 => some .C_MGSNN | 4 => some .C_MGBB | 6 => some .C_MGGEA
  | 7 => some .C_MGZSN | 10 => some .A_MGFB_WT | 11 => some .A_MGSNN | 12 => some .A_MGBB
  | 14 => some .A_MGGEA | 15 => some .A_MGZSN | 18 => some .S_MGFB_WT | 19 => some .S_MGSNN
  | 20 => some .S_MGBB | 22 => some .S_MGGEA | 23 => some .S_MGZSN | 24 => some .HOCH
  | 25 => some .RUNTER | 32 => some .BLANK | 64 => some .BLANK_MGN | 65 => some .A
  | 67 => some .C | 70 => some .F | 77 => some .M | 83 => some .S | 87 => some .W
  | 95 => some .UNDERSCORE | 96 => some .BLANK_MGW | 97 => some .A_MGN | 99 => some .C_MGN
  | 109 => some .M_MGN | 115 => some .S_MGN | 119 => some .W_MGN | 127 => some .__MGN
  | 129 => some .A_MGW | 131 => some .C_MGW | 134 => some .F_MGW | 141 => some .M_MGW
  | 147 => some .S_MGW | 151 => some .W_MGW | 159 => some .__MGW | 255 => some .SNV
  | _ => none

/-- The member of `GS_418h_MECH` with a given underlying integer, if there is one. -/
def GS_418h_MECH.ofNat? : Nat → Option GS_418h_MECH
  | 0 => some .GROSS | 1 => some .KLEIN | 2 => some .GROSS2 | 3 => some .KLEIN2
  | _ => none

/-- The member of `GS_418h_GZC` with a given underlying integer, if there is one. -/
def GS_418h_GZC.ofNat? : Nat → Option GS_418h_GZC
  | 0 => some .G_N | 1 => some .G_D1 | 2 => some .G_D2 | 3 => some .G_D3 | 4 => some .G_D4
  | 5 => some .G_D5 | 6 => some .G_D6 | 7 => some .G_D7 | 8 => some .G_D_CVT
  | 9 => some .G_R_CVT | 10 => some .G_R3 | 11 => some .G_R | 12 => some .G_R2
  | 13 => some .G_P | 14 => some .G_ABBRUCH | 15 => some .G_SNV
  | _ => none

/-- The member of `GS_418h_GIC` with a given underlying integer, if there is one. -/
def GS_418h_GIC.ofNat? : Nat → Option GS_418h_GIC
  | 0 => some .G_N | 1 => some .G_D1 | 2 => some .G_D2 | 3 => some .G_D3 | 4 => some .G_D4
  | 5 => some .G_D5 | 6 => some .G_D6 | 7 => some .G_D7 | 8 => some .G_D_CVT
  | 9 => some .G_R_CVT | 10 => some .G_R3 | 11 => some .G_R | 12 => some .G_R2
  | 13 => some .G_P | 14 => some .G_KRAFTFREI | 15 => some .G_SNV
  | _ => none

/-- The member of `GS_418h_WHST` with a given underlying integer, if there is one. -/
def GS_418h_WHST.ofNat? : Nat → Option GS_418h_WHST
  | 0 => some .P | 1 => some .R | 2 => some .N | 4 => some .D | 7 => some .SNV
  | _ => none

/-! ## GS.h: the fields of a union as a table

Each field with its bit offset, its width and its setter and getter. -/

/-- The setter and getter of a field: of a field of an integer, `char` or
enumeration type, or of a `bool` field. -/
inductive Accessors (α : Type) where
  | num (set : α → Nat → α) (get : α → Nat)
  | flag (set : α → Bool → α) (get : α → Bool)

/-- A call of the setter with the argument `v`; for a `bool` field the argument
is converted to `bool` as C++ does, `v != 0`. -/
def Accessors.write {α : Type} : Accessors α → α → Nat → α
  | .num set _, f, v => set f v
  | .flag set _, f, v => set f (v != 0)

/-- The value the getter returns, as a number (`false` is 0, `true` is 1). -/
def Accessors.read {α : Type} : Accessors α → α → Nat
  | .num _ get, f => get f
  | .flag _ get, f => (get f).toNat

/-- A field of a union: the bits `offset .. offset + width - 1` of `raw`. -/
structure FieldInfo (α : Type) where
  offset : Nat
  width : Nat
  acc : Accessors α

/-- The setter of the field changes no bit of `raw` below bit 64 that lies
outside the field. -/
def FieldInfo.writes_only_own_bits {α : Type} (raw : α → Nat) (X : FieldInfo α) : Prop :=
  ∀ (f : α) (v i : Nat), i < 64 → (i < X.offset ∨ X.offset + X.width ≤ i) →
    (raw (X.acc.write f v)).testBit i = (raw f).testBit i

/-- The getter of the field depends on the bits of the field only. -/
def FieldInfo.reads_only_own_bits {α : Type} (raw : α → Nat) (X : FieldInfo α) : Prop :=
  ∀ (f g : α),
    (∀ i : Nat, X.offset ≤ i → i < X.offset + X.width → (raw f).testBit i = (raw g).testBit i) →
    X.acc.read f = X.acc.read g

/-- The field lies within the 64 bits, its setter writes only its bits and its
getter reads only its bits. -/
def FieldInfo.frame_ok {α : Type} (raw : α → Nat) (X : FieldInfo α) : Prop :=
  X.offset + X.width ≤ 64 ∧ X.writes_only_own_bits raw ∧ X.reads_only_own_bits raw

/-- The fields of `GS_218`, in source order. -/
def GS_218.fields : List (FieldInfo GS_218) :=
  [⟨63, 1, .flag GS_218.set_MTGL_EGS GS_218.get_MTGL_EGS⟩,
   ⟨62, 1, .flag GS_218.set_MMIN_EGS GS_218.get_MMIN_EGS⟩,
   ⟨61, 1, .flag GS_218.set_MMAX_EGS GS_218.get_MMAX_EGS⟩,
   ⟨48, 13, .num GS_218.set_M_EGS GS_218.get_M_EGS⟩,
   ⟨44, 4, .num GS_218.set_GZC GS_218.get_GZC⟩,
   ⟨40, 4, .num GS_218.set_GIC GS_218.get_GIC⟩,
   ⟨39, 1, .flag GS_218.set_K_S_B GS_218.get_K_S_B⟩,
   ⟨38, 1, .flag GS_218.set_K_O_B GS_218.get_K_O_B⟩,
   ⟨37, 1, .flag GS_218.set_K_G_B GS_218.get_K_G_B⟩,
   ⟨36, 1, .flag GS_218.set_G_G GS_218.get_G_G⟩,
   ⟨35, 1, .flag GS_218.set_GSP_OK GS_218.get_GSP_OK⟩,
   ⟨34, 1, .flag GS_218.set_FW_HOCH GS_218.get_FW_HOCH⟩,
   ⟨33, 1, .flag GS_218.set_SCHALT GS_218.get_SCHALT⟩,
   ⟨32, 1, .flag GS_218.set_HSM GS_218.get_HSM⟩,
   ⟨31, 1, .flag GS_218.set_GET_OK GS_218.get_GET_OK⟩,
   ⟨30, 1, .flag GS_218.set_KS GS_218.get_KS⟩,
   ⟨29, 1, .flag GS_218.set_ALF GS_218.get_ALF⟩,
   ⟨28, 1, .flag GS_218.set_GS_NOTL GS_218.get_GS_NOTL⟩,
   ⟨27, 1, .flag GS_218.set_UEHITZ_GET GS_218.get_UEHITZ_GET⟩,
   ⟨26, 1, .flag GS_218.set_KD GS_218.get_KD⟩,
   ⟨24, 2, .num GS_218.set_FPC_AAD GS_218.get_FPC_AAD⟩,
   ⟨23, 1, .flag GS_218.set_MPAR_EGS GS_218.get_MPAR_EGS⟩,
   ⟨22, 1, .flag GS_218.set_DYN1_EGS GS_218.get_DYN1_EGS⟩,
   ⟨21, 1, .flag GS_218.set_DYN0_AMR_EGS GS_218.get_DYN0_AMR_EGS⟩,
   ⟨18, 1, .flag GS_218.set_K_LSTFR GS_218.get_K_LSTFR⟩,
   ⟨17, 1, .flag GS_218.set_MOT_NAUS_CNF GS_218.get_MOT_NAUS_CNF⟩,
   ⟨16, 1, .flag GS_218.set_MOT_NAUS GS_218.get_MOT_NAUS⟩,
   ⟨8, 8, .num GS_218.set_MKRIECH GS_218.get_MKRIECH⟩,
   ⟨6, 2, .num GS_218.set_FEHLPRF_ST GS_218.get_FEHLPRF_ST⟩,
   ⟨5, 1, .flag GS_218.set_CALID_CVN_AKT GS_218.get_CALID_CVN_AKT⟩,
   ⟨0, 5, .num GS_218.set_FEHLER GS_218.get_FEHLER⟩]

/-- The fields of `GS_338`, in source order. -/
def GS_338.fields : List (FieldInfo GS_338) :=
  [⟨48, 16, .num GS_338.set_NAB GS_338.get_NAB⟩,
   ⟨0, 16, .num GS_338.set_NTURBINE GS_338.get_NTURBINE⟩]

/-- The fields of `GS_418`, in source order. -/
def GS_418.fields : List (FieldInfo GS_418) :=
  [⟨56, 8, .num GS_418.set_FSC GS_418.get_FSC⟩,
   ⟨48, 8, .num GS_418.set_FPC GS_418.get_FPC⟩,
   ⟨40, 8, .num GS_418.set_T_GET GS_418.get_T_GET⟩,
   ⟨39, 1, .flag GS_418.set_ALLRAD GS_418.get_ALLRAD⟩,
   ⟨38, 1, .flag GS_418.set_FRONT GS_418.get_FRONT⟩,
   ⟨37, 1, .flag GS_418.set_SCHALT GS_418.get_SCHALT⟩,
   ⟨36, 1, .flag GS_418.set_CVT GS_418.get_CVT⟩,
   ⟨34, 2, .num GS_418.set_MECH GS_418.get_MECH⟩,
   ⟨33, 1, .flag GS_418.set_ESV_BRE GS_418.get_ESV_BRE⟩,
   ⟨32, 1, .flag GS_418.set_KD GS_418.get_KD⟩,
   ⟨28, 4, .num GS_418.set_GZC GS_418.get_GZC⟩,
   ⟨24, 4, .num GS_418.set_GIC GS_418.get_GIC⟩,
   ⟨16, 8, .num GS_418.set_M_VERL GS_418.get_M_VERL⟩,
   ⟨15, 1, .flag GS_418.set_FMRADPAR GS_418.get_FMRADPAR⟩,
   ⟨14, 1, .flag GS_418.set_FMRADTGL GS_418.get_FMRADTGL⟩,
   ⟨11, 3, .num GS_418.set_WHST GS_418.get_WHST⟩,
   ⟨0, 11, .num GS_418.set_FMRAD GS_418.get_FMRAD⟩]

/-- The fields of `GS_CUSTOM_558`, in source order. -/
def GS_CUSTOM_558.fields : List (FieldInfo GS_CUSTOM_558) :=
  [⟨56, 8, .num GS_CUSTOM_558.set_MPC_DUTY GS_CUSTOM_558.get_MPC_DUTY⟩,
   ⟨48, 8, .num GS_CUSTOM_558.set_SPC_DUTY GS_CUSTOM_558.get_SPC_DUTY⟩,
   ⟨40, 8, .num GS_CUSTOM_558.set_TCC_DUTY GS_CUSTOM_558.get_TCC_DUTY⟩,
   ⟨16, 16, .num GS_CUSTOM_558.set_TCC_SLIP GS_CUSTOM_558.get_TCC_SLIP⟩,
   ⟨8, 8, .num GS_CUSTOM_558.set_AI_UP GS_CUSTOM_558.get_AI_UP⟩,
   ⟨8, 8, .num GS_CUSTOM_558.set_AI_DN GS_CUSTOM_558.get_AI_DN⟩]

/-! ## Lemmas on the machine arithmetic and the cache -/

theorem u64_sub_of_le {a b : Nat} (hab : b ≤ a) (ha : a < U64) : u64_sub a b = a - b := by
  unfold u64_sub U64 at *
  have hb : b % 2 ^ 64 = b := Nat.mod_eq_of_lt (by omega)
  rw [hb]
  omega

theorem u64_sub_of_lt {a b : Nat} (hab : a < b) (hb : b < U64) :
    u64_sub a b = U64 - (b - a) := by
  unfold u64_sub U64 at *
  have hb' : b % 2 ^ 64 = b := Nat.mod_eq_of_lt hb
  rw [hb']
  omega

theorem read_eq (s : ECU_GS) (i : Fin 4) (now max_expire_time : Nat) :
    s.read i now max_expire_time =
      if s.LAST_FRAME_TIMES i ≠ 0 ∧ u64_sub now (s.LAST_FRAME_TIMES i) ≤ max_expire_time
      then some (s.FRAME_DATA i) else none := by
  fin_cases i <;>
    simp only [ECU_GS.read, ECU_GS.get_GS_218, ECU_GS.get_GS_338, ECU_GS.get_GS_418,
      ECU_GS.get_GS_CUSTOM_558] <;>
    split_ifs <;> simp_all <;> omega

theorem slot_of_eq_some {can_id : Nat} {i : Fin 4} (h : slot_of can_id = some i) :
    (i = 0 ∧ can_id = GS_218_CAN_ID) ∨ (i = 1 ∧ can_id = GS_338_CAN_ID) ∨
    (i = 2 ∧ can_id = GS_418_CAN_ID) ∨ (i = 3 ∧ can_id = GS_CUSTOM_558_CAN_ID) := by
  unfold slot_of at h
  split_ifs at h <;> simp_all

theorem import_frames_of_slot (s : ECU_GS) (value timestamp_now : Nat) {can_id : Nat}
    {i : Fin 4} (h : slot_of can_id = some i) :
    s.import_frames value can_id timestamp_now =
      (true, { LAST_FRAME_TIMES := Function.update s.LAST_FRAME_TIMES i timestamp_now,
               FRAME_DATA := Function.update s.FRAME_DATA i value }) := by
  rcases slot_of_eq_some h with ⟨rfl, rfl⟩ | ⟨rfl, rfl⟩ | ⟨rfl, rfl⟩ | ⟨rfl, rfl⟩ <;>
    simp [ECU_GS.import_frames, GS_218_CAN_ID, GS_338_CAN_ID, GS_418_CAN_ID,
      GS_CUSTOM_558_CAN_ID]

theorem import_frames_of_no_slot (s : ECU_GS) (value timestamp_now : Nat) {can_id : Nat}
    (h : slot_of can_id = none) :
    s.import_frames value can_id timestamp_now = (false, s) := by
  unfold slot_of at h
  unfold ECU_GS.import_frames
  split_ifs at h ⊢
  rfl

theorem import_frames_other_slot (s : ECU_GS) (value timestamp_now : Nat) {can_id : Nat}
    {i : Fin 4} (h : slot_of can_id ≠ some i) :
    (s.import_frames value can_id timestamp_now).2.LAST_FRAME_TIMES i = s.LAST_FRAME_TIMES i ∧
    (s.import_frames value can_id timestamp_now).2.FRAME_DATA i = s.FRAME_DATA i := by
  cases hj : slot_of can_id with
  | none => rw [import_frames_of_no_slot s value timestamp_now hj]; exact ⟨rfl, rfl⟩
  | some j =>
    have hji : i ≠ j := fun e => h (by rw [hj, e])
    rw [import_frames_of_slot s value timestamp_now hj]
    exact ⟨Function.update_noteq hji _ _, Function.update_noteq hji _ _⟩

theorem slot_of_injective {a b : Nat} {i : Fin 4} (ha : slot_of a = some i)
    (hb : slot_of b = some i) : a = b := by
  rcases slot_of_eq_some ha with ⟨rfl, rfl⟩ | ⟨rfl, rfl⟩ | ⟨rfl, rfl⟩ | ⟨rfl, rfl⟩ <;>
    rcases slot_of_eq_some hb with ⟨h, rfl⟩ | ⟨h, rfl⟩ | ⟨h, rfl⟩ | ⟨h, rfl⟩ <;>
    first | rfl | exact absurd h (by decide)

theorem import_all_other_slot (fs : List Frame) (s : ECU_GS) {can_id : Nat} {i : Fin 4}
    (hi : slot_of can_id = some i) (h : ∀ f ∈ fs, f.can_id ≠ can_id) :
    (s.import_all fs).LAST_FRAME_TIMES i = s.LAST_FRAME_TIMES i ∧
    (s.import_all fs).FRAME_DATA i = s.FRAME_DATA i := by
  induction fs generalizing s with
  | nil => exact ⟨rfl, rfl⟩
  | cons f fs ih =>
    have hne : slot_of f.can_id ≠ some i := fun e =>
      h f (List.mem_cons_self _ _) (slot_of_injective e hi)
    have hstep := import_frames_other_slot s f.value f.timestamp_now hne
    have hrest := ih (s.import_frames f.value f.can_id f.timestamp_now).2
      (fun g hg => h g (List.mem_cons_of_mem _ hg))
    simp only [ECU_GS.import_all]
    exact ⟨hrest.1.trans hstep.1, hrest.2.trans hstep.2⟩

/-! ## Lemmas on bit fields -/

theorem getField_setField (raw v o w m : Nat) (how : o + w ≤ 64)
    (hm : m = (2 ^ 64 - 1) ^^^ ((2 ^ w - 1) <<< o)) :
    (((raw &&& m) ||| ((v &&& (2 ^ w - 1)) <<< o)) >>> o) &&& (2 ^ w - 1) = v % 2 ^ w := by
  subst hm
  apply Nat.eq_of_testBit_eq
  intro i
  simp only [Nat.testBit_and, Nat.testBit_or, Nat.testBit_shiftRight, Nat.testBit_shiftLeft,
    Nat.testBit_xor, Nat.testBit_two_pow_sub_one, Nat.testBit_mod_two_pow]
  by_cases hi : i < w
  · have h64 : ¬ (64 ≤ o + i) := by omega
    simp [hi, h64]
  · simp [hi]

theorem get_GIC_set_GIC (f : GS_218) (g : Nat) : (f.set_GIC g).get_GIC = g % 16 := by
  have h := getField_setField f.raw g 40 4 0xfffff0ffffffffff (by decide) (by decide)
  simpa [GS_218.set_GIC, GS_218.get_GIC] using h

/-! ## The signal cache -/

/-- C1: `import_frames` returns true exactly for the identifiers 0x218, 0x338,
0x418 and 0x558, and after a call that returned true for one of them the slot
of that identifier holds the given payload and the given timestamp. -/
theorem import_frames_accepts_known_ids (s : ECU_GS) (value can_id timestamp_now : Nat) :
    ((s.import_frames value can_id timestamp_now).1 = true ↔
      (can_id = 0x218 ∨ can_id = 0x338 ∨ can_id = 0x418 ∨ can_id = 0x558)) ∧
    (can_id = 0x218 →
      (s.import_frames value can_id timestamp_now).2.FRAME_DATA 0 = value ∧
      (s.import_frames value can_id timestamp_now).2.LAST_FRAME_TIMES 0 = timestamp_now) ∧
    (can_id = 0x338 →
      (s.import_frames value can_id timestamp_now).2.FRAME_DATA 1 = value ∧
      (s.import_frames value can_id timestamp_now).2.LAST_FRAME_TIMES 1 = timestamp_now) ∧
    (can_id = 0x418 →
      (s.import_frames value can_id timestamp_now).2.FRAME_DATA 2 = value ∧
      (s.import_frames value can_id timestamp_now).2.LAST_FRAME_TIMES 2 = timestamp_now) ∧
    (can_id = 0x558 →
      (s.import_frames value can_id timestamp_now).2.FRAME_DATA 3 = value ∧
      (s.import_frames value can_id timestamp_now).2.LAST_FRAME_TIMES 3 = timestamp_now) := by
  refine ⟨?_, ?_, ?_, ?_, ?_⟩
  · unfold ECU_GS.import_frames GS_218_CAN_ID GS_338_CAN_ID GS_418_CAN_ID GS_CUSTOM_558_CAN_ID
    split_ifs <;> simp_all
  all_goals
    intro h
    subst h
    simp [ECU_GS.import_frames, GS_218_CAN_ID, GS_338_CAN_ID, GS_418_CAN_ID,
      GS_CUSTOM_558_CAN_ID]

/-- C2: each of the four getters, called with a non-null destination, returns
true and stores the payload of its slot in the destination exactly when the
slot's last-seen time is not 0 and the 64-bit difference `now - last_seen` is
at most `max_age`; otherwise it returns false and leaves the destination as it
was. When `last_seen <= now` the 64-bit difference is the ordinary one. -/
theorem getters_fresh_iff (s : ECU_GS) (now max_age : Nat) (d0 : GS_218) (d1 : GS_338)
    (d2 : GS_418) (d3 : GS_CUSTOM_558) :
    (s.get_GS_218 now max_age (some d0) =
      if s.LAST_FRAME_TIMES 0 ≠ 0 ∧ u64_sub now (s.LAST_FRAME_TIMES 0) ≤ max_age
      then (true, some { raw := s.FRAME_DATA 0 }) else (false, some d0)) ∧
    (s.get_GS_338 now max_age (some d1) =
      if s.LAST_FRAME_TIMES 1 ≠ 0 ∧ u64_sub now (s.LAST_FRAME_TIMES 1) ≤ max_age
      then (true, some { raw := s.FRAME_DATA 1 }) else (false, some d1)) ∧
    (s.get_GS_418 now max_age (some d2) =
      if s.LAST_FRAME_TIMES 2 ≠ 0 ∧ u64_sub now (s.LAST_FRAME_TIMES 2) ≤ max_age
      then (true, some { raw := s.FRAME_DATA 2 }) else (false, some d2)) ∧
    (s.get_GS_CUSTOM_558 now max_age (some d3) =
      if s.LAST_FRAME_TIMES 3 ≠ 0 ∧ u64_sub now (s.LAST_FRAME_TIMES 3) ≤ max_age
      then (true, some { raw := s.FRAME_DATA 3 }) else (false, some d3)) ∧
    (∀ i : Fin 4, s.LAST_FRAME_TIMES i ≤ now → now < 2 ^ 64 →
      u64_sub now (s.LAST_FRAME_TIMES i) = now - s.LAST_FRAME_TIMES i) := by
  refine ⟨?_, ?_, ?_, ?_, fun i h1 h2 => u64_sub_of_le h1 h2⟩ <;>
    simp only [ECU_GS.get_GS_218, ECU_GS.get_GS_338, ECU_GS.get_GS_418,
      ECU_GS.get_GS_CUSTOM_558] <;>
    split_ifs <;> simp_all <;> omega

/-- C3, as stated, fails for the timestamp 0: after `import_frames(7, 0x218, 0)`
the query `now = 0`, `max_age = 0` has `now - t <= max_age`, and `get_GS_218`
still returns false. -/
theorem import_at_time_zero_reads_nothing :
    u64_sub 0 0 ≤ 0 ∧
    (ECU_GS.init.import_frames 7 GS_218_CAN_ID 0).1 = true ∧
    ((ECU_GS.init.import_frames 7 GS_218_CAN_ID 0).2.get_GS_218 0 0 (some { raw := 0 })).1
      = false ∧
    (ECU_GS.init.import_frames 7 GS_218_CAN_ID 0).2.read 0 0 0 = none := by
  decide

/-- C3 (amended): let `import_frames(payload, can_id, t)` with a known identifier and
`t != 0` be the last import for that identifier (any imports for other
identifiers may follow). Then the getter of that identifier returns `payload`
exactly when the 64-bit difference `now - t` is at most `max_age`, and nothing
otherwise; for `t <= now`, `now - t = max_age` returns the payload and
`now - t = max_age + 1` does not. -/
theorem read_after_import (s : ECU_GS) (fs : List Frame) (can_id : Nat) (i : Fin 4)
    (payload t now max_age : Nat) (hi : slot_of can_id = some i)
    (hfs : ∀ f ∈ fs, f.can_id ≠ can_id) (ht : t ≠ 0) :
    (((s.import_frames payload can_id t).2.import_all fs).read i now max_age = some payload ↔
      u64_sub now t ≤ max_age) ∧
    (¬ u64_sub now t ≤ max_age →
      ((s.import_frames payload can_id t).2.import_all fs).read i now max_age = none) ∧
    (t ≤ now → now < 2 ^ 64 → now - t = max_age →
      ((s.import_frames payload can_id t).2.import_all fs).read i now max_age = some payload) ∧
    (t ≤ now → now < 2 ^ 64 → now - t = max_age + 1 →
      ((s.import_frames payload can_id t).2.import_all fs).read i now max_age = none) := by
  have hkeep := import_all_other_slot fs (s.import_frames payload can_id t).2 hi hfs
  have hread : ((s.import_frames payload can_id t).2.import_all fs).read i now max_age =
      if u64_sub now t ≤ max_age then some payload else none := by
    rw [read_eq, hkeep.1, hkeep.2, import_frames_of_slot s payload t hi]
    simp [ht]
  refine ⟨?_, ?_, ?_, ?_⟩
  · rw [hread]; split_ifs with h <;> simp [h]
  · intro h; rw [hread, if_neg h]
  · intro h1 h2 h3
    rw [hread, u64_sub_of_le h1 h2, if_pos (by omega)]
  · intro h1 h2 h3
    rw [hread, u64_sub_of_le h1 h2, if_neg (by omega)]

/-- Witness for `read_after_import`: payload 7 under 0x218 at time 100, a later
frame for 0x338, query at 150 with maximal age 50. -/
theorem read_after_import_witness :
    slot_of 0x218 = some 0 ∧
    ((ECU_GS.init.import_frames 7 0x218 100).2.import_all [⟨5, 0x338, 120⟩]).read 0 150 50
      = some 7 :=
  ⟨by decide,
   ((read_after_import ECU_GS.init [⟨5, 0x338, 120⟩] 0x218 0 7 100 150 50
      (by decide) (by decide) (by decide)).2.2.1) (by decide) (by decide) (by decide)⟩

/-- C4: starting from the zero-initialised object, after any sequence of
`import_frames` calls none of which carries a given known identifier, the
getter of that identifier returns nothing for every `now` and every
`max_expire_time`. -/
theorem never_imported_reads_nothing (fs : List Frame) (can_id : Nat) (i : Fin 4)
    (now max_expire_time : Nat) (hi : slot_of can_id = some i)
    (hfs : ∀ f ∈ fs, f.can_id ≠ can_id) :
    (ECU_GS.init.import_all fs).read i now max_expire_time = none := by
  have hkeep := import_all_other_slot fs ECU_GS.init hi hfs
  rw [read_eq, hkeep.1]
  simp [ECU_GS.init]

/-- Witness for `never_imported_reads_nothing`: frames for 0x338 and for an
unknown identifier only; 0x218 is then unreadable. -/
theorem never_imported_reads_nothing_witness :
    slot_of 0x218 = some 0 ∧
    (ECU_GS.init.import_all [⟨5, 0x338, 120⟩, ⟨9, 0x123, 130⟩]).read 0 150
      (2 ^ 64 - 1) = none :=
  ⟨by decide,
   never_imported_reads_nothing [⟨5, 0x338, 120⟩, ⟨9, 0x123, 130⟩] 0x218 0 150 (2 ^ 64 - 1)
     (by decide) (by decide)⟩

/-- C5, as stated, fails: with last-seen time 2, the earlier time `now = 1` and
the largest 64-bit `max_expire_time`, `get_GS_218` returns true and delivers
the payload. -/
theorem backward_clock_accepted_at_max_age :
    (1 : Nat) < 2 ∧
    (ECU_GS.init.import_frames 7 GS_218_CAN_ID 2).2.LAST_FRAME_TIMES 0 = 2 ∧
    (ECU_GS.init.import_frames 7 GS_218_CAN_ID 2).2.get_GS_218 1 (2 ^ 64 - 1)
      (some { raw := 0 }) = (true, some { raw := 7 }) := by
  decide

/-- C5 (amended): for a slot whose last-seen time `t` is a 64-bit value and a
clock `now < t`, the getter of the slot compares the wrapped difference
`2 ^ 64 - (t - now)` with `max_expire_time`: it returns nothing exactly when
`max_expire_time < 2 ^ 64 - (t - now)`, and returns the stored payload for
every larger `max_expire_time`, the largest 64-bit value among them. -/
theorem backward_clock_wraps (s : ECU_GS) (i : Fin 4) (now max_expire_time : Nat)
    (ht : s.LAST_FRAME_TIMES i < 2 ^ 64) (hnow : now < s.LAST_FRAME_TIMES i) :
    (s.read i now max_expire_time = none ↔
      max_expire_time < 2 ^ 64 - (s.LAST_FRAME_TIMES i - now)) ∧
    (2 ^ 64 - (s.LAST_FRAME_TIMES i - now) ≤ max_expire_time →
      s.read i now max_expire_time = some (s.FRAME_DATA i)) ∧
    s.read i now (2 ^ 64 - 1) = some (s.FRAME_DATA i) := by
  have hne : s.LAST_FRAME_TIMES i ≠ 0 := by omega
  have hsub : ∀ m, s.read i now m =
      if 2 ^ 64 - (s.LAST_FRAME_TIMES i - now) ≤ m then some (s.FRAME_DATA i) else none := by
    intro m
    rw [read_eq, u64_sub_of_lt hnow ht]
    simp [hne, U64]
  refine ⟨?_, ?_, ?_⟩
  · rw [hsub]; split_ifs with h <;> simp <;> omega
  · intro h; rw [hsub, if_pos h]
  · rw [hsub, if_pos (by omega)]

/-- Witness for `backward_clock_wraps`: last-seen time 100, clock at 40. -/
theorem backward_clock_wraps_witness :
    (ECU_GS.init.import_frames 7 0x418 100).2.read 2 40 (2 ^ 64 - 1) = some 7 ∧
    ((ECU_GS.init.import_frames 7 0x418 100).2.read 2 40 1000 = none ↔
      1000 < 2 ^ 64 - (100 - 40)) :=
  ⟨(backward_clock_wraps (ECU_GS.init.import_frames 7 0x418 100).2 2 40 1000
      (by decide) (by decide)).2.2,
   (backward_clock_wraps (ECU_GS.init.import_frames 7 0x418 100).2 2 40 1000
      (by decide) (by decide)).1⟩

/-- C6, as stated, fails for `t = 0`: after importing the payload with actual
gear 3 under 0x218 at time 0, the query `now = 0`, `max_age = 0` is fresh
(`t <= now` and `now - t <= max_age`) and `get_GS_218` returns false. -/
theorem gear_frame_at_time_zero_reads_nothing :
    (0 : Nat) ≤ 0 ∧ (0 : Nat) - 0 ≤ 0 ∧
    ((ECU_GS.init.import_frames ((GS_218.mk 0).set_GIC 3).raw GS_218_CAN_ID 0).2.get_GS_218
      0 0 (some { raw := 0 })).1 = false := by
  decide

/-- C6 (amended): for every raw value, every actual gear `g` in 0..15 and
every import time `t != 0`: after `import_frames` of the payload made by
`set_GIC(g)` under 0x218 at time `t`, a query with `t <= now` and
`now - t <= max_age` makes `get_GS_218` return true with a view whose
`get_GIC` is `g`, and a query with `now - t > max_age` makes it return false. -/
theorem gear_frame_roundtrip (s : ECU_GS) (raw g t now max_age : Nat) (d : GS_218)
    (hg : g < 16) (ht : t ≠ 0) (htn : t ≤ now) (hn : now < 2 ^ 64) :
    (now - t ≤ max_age →
      ∃ v : GS_218,
        (s.import_frames ((GS_218.mk raw).set_GIC g).raw GS_218_CAN_ID t).2.get_GS_218
          now max_age (some d) = (true, some v) ∧ v.get_GIC = g) ∧
    (now - t > max_age →
      (s.import_frames ((GS_218.mk raw).set_GIC g).raw GS_218_CAN_ID t).2.get_GS_218
        now max_age (some d) = (false, some d)) := by
  have hsub : u64_sub now t = now - t := u64_sub_of_le htn hn
  have himp := import_frames_of_slot s ((GS_218.mk raw).set_GIC g).raw t
    (show slot_of GS_218_CAN_ID = some 0 from rfl)
  constructor
  · intro hfresh
    refine ⟨(GS_218.mk raw).set_GIC g, ?_, ?_⟩
    · rw [himp]
      simp [ECU_GS.get_GS_218, ht, hsub, hfresh]
    · rw [get_GIC_set_GIC]; exact Nat.mod_eq_of_lt hg
  · intro hstale
    rw [himp]
    simp [ECU_GS.get_GS_218, ht, hsub, hstale]

/-- Witness for `gear_frame_roundtrip`: gear 3 (`G_D3`) imported at `t = 100`;
the query `now = 150`, `max_age = 100` yields gear 3 and the query `now = 250`,
`max_age = 100` yields nothing. -/
theorem gear_frame_roundtrip_witness :
    GS_218h_GIC.G_D3.toNat = 3 ∧
    (∃ v : GS_218,
      (ECU_GS.init.import_frames ((GS_218.mk 0).set_GIC 3).raw GS_218_CAN_ID 100).2.get_GS_218
        150 100 (some { raw := 0 }) = (true, some v) ∧ v.get_GIC = 3) ∧
    (ECU_GS.init.import_frames ((GS_218.mk 0).set_GIC 3).raw GS_218_CAN_ID 100).2.get_GS_218
        250 100 (some { raw := 0 }) = (false, some { raw := 0 }) :=
  ⟨rfl,
   (gear_frame_roundtrip ECU_GS.init 0 3 100 150 100 { raw := 0 }
      (by decide) (by decide) (by decide) (by decide)).1 (by decide),
   (gear_frame_roundtrip ECU_GS.init 0 3 100 250 100 { raw := 0 }
      (by decide) (by decide) (by decide) (by decide)).2 (by decide)⟩

/-- C7: after `import_frames(p1, id, t1)` followed by `import_frames(p2, id, t2)`
for a known identifier, the getter of that identifier returns `p2` when
`t2 != 0` and the 64-bit difference `now - t2` is at most `max_age`, and nothing
otherwise: whatever it returns is `p2`, and neither the earlier state nor `p1`
nor `t1` enters the result. -/
theorem latest_import_wins (s : ECU_GS) (can_id : Nat) (i : Fin 4)
    (p1 t1 p2 t2 now max_age : Nat) (hi : slot_of can_id = some i) :
    ((s.import_frames p1 can_id t1).2.import_frames p2 can_id t2).2.read i now max_age =
      (if t2 ≠ 0 ∧ u64_sub now t2 ≤ max_age then some p2 else none) ∧
    (∀ r, ((s.import_frames p1 can_id t1).2.import_frames p2 can_id t2).2.read i now max_age
      = some r → r = p2) ∧
    (∀ s0 : ECU_GS,
      ((s.import_frames p1 can_id t1).2.import_frames p2 can_id t2).2.read i now max_age =
        (s0.import_frames p2 can_id t2).2.read i now max_age) := by
  have hread : ∀ s0 : ECU_GS, (s0.import_frames p2 can_id t2).2.read i now max_age =
      if t2 ≠ 0 ∧ u64_sub now t2 ≤ max_age then some p2 else none := by
    intro s0
    rw [read_eq, import_frames_of_slot s0 p2 t2 hi]
    simp
  refine ⟨hread _, ?_, fun s0 => (hread _).trans (hread s0).symm⟩
  intro r hr
  rw [hread] at hr
  split_ifs at hr
  exact (Option.some.inj hr).symm

/-- Witness for `latest_import_wins`: 0x558 imported twice, the second time with
payload 9 at time 200. -/
theorem latest_import_wins_witness :
    slot_of 0x558 = some 3 ∧
    ((ECU_GS.init.import_frames 4 0x558 100).2.import_frames 9 0x558 200).2.read 3 250 60
      = some 9 :=
  ⟨by decide,
   (latest_import_wins ECU_GS.init 0x558 3 4 100 9 200 250 60 (by decide)).1.trans
     (by decide)⟩

/-! ## Lemmas on binary floating point -/

theorem round_to_zero (p : Nat) : round_to p 0 = 0 := by
  simp [round_to]

theorem log2_fuel_spec (fuel : Nat) :
    ∀ n : Nat, 0 < n → n ≤ fuel →
      2 ^ log2_fuel fuel n ≤ n ∧ n < 2 ^ (log2_fuel fuel n + 1) := by
  induction fuel with
  | zero => intro n h0 h1; omega
  | succ k ih =>
    intro n h0 h1
    by_cases h : n < 2
    · have hn : n = 1 := by omega
      subst hn
      simp [log2_fuel]
    · have h3 := ih (n / 2) (by omega) (by omega)
      simp only [log2_fuel, if_neg h]
      rw [pow_succ, pow_succ]
      rw [pow_succ] at h3
      omega

theorem ilog2_spec (n : Nat) (hn : 0 < n) :
    2 ^ ilog2 n ≤ n ∧ n < 2 ^ (ilog2 n + 1) :=
  log2_fuel_spec n n hn le_rfl

theorem binade_lt (x : ℚ) (k : Int) (hx : 0 < x) (hk : x < (2 : ℚ) ^ k) : binade x < k := by
  unfold binade
  simp only
  split_ifs with h
  · rw [abs_of_pos hx] at h
    exact (zpow_lt_zpow_iff_right₀ (by norm_num : (1 : ℚ) < 2)).1 (lt_of_le_of_lt h hk)
  · have hnum : 0 < x.num := Rat.num_pos.2 hx
    have ha := (ilog2_spec x.num.natAbs (Int.natAbs_pos.2 (ne_of_gt hnum))).1
    have hb := (ilog2_spec x.den x.den_pos).2
    have hxe : x = (x.num.natAbs : ℚ) / (x.den : ℚ) := by
      have h1 : ((x.num.natAbs : ℤ) : ℚ) = (x.num : ℚ) := by
        rw [Int.natAbs_of_nonneg (le_of_lt hnum)]
      have h2 : ((x.num.natAbs : ℕ) : ℚ) = ((x.num.natAbs : ℤ) : ℚ) :=
        (Int.cast_natCast x.num.natAbs).symm
      rw [h2, h1, Rat.num_div_den]
    have hlow : (2 : ℚ) ^ ((ilog2 x.num.natAbs : ℤ) - (ilog2 x.den : ℤ) - 1) < x := by
      have e : ((ilog2 x.num.natAbs : ℤ) - (ilog2 x.den : ℤ) - 1) =
          (ilog2 x.num.natAbs : ℤ) - ((ilog2 x.den + 1 : ℕ) : ℤ) := by push_cast; ring
      rw [e, zpow_sub₀ (by norm_num : (2 : ℚ) ≠ 0), zpow_natCast, zpow_natCast]
      conv_rhs => rw [hxe]
      have hd : (0 : ℚ) < x.den := by exact_mod_cast x.den_pos
      rw [div_lt_div_iff₀ (by positivity) hd]
      have ha' : ((2 : ℚ) ^ ilog2 x.num.natAbs) ≤ (x.num.natAbs : ℚ) := by exact_mod_cast ha
      have hb' : (x.den : ℚ) < (2 : ℚ) ^ (ilog2 x.den + 1) := by exact_mod_cast hb
      have hp : (0 : ℚ) < 2 ^ ilog2 x.num.natAbs := by positivity
      calc (2 : ℚ) ^ ilog2 x.num.natAbs * x.den
          < 2 ^ ilog2 x.num.natAbs * 2 ^ (ilog2 x.den + 1) := by
            exact mul_lt_mul_of_pos_left hb' hp
        _ ≤ x.num.natAbs * 2 ^ (ilog2 x.den + 1) := by
            exact mul_le_mul_of_nonneg_right ha' (by positivity)
    exact (zpow_lt_zpow_iff_right₀ (by norm_num : (1 : ℚ) < 2)).1 (lt_trans hlow hk)

theorem round_to_grid (p : Nat) (x : ℚ) (hx : 0 < x) (hk : x < 2 ^ p) :
    ∃ (j : ℕ) (m : ℤ), round_to p x = (m : ℚ) / 2 ^ j ∧
      ⌊x * 2 ^ j⌋ ≤ m ∧ m ≤ ⌊x * 2 ^ j⌋ + 1 ∧
      (x * 2 ^ j = (⌊x * 2 ^ j⌋ : ℚ) → m = ⌊x * 2 ^ j⌋) := by
  have hb : binade x < (p : ℤ) := binade_lt x p hx (by rw [zpow_natCast]; exact hk)
  obtain ⟨j, hj⟩ := Int.exists_eq_neg_ofNat (show binade x - ((p : ℤ) - 1) ≤ 0 by omega)
  have hulp : (2 : ℚ) ^ (binade x - ((p : ℤ) - 1)) = ((2 : ℚ) ^ j)⁻¹ := by
    rw [hj, zpow_neg, zpow_natCast]
  have hq : x / ((2 : ℚ) ^ j)⁻¹ = x * 2 ^ j := by rw [div_inv_eq_mul]
  unfold round_to
  rw [if_neg (ne_of_gt hx)]
  simp only [hulp, hq]
  refine ⟨j, _, (div_eq_mul_inv _ _).symm, ?_, ?_, ?_⟩
  · split_ifs <;> omega
  · split_ifs <;> omega
  · intro he
    have h0 : x * 2 ^ j - (⌊x * 2 ^ j⌋ : ℚ) < 1 / 2 := by rw [← he]; simp
    rw [if_pos h0]

theorem round_to_natCast (p n : Nat) (hn : n < 2 ^ p) : round_to p (n : ℚ) = n := by
  rcases Nat.eq_zero_or_pos n with h0 | h0
  · subst h0; simp [round_to]
  · obtain ⟨j, m, hr, -, -, hm⟩ :=
      round_to_grid p n (by exact_mod_cast h0) (by exact_mod_cast hn)
    have hfl : ⌊(n : ℚ) * 2 ^ j⌋ = ((n * 2 ^ j : ℕ) : ℤ) := by
      have : (n : ℚ) * 2 ^ j = ((n * 2 ^ j : ℕ) : ℚ) := by push_cast; ring
      rw [this, Int.floor_natCast]
    have hm2 := hm (by rw [hfl]; push_cast; ring)
    rw [hr, hm2, hfl]
    push_cast
    field_simp

theorem to_float_natCast (n : Nat) (hn : n < 2 ^ 24) : to_float (n : ℚ) = n :=
  round_to_natCast 24 n hn

theorem scaled_percent_zero (solenoid_vref curr_v_mv : Nat) :
    scaled_percent solenoid_vref 0 curr_v_mv = 0 := by
  simp [scaled_percent, to_float, round_to_zero]

theorem scaled_percent_of_exact_product (solenoid_vref percent curr_v_mv : Nat)
    (hp : percent < 2 ^ 24) (hv : solenoid_vref < 2 ^ 24) (hc : curr_v_mv < 2 ^ 24)
    (hpv : percent * solenoid_vref < 2 ^ 24) :
    scaled_percent solenoid_vref percent curr_v_mv =
      to_float (((percent * solenoid_vref : ℕ) : ℚ) / (curr_v_mv : ℚ)) := by
  unfold scaled_percent
  rw [to_float_natCast percent hp, to_float_natCast solenoid_vref hv,
    to_float_natCast curr_v_mv hc]
  have hm : (percent : ℚ) * (solenoid_vref : ℚ) = ((percent * solenoid_vref : ℕ) : ℚ) := by
    push_cast; ring
  rw [hm, to_float_natCast _ hpv]

theorem scaled_percent_at_nominal (solenoid_vref percent : Nat)
    (hv : solenoid_vref ≠ 0) (hv2 : solenoid_vref ≤ 16777) (hp : percent ≤ 1000) :
    scaled_percent solenoid_vref percent solenoid_vref = percent := by
  have hpv : percent * solenoid_vref < 2 ^ 24 :=
    calc percent * solenoid_vref ≤ 1000 * 16777 := Nat.mul_le_mul hp hv2
      _ < 2 ^ 24 := by decide
  have h24 : (16777 : ℕ) < 2 ^ 24 := by decide
  have h1000 : (1000 : ℕ) < 2 ^ 24 := by decide
  rw [scaled_percent_of_exact_product solenoid_vref percent solenoid_vref
    (by omega) (by omega) (by omega) hpv]
  have hv0 : (solenoid_vref : ℚ) ≠ 0 := by exact_mod_cast hv
  have hq : ((percent * solenoid_vref : ℕ) : ℚ) / (solenoid_vref : ℚ) = (percent : ℚ) := by
    push_cast
    field_simp
  rw [hq, to_float_natCast percent (by omega)]

theorem GEAR_RATIO_LIMITS_eq_values (i : Fin 7) :
    GEAR_RATIO_LIMITS i = GEAR_RATIO_LIMITS_values i := by
  revert i
  decide!

/-- C8, as stated, fails: the ratio 0.90625 lies in the window of Fourth
(entry 3, from about 0.9 to 1.1) and in the window of Fifth (entry 4, from
about 0.74745 to 0.91355). -/
theorem fourth_and_fifth_windows_overlap :
    (3 : Fin 7) ≠ 4 ∧
    in_window (GEAR_RATIO_LIMITS 3) 0.90625 ∧ in_window (GEAR_RATIO_LIMITS 4) 0.90625 := by
  refine ⟨by decide, ?_, ?_⟩ <;>
    rw [GEAR_RATIO_LIMITS_eq_values] <;>
    norm_num [in_window, GEAR_RATIO_LIMITS_values]

/-- C8 (amended): in the default table a ratio that lies in the windows of two
entries lies in the windows of Fourth and Fifth (entries 3 and 4) or the two
entries are the same; all other pairs of windows are disjoint. The windows of
Fourth and Fifth share exactly the ratios from the lower bound of Fourth, the
`float` `7549747 / 2 ^ 23` (0.8999999762), to the upper bound of Fifth, the
`float` `7663413 / 2 ^ 23` (0.9135500193). -/
theorem windows_disjoint_except_fourth_fifth :
    (∀ (i j : Fin 7) (ratio : ℚ),
      in_window (GEAR_RATIO_LIMITS i) ratio → in_window (GEAR_RATIO_LIMITS j) ratio →
      i = j ∨ (i = 3 ∧ j = 4) ∨ (i = 4 ∧ j = 3)) ∧
    (∀ ratio : ℚ,
      (in_window (GEAR_RATIO_LIMITS 3) ratio ∧ in_window (GEAR_RATIO_LIMITS 4) ratio) ↔
        (7549747 / 2 ^ 23 ≤ ratio ∧ ratio ≤ 7663413 / 2 ^ 23)) ∧
    (GEAR_RATIO_LIMITS 3).min = 7549747 / 2 ^ 23 ∧
    (GEAR_RATIO_LIMITS 4).max = 7663413 / 2 ^ 23 := by
  refine ⟨?_, ?_, ?_, ?_⟩
  · intro i j ratio hi hj
    rw [GEAR_RATIO_LIMITS_eq_values] at hi hj
    fin_cases i <;> fin_cases j <;>
      simp only [in_window, GEAR_RATIO_LIMITS_values] at hi hj <;>
      first
        | (left; rfl)
        | (right; left; exact ⟨rfl, rfl⟩)
        | (right; right; exact ⟨rfl, rfl⟩)
        | (exfalso; norm_num at hi hj; linarith [hi.1, hi.2, hj.1, hj.2])
  · intro ratio
    rw [GEAR_RATIO_LIMITS_eq_values, GEAR_RATIO_LIMITS_eq_values]
    simp only [in_window, GEAR_RATIO_LIMITS_values]
    constructor
    · rintro ⟨⟨h1, h2⟩, h3, h4⟩
      exact ⟨h1, h4⟩
    · rintro ⟨h1, h2⟩
      refine ⟨⟨h1, ?_⟩, ?_, h2⟩
      · norm_num at h2 ⊢; linarith
      · norm_num at h1 ⊢; linarith
  · rw [GEAR_RATIO_LIMITS_eq_values]; rfl
  · rw [GEAR_RATIO_LIMITS_eq_values]; rfl

/-- Witness for `windows_disjoint_except_fourth_fifth` at the ratio 0.90625. -/
theorem windows_disjoint_except_fourth_fifth_witness :
    (3 : Fin 7) = 4 ∨ ((3 : Fin 7) = 3 ∧ (4 : Fin 7) = 4) ∨ ((3 : Fin 7) = 4 ∧ (4 : Fin 7) = 3) :=
  windows_disjoint_except_fourth_fifth.1 3 4 0.90625
    (by rw [GEAR_RATIO_LIMITS_eq_values]; norm_num [in_window, GEAR_RATIO_LIMITS_values])
    (by rw [GEAR_RATIO_LIMITS_eq_values]; norm_num [in_window, GEAR_RATIO_LIMITS_values])

/-- C9, as stated, fails: the ratio 2000 / 1008 is below the lower bound
2.16711 of the window of Second (entry 1), so it is not in that window, and
the scan of the forward windows does not give Second. -/
theorem ratio_2000_1008_not_in_second_window :
    ¬ in_window (GEAR_RATIO_LIMITS 1) ((2000 : ℚ) / 1008) ∧
    classify 2000 1008 false ≠ some 1 := by
  constructor
  · rw [GEAR_RATIO_LIMITS_eq_values]
    norm_num [in_window, GEAR_RATIO_LIMITS_values]
  · have hnone : classify 2000 1008 false = none := by
      simp only [classify, GEAR_RATIO_LIMITS_eq_values]
      norm_num [List.find?, in_window, GEAR_RATIO_LIMITS_values]
    rw [hnone]
    simp

/-- C9 (amended): with input speed 2000 rpm and output speed 1008 rpm the ratio
2000 / 1008 lies strictly between the window of Third (entry 2) and the window
of Second (entry 1) of the default table, in no window of the table at all,
and a first-match scan of the forward windows finds no gear. -/
theorem ratio_2000_1008_matches_no_gear :
    (GEAR_RATIO_LIMITS 2).max < (2000 : ℚ) / 1008 ∧
    (2000 : ℚ) / 1008 < (GEAR_RATIO_LIMITS 1).min ∧
    (∀ i : Fin 7, ¬ in_window (GEAR_RATIO_LIMITS i) ((2000 : ℚ) / 1008)) ∧
    classify 2000 1008 false = none := by
  refine ⟨?_, ?_, ?_, ?_⟩
  · rw [GEAR_RATIO_LIMITS_eq_values]
    norm_num [GEAR_RATIO_LIMITS_values]
  · rw [GEAR_RATIO_LIMITS_eq_values]
    norm_num [GEAR_RATIO_LIMITS_values]
  · intro i
    rw [GEAR_RATIO_LIMITS_eq_values]
    fin_cases i <;> norm_num [in_window, GEAR_RATIO_LIMITS_values]
  · simp only [classify, GEAR_RATIO_LIMITS_eq_values]
    norm_num [List.find?, in_window, GEAR_RATIO_LIMITS_values]

/-- C10: `write_pwm_percent` clamps its input: for every `percent` above 1000
the duty it commits is the duty it commits for 1000 (which is 4080), and the
whole effect on the solenoid is the same. -/
theorem write_pwm_percent_clamps (s : Solenoid) (percent : Nat) (h : 1000 < percent) :
    s.write_pwm_percent percent = s.write_pwm_percent 1000 ∧
    (s.write_pwm_percent percent).duty = (s.write_pwm_percent 1000).duty ∧
    (s.write_pwm_percent percent).duty = 4080 := by
  have hstep : s.write_pwm_percent percent = s.write_pwm_percent 1000 := by
    simp [Solenoid.write_pwm_percent, h]
  refine ⟨hstep, by rw [hstep], ?_⟩
  rw [hstep]
  rfl

/-- Witness for `write_pwm_percent_clamps`: the input 1500 behaves as 1000. -/
theorem write_pwm_percent_clamps_witness :
    (1000 < 1500) ∧
    (Solenoid.mk true 0 0 false []).write_pwm_percent 1500 =
      (Solenoid.mk true 0 0 false []).write_pwm_percent 1000 :=
  ⟨by decide, (write_pwm_percent_clamps (Solenoid.mk true 0 0 false []) 1500 (by decide)).1⟩

/-! ## The voltage-compensated duty and the current estimate -/

/-- C11: evaluation of `write_pwm_percent_with_voltage(0, curr_v_mv)`. With
`curr_v_mv = 0` the call writes zero, falls through to the quotient
`0 * solenoid_vref / 0`, a NaN, and its conversion to `uint16_t` is undefined,
so the value of the second write is not determined. With `curr_v_mv > 0` it
returns with the duty at zero. -/
theorem zero_percent_zero_voltage_is_undefined :
    (∀ (solenoid_vref : Nat) (s : Solenoid),
      s.write_pwm_percent_with_voltage solenoid_vref 0 0 =
        .undefined (s.write_pwm_percent 0)) ∧
    (∀ (solenoid_vref : Nat) (s : Solenoid) (curr_v_mv : Nat), 0 < curr_v_mv →
      ∃ s1, s.write_pwm_percent_with_voltage solenoid_vref 0 curr_v_mv = .returned s1 ∧
        s1.duty = 0) := by
  constructor
  · intro solenoid_vref s
    simp [Solenoid.write_pwm_percent_with_voltage]
  · intro solenoid_vref s curr_v_mv h
    have hc : curr_v_mv ≠ 0 := by omega
    refine ⟨(s.write_pwm_percent 0).write_pwm_percent 0, ?_, rfl⟩
    simp [Solenoid.write_pwm_percent_with_voltage, hc, scaled_percent_zero]

/-- C12: evaluation of `write_pwm_percent_with_voltage(0, curr_v_mv)`. With
`curr_v_mv != 0` the call performs two duty writes of zero, the second one
with the scaled value; with `curr_v_mv = 0` it reaches the quotient by zero
after the first write. -/
theorem zero_percent_falls_through :
    (∀ (solenoid_vref : Nat) (s : Solenoid) (curr_v_mv : Nat), curr_v_mv ≠ 0 →
      s.write_pwm_percent_with_voltage solenoid_vref 0 curr_v_mv =
        .returned ((s.write_pwm_percent 0).write_pwm_percent (0 * solenoid_vref / curr_v_mv)) ∧
      ((s.write_pwm_percent 0).write_pwm_percent (0 * solenoid_vref / curr_v_mv)).ledc_writes =
        0 :: 0 :: s.ledc_writes) ∧
    (∀ (solenoid_vref : Nat) (s : Solenoid),
      ∃ s1, s.write_pwm_percent_with_voltage solenoid_vref 0 0 = .undefined s1 ∧
        s1.ledc_writes = 0 :: s.ledc_writes) := by
  constructor
  · intro solenoid_vref s curr_v_mv hc
    constructor
    · simp [Solenoid.write_pwm_percent_with_voltage, hc, scaled_percent_zero]
    · simp [Solenoid.write_pwm_percent, Solenoid.write_pwm]
  · intro solenoid_vref s
    refine ⟨s.write_pwm_percent 0, ?_, ?_⟩
    · simp [Solenoid.write_pwm_percent_with_voltage]
    · simp [Solenoid.write_pwm_percent, Solenoid.write_pwm]

/-- C14: evaluation of `get_current_estimate` with `adc_reading < vref`. With
`adc_reading = 299` and `vref = 300` the 16-bit difference wraps to 65535 and
the result is 6383, not 0; in general the result is the scaled wrapped
difference, and it is positive unless `vref - adc_reading` exceeds 65525. -/
theorem current_estimate_wraps_below_vref :
    ({ Solenoid.constructed with adc_reading := 299, vref := 300 }).get_current_estimate
      = 6383 ∧
    (∀ s : Solenoid, s.adc_reading < s.vref → s.vref < 2 ^ 16 →
      s.get_current_estimate = (2 ^ 16 - (s.vref - s.adc_reading)) * 974 / 10000) ∧
    (∀ s : Solenoid, s.adc_reading < s.vref → s.vref < 2 ^ 16 →
      s.vref - s.adc_reading ≤ 65525 → 0 < s.get_current_estimate) ∧
    (∀ s : Solenoid, s.vref ≤ s.adc_reading → s.adc_reading < 2 ^ 16 →
      s.get_current_estimate = (s.adc_reading - s.vref) * 974 / 10000) := by
  have hwrap : ∀ s : Solenoid, s.adc_reading < s.vref → s.vref < 2 ^ 16 →
      u16_sub s.adc_reading s.vref = 2 ^ 16 - (s.vref - s.adc_reading) := by
    intro s h1 h2
    unfold u16_sub
    rw [Nat.mod_eq_of_lt h2]
    omega
  refine ⟨by decide, ?_, ?_, ?_⟩
  · intro s h1 h2
    simp only [Solenoid.get_current_estimate, hwrap s h1 h2]
  · intro s h1 h2 h3
    simp only [Solenoid.get_current_estimate, hwrap s h1 h2]
    omega
  · intro s h1 h2
    have hsub : u16_sub s.adc_reading s.vref = s.adc_reading - s.vref := by
      have hv : s.vref % 2 ^ 16 = s.vref := Nat.mod_eq_of_lt (by omega)
      unfold u16_sub
      rw [hv]
      omega
    simp only [Solenoid.get_current_estimate, hsub]

/-! ## Calibration -/

theorem forall_fin_six (P : Fin 6 → Prop) :
    (∀ k : Fin 6, P k) ↔ (P 0 ∧ P 1 ∧ P 2 ∧ P 3 ∧ P 4 ∧ P 5) := by
  constructor
  · intro h
    exact ⟨h 0, h 1, h 2, h 3, h 4, h 5⟩
  · rintro ⟨h0, h1, h2, h3, h4, h5⟩ k
    fin_cases k <;> assumption

/-- C15: the threshold checks of `init_all_solenoids`, as a function of the six
calibrated baselines: the result is true exactly when every `vref` is at most
500, and then no solenoid is reported; otherwise the result is false and the
reported solenoid is the first in the order Y3, Y4, Y5, MPC, SPC, TCC whose
`vref` exceeds 500. The checks only read the baselines. -/
theorem calibration_check_reports_first_excess (sols : Fin 6 → Solenoid) :
    ((init_all_solenoids_check sols).1 = true ↔ ∀ k : Fin 6, (sols k).vref ≤ 500) ∧
    ((init_all_solenoids_check sols).1 = true ↔ (init_all_solenoids_check sols).2 = none) ∧
    (∀ k : Fin 6, (init_all_solenoids_check sols).2 = some k ↔
      (500 < (sols k).vref ∧ ∀ j : Fin 6, j < k → (sols j).vref ≤ 500)) := by
  simp only [forall_fin_six, init_all_solenoids_check, Solenoid.get_vref, sol_y3, sol_y4,
    sol_y5, sol_mpc, sol_spc, sol_tcc]
  split_ifs <;> simp_all

theorem read_solenoids_i2s_run_append (st : SamplerState) (avgs : List Nat) (avg : Nat) :
    read_solenoids_i2s_run st (avgs ++ [avg]) =
      (read_solenoids_i2s_run st avgs).bind (fun st1 => read_solenoids_i2s_step st1 avg) := by
  induction avgs generalizing st with
  | nil =>
    simp only [List.nil_append, read_solenoids_i2s_run, Option.some_bind]
    cases read_solenoids_i2s_step st avg <;> rfl
  | cons a avgs ih =>
    simp only [List.cons_append, read_solenoids_i2s_run]
    cases read_solenoids_i2s_step st a with
    | none => rfl
    | some st1 => exact ih st1

/-- One iteration during calibration: the channel `solenoid_id` gets the
reading as its `adc_reading` and as its `vref`. -/
theorem read_solenoids_i2s_step_calibrating (st : SamplerState) (avg : Nat)
    (h : st.solenoid_id < 6) (hc : st.all_calibrated = false) :
    read_solenoids_i2s_step st avg =
      some { solenoid_id := if st.solenoid_id = 5 then 0 else st.solenoid_id + 1,
             all_calibrated := decide (st.solenoid_id = 5),
             sol_order := Function.update st.sol_order ⟨st.solenoid_id, h⟩
               (((st.sol_order ⟨st.solenoid_id, h⟩).__set_current_internal avg).__set_vref
                 avg) } := by
  have hmod : (st.solenoid_id + 1) % 2 ^ 8 = st.solenoid_id + 1 :=
    Nat.mod_eq_of_lt (by omega)
  simp only [read_solenoids_i2s_step, dif_pos h, hc, hmod]
  by_cases h5 : st.solenoid_id = 5
  · simp [h5]
  · have h6 : ¬ (st.solenoid_id + 1 = 6) := by omega
    simp [h5, h6]

/-- One iteration after calibration: the channel `solenoid_id` gets the reading
as its `adc_reading` and nothing else changes. -/
theorem read_solenoids_i2s_step_calibrated (st : SamplerState) (avg : Nat)
    (h : st.solenoid_id < 6) (hc : st.all_calibrated = true) :
    read_solenoids_i2s_step st avg =
      some { solenoid_id := if st.solenoid_id = 5 then 0 else st.solenoid_id + 1,
             all_calibrated := true,
             sol_order := Function.update st.sol_order ⟨st.solenoid_id, h⟩
               ((st.sol_order ⟨st.solenoid_id, h⟩).__set_current_internal avg) } := by
  have hmod : (st.solenoid_id + 1) % 2 ^ 8 = st.solenoid_id + 1 :=
    Nat.mod_eq_of_lt (by omega)
  simp only [read_solenoids_i2s_step, dif_pos h, hc, hmod]
  by_cases h5 : st.solenoid_id = 5
  · simp [h5]
  · have h6 : ¬ (st.solenoid_id + 1 = 6) := by omega
    simp [h5, h6]

/-- The state of the sampling loop after any number of iterations from its
start: the loop has not failed, `solenoid_id` is the iteration count modulo 6,
`all_calibrated` tells whether six iterations are done, and each `vref` is the
reading of the iteration with the channel's number, or still the initial one. -/
theorem read_solenoids_i2s_run_invariant (sols : Fin 6 → Solenoid) (avgs : List Nat) :
    ∃ st, read_solenoids_i2s_run (SamplerState.start sols) avgs = some st ∧
      st.solenoid_id = avgs.length % 6 ∧
      st.all_calibrated = decide (6 ≤ avgs.length) ∧
      ∀ k : Fin 6,
        (∀ a, avgs[k.val]? = some a → (st.sol_order k).vref = a % 2 ^ 16) ∧
        (avgs.length ≤ k.val → (st.sol_order k).vref = (sols k).vref) := by
  induction avgs using List.reverseRecOn with
  | nil =>
    refine ⟨SamplerState.start sols, rfl, rfl, rfl, fun k => ⟨?_, fun _ => rfl⟩⟩
    intro a ha
    simp at ha
  | append_singleton avgs avg ih =>
    obtain ⟨st, hrun, hid, hcal, hv⟩ := ih
    have hlt : st.solenoid_id < 6 := by rw [hid]; exact Nat.mod_lt _ (by decide)
    rw [read_solenoids_i2s_run_append, hrun, Option.some_bind]
    by_cases hn : 6 ≤ avgs.length
    · -- calibration is over: only `adc_reading` changes
      have hc : st.all_calibrated = true := by rw [hcal]; exact decide_eq_true hn
      rw [read_solenoids_i2s_step_calibrated st avg hlt hc]
      refine ⟨_, rfl, ?_, ?_, ?_⟩
      · simp only [List.length_append, List.length_singleton]
        split_ifs <;> omega
      · simp only [List.length_append, List.length_singleton]
        exact (decide_eq_true (by omega)).symm
      · intro k
        have hk : k.val < avgs.length := by omega
        have hvref : (Function.update st.sol_order ⟨st.solenoid_id, hlt⟩
            ((st.sol_order ⟨st.solenoid_id, hlt⟩).__set_current_internal avg) k).vref =
            (st.sol_order k).vref := by
          by_cases hki : k = ⟨st.solenoid_id, hlt⟩
          · subst hki
            simp [Solenoid.__set_current_internal]
          · rw [Function.update_noteq hki]
        constructor
        · intro a ha
          rw [List.getElem?_append_left hk] at ha
          rw [hvref]
          exact (hv k).1 a ha
        · intro hle
          simp only [List.length_append, List.length_singleton] at hle
          omega
    · -- calibration: channel `avgs.length` gets its baseline
      have hn' : avgs.length < 6 := by omega
      have hc : st.all_calibrated = false := by rw [hcal]; exact decide_eq_false hn
      have hid' : st.solenoid_id = avgs.length := by rw [hid]; exact Nat.mod_eq_of_lt hn'
      rw [read_solenoids_i2s_step_calibrating st avg hlt hc]
      refine ⟨_, rfl, ?_, ?_, ?_⟩
      · simp only [List.length_append, List.length_singleton]
        split_ifs <;> omega
      · simp only [List.length_append, List.length_singleton]
        by_cases h5 : st.solenoid_id = 5
        · rw [decide_eq_true h5, decide_eq_true (by omega)]
        · rw [decide_eq_false h5, decide_eq_false (by omega)]
      · intro k
        by_cases hki : k = ⟨st.solenoid_id, hlt⟩
        · subst hki
          constructor
          · intro a ha
            simp only [hid'] at ha
            rw [List.getElem?_append_right (le_refl _)] at ha
            simp at ha
            subst ha
            simp [Solenoid.__set_vref]
          · intro hle
            simp only [List.length_append, List.length_singleton] at hle
            simp only [hid'] at hle
            omega
        · dsimp only
          rw [Function.update_noteq hki]
          have hkne : k.val ≠ avgs.length := by
            intro e
            apply hki
            apply Fin.ext
            simp [hid', e]
          constructor
          · intro a ha
            by_cases hk : k.val < avgs.length
            · rw [List.getElem?_append_left hk] at ha
              exact (hv k).1 a ha
            · have hlen : (avgs ++ [avg]).length ≤ k.val := by
                simp only [List.length_append, List.length_singleton]
                omega
              rw [List.getElem?_eq_none hlen] at ha
              exact absurd ha (by simp)
          · intro hle
            simp only [List.length_append, List.length_singleton] at hle
            exact (hv k).2 (by omega)

/-- C16: the sampling loop started with `solenoid_id = 0` and
`all_calibrated = false`, fed one averaged reading per iteration. After any
number of iterations the loop has not failed and `solenoid_id` is the count
modulo 6; `all_calibrated` is true exactly from the end of the sixth iteration
on; the `vref` of channel `k` is the reading of iteration `k` (narrowed to 16
bits, so the reading itself when it is below `2 ^ 16`) as soon as that
iteration is done and for ever after, and the initial value before; and an
iteration after calibration changes nothing but the `adc_reading` of the
channel it visits. -/
theorem vref_written_once_in_first_pass (sols : Fin 6 → Solenoid) (avgs : List Nat) :
    ∃ st, read_solenoids_i2s_run (SamplerState.start sols) avgs = some st ∧
      st.solenoid_id = avgs.length % 6 ∧
      (st.all_calibrated = true ↔ 6 ≤ avgs.length) ∧
      (∀ (k : Fin 6) (a : Nat), avgs[k.val]? = some a →
        (st.sol_order k).vref = a % 2 ^ 16 ∧ (a < 2 ^ 16 → (st.sol_order k).vref = a)) ∧
      (∀ k : Fin 6, avgs.length ≤ k.val → (st.sol_order k).vref = (sols k).vref) ∧
      (6 ≤ avgs.length → ∀ avg : Nat, ∃ st1, read_solenoids_i2s_step st avg = some st1 ∧
        ∀ k : Fin 6,
          (st1.sol_order k).vref = (st.sol_order k).vref ∧
          (st1.sol_order k).vref_calibrated = (st.sol_order k).vref_calibrated ∧
          (st1.sol_order k).ready = (st.sol_order k).ready ∧
          (st1.sol_order k).ledc_writes = (st.sol_order k).ledc_writes ∧
          (k.val ≠ st.solenoid_id → st1.sol_order k = st.sol_order k)) := by
  obtain ⟨st, hrun, hid, hcal, hv⟩ := read_solenoids_i2s_run_invariant sols avgs
  have hlt : st.solenoid_id < 6 := by rw [hid]; exact Nat.mod_lt _ (by decide)
  refine ⟨st, hrun, hid, ?_, ?_, fun k => (hv k).2, ?_⟩
  · rw [hcal, decide_eq_true_iff]
  · intro k a ha
    have h := (hv k).1 a ha
    exact ⟨h, fun hlt16 => by rw [h, Nat.mod_eq_of_lt hlt16]⟩
  · intro hn avg
    have hc : st.all_calibrated = true := by rw [hcal]; exact decide_eq_true hn
    refine ⟨_, read_solenoids_i2s_step_calibrated st avg hlt hc, ?_⟩
    intro k
    dsimp only
    by_cases hki : k = ⟨st.solenoid_id, hlt⟩
    · subst hki
      simp [Solenoid.__set_current_internal]
    · rw [Function.update_noteq hki]
      simp

/-- C17, as stated, fails: a solenoid fresh from its constructor has
`vref_calibrated = false`, and `write_pwm_percent(1000)` commits the duty 4080
to its channel; `write_pwm_percent_with_voltage(500, 12000)` with a nominal
voltage of 12000 commits 2032. -/
theorem duty_committed_before_calibration :
    Solenoid.constructed.vref_calibrated = false ∧
    (Solenoid.constructed.write_pwm_percent 1000).ledc_writes = [4080] ∧
    Solenoid.constructed.write_pwm_percent_with_voltage 12000 500 12000 =
      .returned { Solenoid.constructed with ledc_writes := [2032] } := by
  decide!

/-- C17 (amended): duty commands are not gated on calibration. For every
solenoid and every value of `vref_calibrated`, `write_pwm_percent` commits one
duty to the hardware channel, the same duty whether `vref_calibrated` is true
or false, and `write_pwm_percent_with_voltage`, when it returns, has committed
at least one duty as well. -/
theorem duty_written_regardless_of_calibration (s : Solenoid) (percent : Nat) :
    (∃ d, ∀ b : Bool,
      ({ s with vref_calibrated := b }.write_pwm_percent percent).ledc_writes =
        d :: s.ledc_writes) ∧
    (∀ (b : Bool) (solenoid_vref curr_v_mv : Nat) (s1 : Solenoid),
      { s with vref_calibrated := b }.write_pwm_percent_with_voltage solenoid_vref percent
        curr_v_mv = .returned s1 →
      s.ledc_writes.length < s1.ledc_writes.length) := by
  constructor
  · exact ⟨_, fun b => rfl⟩
  · intro b solenoid_vref curr_v_mv s1 h
    unfold Solenoid.write_pwm_percent_with_voltage at h
    split_ifs at h <;>
      simp only [Outcome.returned.injEq, reduceCtorEq] at h <;>
      (subst h; simp only [Solenoid.write_pwm_percent, Solenoid.write_pwm, List.length_cons];
       omega)

/-- C18: `inc_gear_request` moves a forward target below the maximum forward
gear to the next forward gear, one rank up and not above the maximum, and
leaves a target at (or above) the maximum, and a target that is no forward
gear, as it is; the other gear fields are not touched. With maximum forward
gear Fifth a target of Second becomes Third and a target of Fifth stays
Fifth. -/
theorem inc_gear_request_steps_and_clamps (max_fwd_gear : GearboxGear) (g : Gearbox) :
    (∀ r m : Nat, g.target_gear.fwd_rank = some r → max_fwd_gear.fwd_rank = some m → r < m →
      (g.inc_gear_request max_fwd_gear).target_gear = g.target_gear.next_fwd ∧
      (g.inc_gear_request max_fwd_gear).target_gear.fwd_rank = some (r + 1) ∧
      r + 1 ≤ m) ∧
    (∀ r m : Nat, g.target_gear.fwd_rank = some r → max_fwd_gear.fwd_rank = some m → m ≤ r →
      (g.inc_gear_request max_fwd_gear).target_gear = g.target_gear) ∧
    (g.target_gear.fwd_rank = none →
      (g.inc_gear_request max_fwd_gear).target_gear = g.target_gear) ∧
    (g.inc_gear_request max_fwd_gear).actual_gear = g.actual_gear ∧
    (g.inc_gear_request max_fwd_gear).min_fwd_gear = g.min_fwd_gear ∧
    ({ g with target_gear := .Second }.inc_gear_request .Fifth).target_gear = .Third ∧
    ({ g with target_gear := .Fifth }.inc_gear_request .Fifth).target_gear = .Fifth ∧
    (({ g with target_gear := .Second }.inc_gear_request .Fifth).inc_gear_request
      .Fifth).target_gear = .Fourth := by
  obtain ⟨t, a, mn⟩ := g
  refine ⟨?_, ?_, ?_, ?_, ?_, rfl, rfl, rfl⟩
  · intro r m hr hm hlt
    cases t <;> cases max_fwd_gear <;>
      simp only [GearboxGear.fwd_rank, Option.some.injEq, reduceCtorEq] at hr hm <;>
      subst hr <;> subst hm <;>
      first
        | (exfalso; omega)
        | exact ⟨rfl, rfl, by omega⟩
  · intro r m hr hm hle
    cases t <;> cases max_fwd_gear <;>
      simp only [GearboxGear.fwd_rank, Option.some.injEq, reduceCtorEq] at hr hm <;>
      subst hr <;> subst hm <;>
      first
        | (exfalso; omega)
        | rfl
  · intro hr
    cases t <;> cases max_fwd_gear <;>
      simp only [GearboxGear.fwd_rank, reduceCtorEq] at hr <;> rfl
  · cases t <;> cases max_fwd_gear <;> rfl
  · cases t <;> cases max_fwd_gear <;> rfl

/-- C19: the accesses of the four members to `adc_reading` and `vref`.
`get_current_estimate`, `__set_current_internal` and `__set_vref` load and
store between `portENTER_CRITICAL` and `portEXIT_CRITICAL`, and running their
operations gives the effect of the members; `get_vref` loads `vref` with the
lock not held. -/
theorem get_vref_reads_outside_critical_section :
    in_critical false Solenoid.get_vref_ops = false ∧
    in_critical false Solenoid.get_current_estimate_ops = true ∧
    (∀ c : Nat, in_critical false (Solenoid.__set_current_internal_ops c) = true) ∧
    (∀ ref : Nat, in_critical false (Solenoid.__set_vref_ops ref) = true) ∧
    (∀ (s : Solenoid) (c : Nat),
      run_ops s (Solenoid.__set_current_internal_ops c) = s.__set_current_internal c) ∧
    (∀ (s : Solenoid) (ref : Nat), run_ops s (Solenoid.__set_vref_ops ref) = s.__set_vref ref) ∧
    (∀ s : Solenoid, run_ops s Solenoid.get_vref_ops = s ∧
      run_ops s Solenoid.get_current_estimate_ops = s) := by
  refine ⟨rfl, rfl, fun _ => rfl, fun _ => rfl, fun _ _ => rfl, fun _ _ => rfl,
    fun _ => ⟨rfl, rfl⟩⟩

/-! ## Round trips of the frame fields -/

theorem roundTrip_of {α : Type} {set : α → Nat → α} {get : α → Nat} {w : Nat}
    (h : ∀ (f : α) (v : Nat), get (set f v) = v % 2 ^ w) : RoundTrip set get w :=
  fun f v => ⟨h f v, fun hv => by rw [h f v, Nat.mod_eq_of_lt hv]⟩

theorem getFlag_setFlag (raw o m : Nat) (b : Bool) (ho : o + 1 ≤ 64)
    (hm : m = (2 ^ 64 - 1) ^^^ ((2 ^ 1 - 1) <<< o)) :
    (((((raw &&& m) ||| ((b.toNat &&& 0x1) <<< o)) >>> o) &&& 0x1) != 0) = b := by
  have h := getField_setField raw b.toNat o 1 m ho hm
  simp only [Nat.pow_one, Nat.add_one_sub_one] at h
  rw [h]
  cases b <;> rfl

theorem roundtrip_GS_218_MTGL_EGS : RoundTripFlag GS_218.set_MTGL_EGS GS_218.get_MTGL_EGS := by
  intro f b
  simpa [GS_218.set_MTGL_EGS, GS_218.get_MTGL_EGS] using
    getFlag_setFlag f.raw 63 0x7fffffffffffffff b (by decide) (by decide)

theorem roundtrip_GS_218_MMIN_EGS : RoundTripFlag GS_218.set_MMIN_EGS GS_218.get_MMIN_EGS := by
  intro f b
  simpa [GS_218.set_MMIN_EGS, GS_218.get_MMIN_EGS] using
    getFlag_setFlag f.raw 62 0xbfffffffffffffff b (by decide) (by decide)

theorem roundtrip_GS_218_MMAX_EGS : RoundTripFlag GS_218.set_MMAX_EGS GS_218.get_MMAX_EGS := by
  intro f b
  simpa [GS_218.set_MMAX_EGS, GS_218.get_MMAX_EGS] using
    getFlag_setFlag f.raw 61 0xdfffffffffffffff b (by decide) (by decide)

theorem roundtrip_GS_218_M_EGS : RoundTrip GS_218.set_M_EGS GS_218.get_M_EGS 13 := by
  apply roundTrip_of
  intro f v
  simpa [GS_218.set_M_EGS, GS_218.get_M_EGS] using
    getField_setField f.raw v 48 13 0xe000ffffffffffff (by decide) (by decide)

theorem roundtrip_GS_218_GZC : RoundTrip GS_218.set_GZC GS_218.get_GZC 4 := by
  apply roundTrip_of
  intro f v
  simpa [GS_218.set_GZC, GS_218.get_GZC] using
    getField_setField f.raw v 44 4 0xffff0fffffffffff (by decide) (by decide)

theorem roundtrip_GS_218_GIC : RoundTrip GS_218.set_GIC GS_218.get_GIC 4 := by
  apply roundTrip_of
  intro f v
  simpa [GS_218.set_GIC, GS_218.get_GIC] using
    getField_setField f.raw v 40 4 0xfffff0ffffffffff (by decide) (by decide)

theorem roundtrip_GS_218_K_S_B : RoundTripFlag GS_218.set_K_S_B GS_218.get_K_S_B := by
  intro f b
  simpa [GS_218.set_K_S_B, GS_218.get_K_S_B] using
    getFlag_setFlag f.raw 39 0xffffff7fffffffff b (by decide) (by decide)

theorem roundtrip_GS_218_K_O_B : RoundTripFlag GS_218.set_K_O_B GS_218.get_K_O_B := by
  intro f b
  simpa [GS_218.set_K_O_B, GS_218.get_K_O_B] using
    getFlag_setFlag f.raw 38 0xffffffbfffffffff b (by decide) (by decide)

theorem roundtrip_GS_218_K_G_B : RoundTripFlag GS_218.set_K_G_B GS_218.get_K_G_B := by
  intro f b
  simpa [GS_218.set_K_G_B, GS_218.get_K_G_B] using
    getFlag_setFlag f.raw 37 0xffffffdfffffffff b (by decide) (by decide)

theorem roundtrip_GS_218_G_G : RoundTripFlag GS_218.set_G_G GS_218.get_G_G := by
  intro f b
  simpa [GS_218.set_G_G, GS_218.get_G_G] using
    getFlag_setFlag f.raw 36 0xffffffefffffffff b (by decide) (by decide)

theorem roundtrip_GS_218_GSP_OK : RoundTripFlag GS_218.set_GSP_OK GS_218.get_GSP_OK := by
  intro f b
  simpa [GS_218.set_GSP_OK, GS_218.get_GSP_OK] using
    getFlag_setFlag f.raw 35 0xfffffff7ffffffff b (by decide) (by decide)

theorem roundtrip_GS_218_FW_HOCH : RoundTripFlag GS_218.set_FW_HOCH GS_218.get_FW_HOCH := by
  intro f b
  simpa [GS_218.set_FW_HOCH, GS_218.get_FW_HOCH] using
    getFlag_setFlag f.raw 34 0xfffffffbffffffff b (by decide) (by decide)

theorem roundtrip_GS_218_SCHALT : RoundTripFlag GS_218.set_SCHALT GS_218.get_SCHALT := by
  intro f b
  simpa [GS_218.set_SCHALT, GS_218.get_SCHALT] using
    getFlag_setFlag f.raw 33 0xfffffffdffffffff b (by decide) (by decide)

theorem roundtrip_GS_218_HSM : RoundTripFlag GS_218.set_HSM GS_218.get_HSM := by
  intro f b
  simpa [GS_218.set_HSM, GS_218.get_HSM] using
    getFlag_setFlag f.raw 32 0xfffffffeffffffff b (by decide) (by decide)

theorem roundtrip_GS_218_GET_OK : RoundTripFlag GS_218.set_GET_OK GS_218.get_GET_OK := by
  intro f b
  simpa [GS_218.set_GET_OK, GS_218.get_GET_OK] using
    getFlag_setFlag f.raw 31 0xffffffff7fffffff b (by decide) (by decide)

theorem roundtrip_GS_218_KS : RoundTripFlag GS_218.set_KS GS_218.get_KS := by
  intro f b
  simpa [GS_218.set_KS, GS_218.get_KS] using
    getFlag_setFlag f.raw 30 0xffffffffbfffffff b (by decide) (by decide)

theorem roundtrip_GS_218_ALF : RoundTripFlag GS_218.set_ALF GS_218.get_ALF := by
  intro f b
  simpa [GS_218.set_ALF, GS_218.get_ALF] using
    getFlag_setFlag f.raw 29 0xffffffffdfffffff b (by decide) (by decide)

theorem roundtrip_GS_218_GS_NOTL : RoundTripFlag GS_218.set_GS_NOTL GS_218.get_GS_NOTL := by
  intro f b
  simpa [GS_218.set_GS_NOTL, GS_218.get_GS_NOTL] using
    getFlag_setFlag f.raw 28 0xffffffffefffffff b (by decide) (by decide)

theorem roundtrip_GS_218_UEHITZ_GET : RoundTripFlag GS_218.set_UEHITZ_GET GS_218.get_UEHITZ_GET := by
  intro f b
  simpa [GS_218.set_UEHITZ_GET, GS_218.get_UEHITZ_GET] using
    getFlag_setFlag f.raw 27 0xfffffffff7ffffff b (by decide) (by decide)

theorem roundtrip_GS_218_KD : RoundTripFlag GS_218.set_KD GS_218.get_KD := by
  intro f b
  simpa [GS_218.set_KD, GS_218.get_KD] using
    getFlag_setFlag f.raw 26 0xfffffffffbffffff b (by decide) (by decide)

theorem roundtrip_GS_218_FPC_AAD : RoundTrip GS_218.set_FPC_AAD GS_218.get_FPC_AAD 2 := by
  apply roundTrip_of
  intro f v
  simpa [GS_218.set_FPC_AAD, GS_218.get_FPC_AAD] using
    getField_setField f.raw v 24 2 0xfffffffffcffffff (by decide) (by decide)

theorem roundtrip_GS_218_MPAR_EGS : RoundTripFlag GS_218.set_MPAR_EGS GS_218.get_MPAR_EGS := by
  intro f b
  simpa [GS_218.set_MPAR_EGS, GS_218.get_MPAR_EGS] using
    getFlag_setFlag f.raw 23 0xffffffffff7fffff b (by decide) (by decide)

theorem roundtrip_GS_218_DYN1_EGS : RoundTripFlag GS_218.set_DYN1_EGS GS_218.get_DYN1_EGS := by
  intro f b
  simpa [GS_218.set_DYN1_EGS, GS_218.get_DYN1_EGS] using
    getFlag_setFlag f.raw 22 0xffffffffffbfffff b (by decide) (by decide)

theorem roundtrip_GS_218_DYN0_AMR_EGS : RoundTripFlag GS_218.set_DYN0_AMR_EGS GS_218.get_DYN0_AMR_EGS := by
  intro f b
  simpa [GS_218.set_DYN0_AMR_EGS, GS_218.get_DYN0_AMR_EGS] using
    getFlag_setFlag f.raw 21 0xffffffffffdfffff b (by decide) (by decide)

theorem roundtrip_GS_218_K_LSTFR : RoundTripFlag GS_218.set_K_LSTFR GS_218.get_K_LSTFR := by
  intro f b
  simpa [GS_218.set_K_LSTFR, GS_218.get_K_LSTFR] using
    getFlag_setFlag f.raw 18 0xfffffffffffbffff b (by decide) (by decide)

theorem roundtrip_GS_218_MOT_NAUS_CNF : RoundTripFlag GS_218.set_MOT_NAUS_CNF GS_218.get_MOT_NAUS_CNF := by
  intro f b
  simpa [GS_218.set_MOT_NAUS_CNF, GS_218.get_MOT_NAUS_CNF] using
    getFlag_setFlag f.raw 17 0xfffffffffffdffff b (by decide) (by decide)

theorem roundtrip_GS_218_MOT_NAUS : RoundTripFlag GS_218.set_MOT_NAUS GS_218.get_MOT_NAUS := by
  intro f b
  simpa [GS_218.set_MOT_NAUS, GS_218.get_MOT_NAUS] using
    getFlag_setFlag f.raw 16 0xfffffffffffeffff b (by decide) (by decide)

theorem roundtrip_GS_218_MKRIECH : RoundTrip GS_218.set_MKRIECH GS_218.get_MKRIECH 8 := by
  apply roundTrip_of
  intro f v
  simpa [GS_218.set_MKRIECH, GS_218.get_MKRIECH] using
    getField_setField f.raw v 8 8 0xffffffffffff00ff (by decide) (by decide)

theorem roundtrip_GS_218_FEHLPRF_ST : RoundTrip GS_218.set_FEHLPRF_ST GS_218.get_FEHLPRF_ST 2 := by
  apply roundTrip_of
  intro f v
  simpa [GS_218.set_FEHLPRF_ST, GS_218.get_FEHLPRF_ST] using
    getField_setField f.raw v 6 2 0xffffffffffffff3f (by decide) (by decide)

theorem roundtrip_GS_218_CALID_CVN_AKT : RoundTripFlag GS_218.set_CALID_CVN_AKT GS_218.get_CALID_CVN_AKT := by
  intro f b
  simpa [GS_218.set_CALID_CVN_AKT, GS_218.get_CALID_CVN_AKT] using
    getFlag_setFlag f.raw 5 0xffffffffffffffdf b (by decide) (by decide)

theorem roundtrip_GS_218_FEHLER : RoundTrip GS_218.set_FEHLER GS_218.get_FEHLER 5 := by
  apply roundTrip_of
  intro f v
  simpa [GS_218.set_FEHLER, GS_218.get_FEHLER] using
    getField_setField f.raw v 0 5 0xffffffffffffffe0 (by decide) (by decide)

theorem roundtrip_GS_338_NAB : RoundTrip GS_338.set_NAB GS_338.get_NAB 16 := by
  apply roundTrip_of
  intro f v
  simpa [GS_338.set_NAB, GS_338.get_NAB] using
    getField_setField f.raw v 48 16 0x0000ffffffffffff (by decide) (by decide)

theorem roundtrip_GS_338_NTURBINE : RoundTrip GS_338.set_NTURBINE GS_338.get_NTURBINE 16 := by
  apply roundTrip_of
  intro f v
  simpa [GS_338.set_NTURBINE, GS_338.get_NTURBINE] using
    getField_setField f.raw v 0 16 0xffffffffffff0000 (by decide) (by decide)

theorem roundtrip_GS_418_FSC : RoundTrip GS_418.set_FSC GS_418.get_FSC 8 := by
  apply roundTrip_of
  intro f v
  simpa [GS_418.set_FSC, GS_418.get_FSC] using
    getField_setField f.raw v 56 8 0x00ffffffffffffff (by decide) (by decide)

theorem roundtrip_GS_418_FPC : RoundTrip GS_418.set_FPC GS_418.get_FPC 8 := by
  apply roundTrip_of
  intro f v
  simpa [GS_418.set_FPC, GS_418.get_FPC] using
    getField_setField f.raw v 48 8 0xff00ffffffffffff (by decide) (by decide)

theorem roundtrip_GS_418_T_GET : RoundTrip GS_418.set_T_GET GS_418.get_T_GET 8 := by
  apply roundTrip_of
  intro f v
  simpa [GS_418.set_T_GET, GS_418.get_T_GET] using
    getField_setField f.raw v 40 8 0xffff00ffffffffff (by decide) (by decide)

theorem roundtrip_GS_418_ALLRAD : RoundTripFlag GS_418.set_ALLRAD GS_418.get_ALLRAD := by
  intro f b
  simpa [GS_418.set_ALLRAD, GS_418.get_ALLRAD] using
    getFlag_setFlag f.raw 39 0xffffff7fffffffff b (by decide) (by decide)

theorem roundtrip_GS_418_FRONT : RoundTripFlag GS_418.set_FRONT GS_418.get_FRONT := by
  intro f b
  simpa [GS_418.set_FRONT, GS_418.get_FRONT] using
    getFlag_setFlag f.raw 38 0xffffffbfffffffff b (by decide) (by decide)

theorem roundtrip_GS_418_SCHALT : RoundTripFlag GS_418.set_SCHALT GS_418.get_SCHALT := by
  intro f b
  simpa [GS_418.set_SCHALT, GS_418.get_SCHALT] using
    getFlag_setFlag f.raw 37 0xffffffdfffffffff b (by decide) (by decide)

theorem roundtrip_GS_418_CVT : RoundTripFlag GS_418.set_CVT GS_418.get_CVT := by
  intro f b
  simpa [GS_418.set_CVT, GS_418.get_CVT] using
    getFlag_setFlag f.raw 36 0xffffffefffffffff b (by decide) (by decide)

theorem roundtrip_GS_418_MECH : RoundTrip GS_418.set_MECH GS_418.get_MECH 2 := by
  apply roundTrip_of
  intro f v
  simpa [GS_418.set_MECH, GS_418.get_MECH] using
    getField_setField f.raw v 34 2 0xfffffff3ffffffff (by decide) (by decide)

theorem roundtrip_GS_418_ESV_BRE : RoundTripFlag GS_418.set_ESV_BRE GS_418.get_ESV_BRE := by
  intro f b
  simpa [GS_418.set_ESV_BRE, GS_418.get_ESV_BRE] using
    getFlag_setFlag f.raw 33 0xfffffffdffffffff b (by decide) (by decide)

theorem roundtrip_GS_418_KD : RoundTripFlag GS_418.set_KD GS_418.get_KD := by
  intro f b
  simpa [GS_418.set_KD, GS_418.get_KD] using
    getFlag_setFlag f.raw 32 0xfffffffeffffffff b (by decide) (by decide)

theorem roundtrip_GS_418_GZC : RoundTrip GS_418.set_GZC GS_418.get_GZC 4 := by
  apply roundTrip_of
  intro f v
  simpa [GS_418.set_GZC, GS_418.get_GZC] using
    getField_setField f.raw v 28 4 0xffffffff0fffffff (by decide) (by decide)

theorem roundtrip_GS_418_GIC : RoundTrip GS_418.set_GIC GS_418.get_GIC 4 := by
  apply roundTrip_of
  intro f v
  simpa [GS_418.set_GIC, GS_418.get_GIC] using
    getField_setField f.raw v 24 4 0xfffffffff0ffffff (by decide) (by decide)

theorem roundtrip_GS_418_M_VERL : RoundTrip GS_418.set_M_VERL GS_418.get_M_VERL 8 := by
  apply roundTrip_of
  intro f v
  simpa [GS_418.set_M_VERL, GS_418.get_M_VERL] using
    getField_setField f.raw v 16 8 0xffffffffff00ffff (by decide) (by decide)

theorem roundtrip_GS_418_FMRADPAR : RoundTripFlag GS_418.set_FMRADPAR GS_418.get_FMRADPAR := by
  intro f b
  simpa [GS_418.set_FMRADPAR, GS_418.get_FMRADPAR] using
    getFlag_setFlag f.raw 15 0xffffffffffff7fff b (by decide) (by decide)

theorem roundtrip_GS_418_FMRADTGL : RoundTripFlag GS_418.set_FMRADTGL GS_418.get_FMRADTGL := by
  intro f b
  simpa [GS_418.set_FMRADTGL, GS_418.get_FMRADTGL] using
    getFlag_setFlag f.raw 14 0xffffffffffffbfff b (by decide) (by decide)

theorem roundtrip_GS_418_WHST : RoundTrip GS_418.set_WHST GS_418.get_WHST 3 := by
  apply roundTrip_of
  intro f v
  simpa [GS_418.set_WHST, GS_418.get_WHST] using
    getField_setField f.raw v 11 3 0xffffffffffffc7ff (by decide) (by decide)

theorem roundtrip_GS_418_FMRAD : RoundTrip GS_418.set_FMRAD GS_418.get_FMRAD 11 := by
  apply roundTrip_of
  intro f v
  simpa [GS_418.set_FMRAD, GS_418.get_FMRAD] using
    getField_setField f.raw v 0 11 0xfffffffffffff800 (by decide) (by decide)

theorem roundtrip_GS_218_GZC_members (f : GS_218) (e : GS_218h_GZC) :
    (f.set_GZC e.toNat).get_GZC = e.toNat := by
  refine (roundtrip_GS_218_GZC f e.toNat).2 ?_
  cases e <;> decide

theorem roundtrip_GS_218_GIC_members (f : GS_218) (e : GS_218h_GIC) :
    (f.set_GIC e.toNat).get_GIC = e.toNat := by
  refine (roundtrip_GS_218_GIC f e.toNat).2 ?_
  cases e <;> decide

theorem roundtrip_GS_218_FPC_AAD_members (f : GS_218) (e : GS_218h_FPC_AAD) :
    (f.set_FPC_AAD e.toNat).get_FPC_AAD = e.toNat := by
  refine (roundtrip_GS_218_FPC_AAD f e.toNat).2 ?_
  cases e <;> decide

theorem roundtrip_GS_218_FEHLPRF_ST_members (f : GS_218) (e : GS_218h_FEHLPRF_ST) :
    (f.set_FEHLPRF_ST e.toNat).get_FEHLPRF_ST = e.toNat := by
  refine (roundtrip_GS_218_FEHLPRF_ST f e.toNat).2 ?_
  cases e <;> decide

theorem roundtrip_GS_418_FPC_members (f : GS_418) (e : GS_418h_FPC) :
    (f.set_FPC e.toNat).get_FPC = e.toNat := by
  refine (roundtrip_GS_418_FPC f e.toNat).2 ?_
  cases e <;> decide

theorem roundtrip_GS_418_MECH_members (f : GS_418) (e : GS_418h_MECH) :
    (f.set_MECH e.toNat).get_MECH = e.toNat := by
  refine (roundtrip_GS_418_MECH f e.toNat).2 ?_
  cases e <;> decide

theorem roundtrip_GS_418_GZC_members (f : GS_418) (e : GS_418h_GZC) :
    (f.set_GZC e.toNat).get_GZC = e.toNat := by
  refine (roundtrip_GS_418_GZC f e.toNat).2 ?_
  cases e <;> decide

theorem roundtrip_GS_418_GIC_members (f : GS_418) (e : GS_418h_GIC) :
    (f.set_GIC e.toNat).get_GIC = e.toNat := by
  refine (roundtrip_GS_418_GIC f e.toNat).2 ?_
  cases e <;> decide

theorem roundtrip_GS_418_WHST_members (f : GS_418) (e : GS_418h_WHST) :
    (f.set_WHST e.toNat).get_WHST = e.toNat := by
  refine (roundtrip_GS_418_WHST f e.toNat).2 ?_
  cases e <;> decide

/-- C20: for every field of `GS_218`, `GS_338` and `GS_418`, the getter after
the setter returns the argument modulo `2 ^ w`, `w` being the width of the
field (for a `bool` field: the argument), hence the argument itself when it is
below `2 ^ w`; and for every enumeration-typed field it returns every defined
member of the enumeration unchanged. -/
theorem field_set_get_roundtrip :
    (RoundTripFlag GS_218.set_MTGL_EGS GS_218.get_MTGL_EGS) ∧
    (RoundTripFlag GS_218.set_MMIN_EGS GS_218.get_MMIN_EGS) ∧
    (RoundTripFlag GS_218.set_MMAX_EGS GS_218.get_MMAX_EGS) ∧
    (RoundTrip GS_218.set_M_EGS GS_218.get_M_EGS 13) ∧
    (RoundTrip GS_218.set_GZC GS_218.get_GZC 4) ∧
    (RoundTrip GS_218.set_GIC GS_218.get_GIC 4) ∧
    (RoundTripFlag GS_218.set_K_S_B GS_218.get_K_S_B) ∧
    (RoundTripFlag GS_218.set_K_O_B GS_218.get_K_O_B) ∧
    (RoundTripFlag GS_218.set_K_G_B GS_218.get_K_G_B) ∧
    (RoundTripFlag GS_218.set_G_G GS_218.get_G_G) ∧
    (RoundTripFlag GS_218.set_GSP_OK GS_218.get_GSP_OK) ∧
    (RoundTripFlag GS_218.set_FW_HOCH GS_218.get_FW_HOCH) ∧
    (RoundTripFlag GS_218.set_SCHALT GS_218.get_SCHALT) ∧
    (RoundTripFlag GS_218.set_HSM GS_218.get_HSM) ∧
    (RoundTripFlag GS_218.set_GET_OK GS_218.get_GET_OK) ∧
    (RoundTripFlag GS_218.set_KS GS_218.get_KS) ∧
    (RoundTripFlag GS_218.set_ALF GS_218.get_ALF) ∧
    (RoundTripFlag GS_218.set_GS_NOTL GS_218.get_GS_NOTL) ∧
    (RoundTripFlag GS_218.set_UEHITZ_GET GS_218.get_UEHITZ_GET) ∧
    (RoundTripFlag GS_218.set_KD GS_218.get_KD) ∧
    (RoundTrip GS_218.set_FPC_AAD GS_218.get_FPC_AAD 2) ∧
    (RoundTripFlag GS_218.set_MPAR_EGS GS_218.get_MPAR_EGS) ∧
    (RoundTripFlag GS_218.set_DYN1_EGS GS_218.get_DYN1_EGS) ∧
    (RoundTripFlag GS_218.set_DYN0_AMR_EGS GS_218.get_DYN0_AMR_EGS) ∧
    (RoundTripFlag GS_218.set_K_LSTFR GS_218.get_K_LSTFR) ∧
    (RoundTripFlag GS_218.set_MOT_NAUS_CNF GS_218.get_MOT_NAUS_CNF) ∧
    (RoundTripFlag GS_218.set_MOT_NAUS GS_218.get_MOT_NAUS) ∧
    (RoundTrip GS_218.set_MKRIECH GS_218.get_MKRIECH 8) ∧
    (RoundTrip GS_218.set_FEHLPRF_ST GS_218.get_FEHLPRF_ST 2) ∧
    (RoundTripFlag GS_218.set_CALID_CVN_AKT GS_218.get_CALID_CVN_AKT) ∧
    (RoundTrip GS_218.set_FEHLER GS_218.get_FEHLER 5) ∧
    (RoundTrip GS_338.set_NAB GS_338.get_NAB 16) ∧
    (RoundTrip GS_338.set_NTURBINE GS_338.get_NTURBINE 16) ∧
    (RoundTrip GS_418.set_FSC GS_418.get_FSC 8) ∧
    (RoundTrip GS_418.set_FPC GS_418.get_FPC 8) ∧
    (RoundTrip GS_418.set_T_GET GS_418.get_T_GET 8) ∧
    (RoundTripFlag GS_418.set_ALLRAD GS_418.get_ALLRAD) ∧
    (RoundTripFlag GS_418.set_FRONT GS_418.get_FRONT) ∧
    (RoundTripFlag GS_418.set_SCHALT GS_418.get_SCHALT) ∧
    (RoundTripFlag GS_418.set_CVT GS_418.get_CVT) ∧
    (RoundTrip GS_418.set_MECH GS_418.get_MECH 2) ∧
    (RoundTripFlag GS_418.set_ESV_BRE GS_418.get_ESV_BRE) ∧
    (RoundTripFlag GS_418.set_KD GS_418.get_KD) ∧
    (RoundTrip GS_418.set_GZC GS_418.get_GZC 4) ∧
    (RoundTrip GS_418.set_GIC GS_418.get_GIC 4) ∧
    (RoundTrip GS_418.set_M_VERL GS_418.get_M_VERL 8) ∧
    (RoundTripFlag GS_418.set_FMRADPAR GS_418.get_FMRADPAR) ∧
    (RoundTripFlag GS_418.set_FMRADTGL GS_418.get_FMRADTGL) ∧
    (RoundTrip GS_418.set_WHST GS_418.get_WHST 3) ∧
    (RoundTrip GS_418.set_FMRAD GS_418.get_FMRAD 11) ∧
    (∀ (f : GS_218) (e : GS_218h_GZC), (f.set_GZC e.toNat).get_GZC = e.toNat) ∧
    (∀ (f : GS_218) (e : GS_218h_GIC), (f.set_GIC e.toNat).get_GIC = e.toNat) ∧
    (∀ (f : GS_218) (e : GS_218h_FPC_AAD), (f.set_FPC_AAD e.toNat).get_FPC_AAD = e.toNat) ∧
    (∀ (f : GS_218) (e : GS_218h_FEHLPRF_ST), (f.set_FEHLPRF_ST e.toNat).get_FEHLPRF_ST = e.toNat) ∧
    (∀ (f : GS_418) (e : GS_418h_FPC), (f.set_FPC e.toNat).get_FPC = e.toNat) ∧
    (∀ (f : GS_418) (e : GS_418h_MECH), (f.set_MECH e.toNat).get_MECH = e.toNat) ∧
    (∀ (f : GS_418) (e : GS_418h_GZC), (f.set_GZC e.toNat).get_GZC = e.toNat) ∧
    (∀ (f : GS_418) (e : GS_418h_GIC), (f.set_GIC e.toNat).get_GIC = e.toNat) ∧
    (∀ (f : GS_418) (e : GS_418h_WHST), (f.set_WHST e.toNat).get_WHST = e.toNat) :=
  ⟨roundtrip_GS_218_MTGL_EGS,
   roundtrip_GS_218_MMIN_EGS,
   roundtrip_GS_218_MMAX_EGS,
   roundtrip_GS_218_M_EGS,
   roundtrip_GS_218_GZC,
   roundtrip_GS_218_GIC,
   roundtrip_GS_218_K_S_B,
   roundtrip_GS_218_K_O_B,
   roundtrip_GS_218_K_G_B,
   roundtrip_GS_218_G_G,
   roundtrip_GS_218_GSP_OK,
   roundtrip_GS_218_FW_HOCH,
   roundtrip_GS_218_SCHALT,
   roundtrip_GS_218_HSM,
   roundtrip_GS_218_GET_OK,
   roundtrip_GS_218_KS,
   roundtrip_GS_218_ALF,
   roundtrip_GS_218_GS_NOTL,
   roundtrip_GS_218_UEHITZ_GET,
   roundtrip_GS_218_KD,
   roundtrip_GS_218_FPC_AAD,
   roundtrip_GS_218_MPAR_EGS,
   roundtrip_GS_218_DYN1_EGS,
   roundtrip_GS_218_DYN0_AMR_EGS,
   roundtrip_GS_218_K_LSTFR,
   roundtrip_GS_218_MOT_NAUS_CNF,
   roundtrip_GS_218_MOT_NAUS,
   roundtrip_GS_218_MKRIECH,
   roundtrip_GS_218_FEHLPRF_ST,
   roundtrip_GS_218_CALID_CVN_AKT,
   roundtrip_GS_218_FEHLER,
   roundtrip_GS_338_NAB,
   roundtrip_GS_338_NTURBINE,
   roundtrip_GS_418_FSC,
   roundtrip_GS_418_FPC,
   roundtrip_GS_418_T_GET,
   roundtrip_GS_418_ALLRAD,
   roundtrip_GS_418_FRONT,
   roundtrip_GS_418_SCHALT,
   roundtrip_GS_418_CVT,
   roundtrip_GS_418_MECH,
   roundtrip_GS_418_ESV_BRE,
   roundtrip_GS_418_KD,
   roundtrip_GS_418_GZC,
   roundtrip_GS_418_GIC,
   roundtrip_GS_418_M_VERL,
   roundtrip_GS_418_FMRADPAR,
   roundtrip_GS_418_FMRADTGL,
   roundtrip_GS_418_WHST,
   roundtrip_GS_418_FMRAD,
   roundtrip_GS_218_GZC_members,
   roundtrip_GS_218_GIC_members,
   roundtrip_GS_218_FPC_AAD_members,
   roundtrip_GS_218_FEHLPRF_ST_members,
   roundtrip_GS_418_FPC_members,
   roundtrip_GS_418_MECH_members,
   roundtrip_GS_418_GZC_members,
   roundtrip_GS_418_GIC_members,
   roundtrip_GS_418_WHST_members⟩

/-! ## Slot isolation, window shape and duty bounds -/

/-- C24: a call of `import_frames` leaves the payload and the last-seen time of
every slot other than the one of `can_id` as they were, and a call that
returns false (unrecognised `can_id`) leaves the whole object as it was. -/
theorem import_frames_leaves_other_slots (s : ECU_GS) (value can_id timestamp_now : Nat) :
    (∀ i : Fin 4, slot_of can_id ≠ some i →
      (s.import_frames value can_id timestamp_now).2.FRAME_DATA i = s.FRAME_DATA i ∧
      (s.import_frames value can_id timestamp_now).2.LAST_FRAME_TIMES i =
        s.LAST_FRAME_TIMES i) ∧
    ((s.import_frames value can_id timestamp_now).1 = false →
      (s.import_frames value can_id timestamp_now).2 = s) ∧
    ((s.import_frames value can_id timestamp_now).1 = false ↔ slot_of can_id = none) ∧
    (can_id = 0x218 → slot_of can_id = some 0) ∧ (can_id = 0x338 → slot_of can_id = some 1) ∧
    (can_id = 0x418 → slot_of can_id = some 2) ∧ (can_id = 0x558 → slot_of can_id = some 3) := by
  have hfalse : (s.import_frames value can_id timestamp_now).1 = false ↔
      slot_of can_id = none := by
    cases hj : slot_of can_id with
    | none => simp [import_frames_of_no_slot s value timestamp_now hj]
    | some j => simp [import_frames_of_slot s value timestamp_now hj]
  refine ⟨?_, ?_, hfalse, ?_, ?_, ?_, ?_⟩
  · intro i hi
    have h := import_frames_other_slot s value timestamp_now hi
    exact ⟨h.2, h.1⟩
  · intro h
    rw [import_frames_of_no_slot s value timestamp_now (hfalse.mp h)]
  all_goals
    intro h
    subst h
    rfl

/-- C25, as stated, fails: the bounds of entry 3 (Fourth, nominal ratio 1) are
the `float`s `7549747 / 2 ^ 23` and `9227469 / 2 ^ 23`, not 0.9 and 1.1 times
the nominal ratio. -/
theorem fourth_window_bounds_are_rounded :
    (GEAR_RATIO_LIMITS 3).min = 7549747 / 2 ^ 23 ∧
    (GEAR_RATIO_LIMITS 3).max = 9227469 / 2 ^ 23 ∧
    (GEAR_RATIO_LIMITS 3).min ≠ 0.9 * GEAR_RATIO_NOMINAL 3 ∧
    (GEAR_RATIO_LIMITS 3).max ≠ 1.1 * GEAR_RATIO_NOMINAL 3 := by
  rw [GEAR_RATIO_LIMITS_eq_values]
  norm_num [GEAR_RATIO_LIMITS_values, GEAR_RATIO_NOMINAL, RAT_4]

/-- C25 (amended): every entry of `GEAR_RATIO_LIMITS` is a window around its
nominal ratio with 10% tolerance up to `float` rounding: `min < max`,
`min <= nominal <= max`, `min` is the `float` nearest to the smaller and `max`
the `float` nearest to the larger of 0.9 and 1.1 times the nominal ratio (the
smaller is the 0.9 multiple for the positive forward ratios and the 1.1
multiple for the negative reverse ratios), and each bound is within a relative
error of `2 ^ -24` of that product. -/
theorem windows_well_formed (i : Fin 7) :
    (GEAR_RATIO_LIMITS i).min < (GEAR_RATIO_LIMITS i).max ∧
    (GEAR_RATIO_LIMITS i).min ≤ GEAR_RATIO_NOMINAL i ∧
    GEAR_RATIO_NOMINAL i ≤ (GEAR_RATIO_LIMITS i).max ∧
    (GEAR_RATIO_LIMITS i).min =
      to_float (min (0.9 * GEAR_RATIO_NOMINAL i) (1.1 * GEAR_RATIO_NOMINAL i)) ∧
    (GEAR_RATIO_LIMITS i).max =
      to_float (max (0.9 * GEAR_RATIO_NOMINAL i) (1.1 * GEAR_RATIO_NOMINAL i)) ∧
    |(GEAR_RATIO_LIMITS i).min - min (0.9 * GEAR_RATIO_NOMINAL i) (1.1 * GEAR_RATIO_NOMINAL i)| ≤
      |min (0.9 * GEAR_RATIO_NOMINAL i) (1.1 * GEAR_RATIO_NOMINAL i)| / 2 ^ 24 ∧
    |(GEAR_RATIO_LIMITS i).max - max (0.9 * GEAR_RATIO_NOMINAL i) (1.1 * GEAR_RATIO_NOMINAL i)| ≤
      |max (0.9 * GEAR_RATIO_NOMINAL i) (1.1 * GEAR_RATIO_NOMINAL i)| / 2 ^ 24 ∧
    (min (0.9 * GEAR_RATIO_NOMINAL i) (1.1 * GEAR_RATIO_NOMINAL i) =
      if i.val < 5 then 0.9 * GEAR_RATIO_NOMINAL i else 1.1 * GEAR_RATIO_NOMINAL i) ∧
    (max (0.9 * GEAR_RATIO_NOMINAL i) (1.1 * GEAR_RATIO_NOMINAL i) =
      if i.val < 5 then 1.1 * GEAR_RATIO_NOMINAL i else 0.9 * GEAR_RATIO_NOMINAL i) := by
  revert i
  decide!

theorem write_pwm_percent_duty (s : Solenoid) (percent : Nat) :
    (s.write_pwm_percent percent).duty = 16 * (255 * min percent 1000 / 1000) := by
  have hclamp : (if percent > 1000 then 1000 else percent) = min percent 1000 := by
    split_ifs with h
    · exact (Nat.min_eq_right (by omega)).symm
    · exact (Nat.min_eq_left (by omega)).symm
  have hle : min percent 1000 ≤ 1000 := Nat.min_le_right _ _
  have h32 : 255 * min percent 1000 % 2 ^ 32 = 255 * min percent 1000 :=
    Nat.mod_eq_of_lt (by omega)
  have hreq : 255 * min percent 1000 / 1000 ≤ 255 := by omega
  have h8 : 255 * min percent 1000 / 1000 % 2 ^ 8 = 255 * min percent 1000 / 1000 :=
    Nat.mod_eq_of_lt (by omega)
  simp only [Solenoid.write_pwm_percent, Solenoid.write_pwm, Solenoid.duty, hclamp, h32, h8,
    List.headD_cons, Nat.shiftLeft_eq]
  omega

/-- C28: for every `percent`, `write_pwm_percent` commits the 12-bit duty
`16 * floor(255 * min(percent, 1000) / 1000)`; the intermediate `request` is
at most 255, so neither the 32-bit product nor the conversion to `uint8_t`
loses anything; the duty is at most 4080, it is 0 for `percent = 0` and 4080
for every `percent >= 1000`. -/
theorem write_pwm_percent_commits_scaled_duty (s : Solenoid) (percent : Nat) :
    (s.write_pwm_percent percent).duty = 16 * (255 * min percent 1000 / 1000) ∧
    (s.write_pwm_percent percent).ledc_writes =
      16 * (255 * min percent 1000 / 1000) :: s.ledc_writes ∧
    255 * min percent 1000 % 2 ^ 32 = 255 * min percent 1000 ∧
    255 * min percent 1000 / 1000 ≤ 255 ∧
    255 * min percent 1000 / 1000 % 2 ^ 8 = 255 * min percent 1000 / 1000 ∧
    (s.write_pwm_percent percent).duty ≤ 4080 ∧
    (s.write_pwm_percent 0).duty = 0 ∧
    (1000 ≤ percent → (s.write_pwm_percent percent).duty = 4080) := by
  have hduty := write_pwm_percent_duty s percent
  have hle : min percent 1000 ≤ 1000 := Nat.min_le_right _ _
  have hreq : 255 * min percent 1000 / 1000 ≤ 255 := by omega
  refine ⟨hduty, ?_, Nat.mod_eq_of_lt (by omega), hreq, Nat.mod_eq_of_lt (by omega), ?_, rfl,
    ?_⟩
  · have hhead : (s.write_pwm_percent percent).ledc_writes =
        (s.write_pwm_percent percent).duty :: s.ledc_writes := rfl
    rw [hhead, hduty]
  · rw [hduty]; omega
  · intro h
    rw [hduty, Nat.min_eq_right h]

/-- C29: `write_pwm_percent` is monotone: for `p1 <= p2` the duty committed for
`p1` is at most the duty committed for `p2`. -/
theorem write_pwm_percent_monotone (s : Solenoid) (p1 p2 : Nat) (h : p1 ≤ p2) :
    (s.write_pwm_percent p1).duty ≤ (s.write_pwm_percent p2).duty := by
  rw [write_pwm_percent_duty, write_pwm_percent_duty]
  have hmin : min p1 1000 ≤ min p2 1000 := by
    simp only [Nat.min_def]
    split_ifs <;> omega
  have hdiv : 255 * min p1 1000 / 1000 ≤ 255 * min p2 1000 / 1000 :=
    Nat.div_le_div_right (Nat.mul_le_mul_left 255 hmin)
  omega

/-- Witness for `write_pwm_percent_monotone`: 250 against 750. -/
theorem write_pwm_percent_monotone_witness :
    (250 ≤ 750) ∧
    (Solenoid.constructed.write_pwm_percent 250).duty = 1008 ∧
    (Solenoid.constructed.write_pwm_percent 750).duty = 3056 ∧
    (Solenoid.constructed.write_pwm_percent 250).duty ≤
      (Solenoid.constructed.write_pwm_percent 750).duty :=
  ⟨by decide, by decide, by decide,
   write_pwm_percent_monotone Solenoid.constructed 250 750 (by decide)⟩

/-- C30: for every `percent` and every `curr_v_mv`, also where the conversion
to `want_percent` is undefined and whatever sixteen bits the variable then
holds, the last value that `write_pwm_percent_with_voltage` passes to
`write_pwm_percent` is at most 1000, the duty committed last is the duty of
that value and is at most the duty 4080 of `write_pwm_percent(1000)`. The
solenoid at the end is the one the calls made lead to: the one returned where
the conversion is defined, and otherwise the one at the conversion with
`write_pwm_percent` of the clamped sixteen bits applied. -/
theorem compensated_duty_at_most_full (solenoid_vref converted : Nat) (s : Solenoid)
    (percent curr_v_mv : Nat) :
    ∃ w : Nat,
      (s.write_pwm_percent_with_voltage_calls solenoid_vref converted percent
        curr_v_mv).1.getLast? = some w ∧
      w ≤ 1000 ∧
      (s.write_pwm_percent_with_voltage_calls solenoid_vref converted percent
        curr_v_mv).2.duty = (s.write_pwm_percent w).duty ∧
      (s.write_pwm_percent_with_voltage_calls solenoid_vref converted percent
        curr_v_mv).2.duty ≤ (s.write_pwm_percent 1000).duty ∧
      (s.write_pwm_percent 1000).duty = 4080 ∧
      (s.write_pwm_percent_with_voltage_calls solenoid_vref converted percent
        curr_v_mv).2 =
        (s.write_pwm_percent_with_voltage_calls solenoid_vref converted percent
          curr_v_mv).1.foldl Solenoid.write_pwm_percent s ∧
      (∀ s1 : Solenoid,
        s.write_pwm_percent_with_voltage solenoid_vref percent curr_v_mv = .returned s1 →
        (s.write_pwm_percent_with_voltage_calls solenoid_vref converted percent
          curr_v_mv).2 = s1) ∧
      (∀ s1 : Solenoid,
        s.write_pwm_percent_with_voltage solenoid_vref percent curr_v_mv = .undefined s1 →
        (s.write_pwm_percent_with_voltage_calls solenoid_vref converted percent
          curr_v_mv).2 = s1.write_pwm_percent (min 1000 (converted % 2 ^ 16))) := by
  have hfull : (s.write_pwm_percent 1000).duty = 4080 := rfl
  have hduty : ∀ (s0 : Solenoid) (w : Nat), w ≤ 1000 →
      (s0.write_pwm_percent w).duty = (s.write_pwm_percent w).duty ∧
      (s0.write_pwm_percent w).duty ≤ 4080 := by
    intro s0 w hw
    rw [write_pwm_percent_duty, write_pwm_percent_duty]
    have hle : min w 1000 ≤ 1000 := Nat.min_le_right _ _
    exact ⟨rfl, by omega⟩
  have hclamp : ∀ q : Nat, (if q > 1000 then 1000 else q) ≤ 1000 := by
    intro q
    split_ifs <;> omega
  generalize hwp :
    (if curr_v_mv = 0 then converted % 2 ^ 16
      else if ⌊scaled_percent solenoid_vref percent curr_v_mv⌋₊ > 65535 then converted % 2 ^ 16
      else ⌊scaled_percent solenoid_vref percent curr_v_mv⌋₊) = q
  have hcalls : s.write_pwm_percent_with_voltage_calls solenoid_vref converted percent
      curr_v_mv =
      ((if percent = 0 then [0] else []) ++ [if q > 1000 then 1000 else q],
        (if percent = 0 then s.write_pwm_percent 0 else s).write_pwm_percent
          (if q > 1000 then 1000 else q)) := by
    simp only [Solenoid.write_pwm_percent_with_voltage_calls, hwp]
  rw [hcalls]
  have hmin : ∀ q : Nat, (if q > 1000 then 1000 else q) = min 1000 q := by
    intro q
    split_ifs with h
    · rw [Nat.min_eq_left (by omega)]
    · rw [Nat.min_eq_right (by omega)]
  refine ⟨if q > 1000 then 1000 else q, by simp, hclamp q, (hduty _ _ (hclamp q)).1, ?_,
    hfull, ?_, ?_, ?_⟩
  · rw [hfull]
    exact (hduty _ _ (hclamp q)).2
  · by_cases h0 : percent = 0
    · simp [h0]
    · simp [h0]
  · intro s1 h
    unfold Solenoid.write_pwm_percent_with_voltage at h
    by_cases hc : curr_v_mv = 0
    · simp [hc] at h
    · by_cases hov : ⌊scaled_percent solenoid_vref percent curr_v_mv⌋₊ > 65535
      · simp [hc, hov] at h
      · simp only [hc, hov, if_false, Outcome.returned.injEq] at h
        simp only [hc, hov, if_false] at hwp
        rw [← hwp, ← h]
  · intro s1 h
    unfold Solenoid.write_pwm_percent_with_voltage at h
    by_cases hc : curr_v_mv = 0
    · simp only [hc, if_true, Outcome.undefined.injEq] at h
      simp only [hc, if_true] at hwp
      rw [← hwp, ← h, hmin]
    · by_cases hov : ⌊scaled_percent solenoid_vref percent curr_v_mv⌋₊ > 65535
      · simp only [hc, hov, if_true, if_false, Outcome.undefined.injEq] at h
        simp only [hc, hov, if_true, if_false] at hwp
        rw [← hwp, ← h, hmin]
      · simp [hc, hov] at h

/-! ## The sampling loop -/

/-- C26: round-robin sampling. In the loop started with `solenoid_id = 0`, the
iteration number `n` (counted from 0, `n` being the number of iterations done
before) finds `solenoid_id = n mod 6`, which is below 6 where it indexes
`solenoid_channels` and `sol_order`, so the iteration is defined; it writes
its averaged reading to the `adc_reading` of channel `n mod 6`, the channels
being Y3, Y4, Y5, MPC, SPC, TCC in this order, and leaves the other channels
as they were. -/
theorem sampling_is_round_robin (sols : Fin 6 → Solenoid) (avgs : List Nat) (avg : Nat) :
    ∃ st st1,
      read_solenoids_i2s_run (SamplerState.start sols) avgs = some st ∧
      st.solenoid_id = avgs.length % 6 ∧ st.solenoid_id < 6 ∧
      read_solenoids_i2s_step st avg = some st1 ∧
      read_solenoids_i2s_run (SamplerState.start sols) (avgs ++ [avg]) = some st1 ∧
      (∀ k : Fin 6, k.val = avgs.length % 6 →
        (st1.sol_order k).adc_reading = avg % 2 ^ 16) ∧
      (∀ k : Fin 6, k.val ≠ avgs.length % 6 → st1.sol_order k = st.sol_order k) ∧
      (sol_y3.val = 0 ∧ sol_y4.val = 1 ∧ sol_y5.val = 2 ∧ sol_mpc.val = 3 ∧
        sol_spc.val = 4 ∧ sol_tcc.val = 5) := by
  obtain ⟨st, hrun, hid, _, _⟩ := read_solenoids_i2s_run_invariant sols avgs
  have hlt : st.solenoid_id < 6 := by rw [hid]; exact Nat.mod_lt _ (by decide)
  have hstep : ∃ st1, read_solenoids_i2s_step st avg = some st1 ∧
      (∀ k : Fin 6, k.val = st.solenoid_id → (st1.sol_order k).adc_reading = avg % 2 ^ 16) ∧
      (∀ k : Fin 6, k.val ≠ st.solenoid_id → st1.sol_order k = st.sol_order k) := by
    cases hc : st.all_calibrated with
    | false =>
      refine ⟨_, read_solenoids_i2s_step_calibrating st avg hlt hc, ?_, ?_⟩
      · intro k hk
        have hki : k = ⟨st.solenoid_id, hlt⟩ := Fin.ext hk
        subst hki
        simp [Solenoid.__set_current_internal, Solenoid.__set_vref]
      · intro k hk
        have hki : k ≠ ⟨st.solenoid_id, hlt⟩ := fun e => hk (by rw [e])
        dsimp only
        rw [Function.update_noteq hki]
    | true =>
      refine ⟨_, read_solenoids_i2s_step_calibrated st avg hlt hc, ?_, ?_⟩
      · intro k hk
        have hki : k = ⟨st.solenoid_id, hlt⟩ := Fin.ext hk
        subst hki
        simp [Solenoid.__set_current_internal]
      · intro k hk
        have hki : k ≠ ⟨st.solenoid_id, hlt⟩ := fun e => hk (by rw [e])
        dsimp only
        rw [Function.update_noteq hki]
  obtain ⟨st1, hst1, hw, hkeep⟩ := hstep
  refine ⟨st, st1, hrun, hid, hlt, hst1, ?_, ?_, ?_, by decide⟩
  · rw [read_solenoids_i2s_run_append, hrun, Option.some_bind, hst1]
  · intro k hk
    exact hw k (by rw [hid]; exact hk)
  · intro k hk
    exact hkeep k (by rw [hid]; exact hk)

theorem getD_lt_of_forall_lt (l : List Nat) (i : Nat) (h : ∀ x ∈ l, x < 256) :
    l.getD i 0 < 256 := by
  rw [List.getD_eq_getElem?_getD]
  cases hx : l[i]? with
  | none => simp
  | some x =>
    simp only [Option.getD_some]
    exact h x (List.getElem?_mem hx)

theorem dma_sample_eq (dma_buffer : List Nat) (i : Nat) (h : ∀ x ∈ dma_buffer, x < 256) :
    dma_sample dma_buffer i = dma_buffer.getD i 0 * 256 + dma_buffer.getD (i + 1) 0 ∧
    dma_sample dma_buffer i ≤ 65535 := by
  have h0 := getD_lt_of_forall_lt dma_buffer i h
  have h1 := getD_lt_of_forall_lt dma_buffer (i + 1) h
  have hor : (dma_buffer.getD i 0 <<< 8) ||| dma_buffer.getD (i + 1) 0 =
      dma_buffer.getD i 0 * 256 + dma_buffer.getD (i + 1) 0 := by
    have h := Nat.mul_add_lt_is_or (show dma_buffer.getD (i + 1) 0 < 2 ^ 8 from h1)
      (dma_buffer.getD i 0)
    rw [Nat.shiftLeft_eq, Nat.mul_comm, ← h]
  unfold dma_sample
  rw [hor, Nat.mod_eq_of_lt (by omega)]
  exact ⟨rfl, by omega⟩

theorem dma_sum_loop_eq (dma_buffer : List Nat) (h : ∀ x ∈ dma_buffer, x < 256) (n i tmp : Nat)
    (hroom : tmp + n * 65535 < 2 ^ 32) :
    dma_sum_loop dma_buffer n i tmp = tmp + dma_sum_exact dma_buffer n i ∧
    dma_sum_exact dma_buffer n i ≤ n * 65535 := by
  induction n generalizing i tmp with
  | zero => exact ⟨rfl, le_refl _⟩
  | succ n ih =>
    obtain ⟨hs, hb⟩ := dma_sample_eq dma_buffer i h
    have hmod : (tmp + dma_sample dma_buffer i) % 2 ^ 32 = tmp + dma_sample dma_buffer i :=
      Nat.mod_eq_of_lt (by omega)
    have hrec := ih (i + BYTES_PER_SAMPLE) (tmp + dma_sample dma_buffer i) (by omega)
    simp only [dma_sum_loop, dma_sum_exact, hmod]
    rw [hrec.1, ← hs]
    exact ⟨by omega, by omega⟩

/-- C27: for every content of the DMA buffer at the three reads of a visit,
the bytes taken as unsigned values below 256: the sum of the 1024 samples
formed in 32 bits equals the exact sum, which is at most `1024 * 65535`, so it
does not wrap; each mean is at most 65535; the sum of the three means does not
wrap and the average is at most 65535; and the narrowing of `avg` to 16 bits
in `__set_current_internal` and `__set_vref` does not change it. -/
theorem sampler_average_fits_16_bits (b0 b1 b2 : List Nat) (s : Solenoid)
    (h0 : ∀ x ∈ b0, x < 256) (h1 : ∀ x ∈ b1, x < 256) (h2 : ∀ x ∈ b2, x < 256) :
    (dma_sum_loop b0 NUM_SAMPLES 0 0 = dma_sum_exact b0 NUM_SAMPLES 0 ∧
      dma_sum_exact b0 NUM_SAMPLES 0 ≤ 1024 * 65535 ∧ 1024 * 65535 < 2 ^ 32) ∧
    (dma_mean b0 ≤ 65535 ∧ dma_mean b1 ≤ 65535 ∧ dma_mean b2 ≤ 65535) ∧
    dma_average b0 b1 b2 = (dma_mean b0 + dma_mean b1 + dma_mean b2) / 3 ∧
    dma_average b0 b1 b2 ≤ 65535 ∧
    (s.__set_current_internal (dma_average b0 b1 b2)).adc_reading = dma_average b0 b1 b2 ∧
    (s.__set_vref (dma_average b0 b1 b2)).vref = dma_average b0 b1 b2 := by
  have hmean : ∀ b : List Nat, (∀ x ∈ b, x < 256) →
      dma_sum_loop b NUM_SAMPLES 0 0 = dma_sum_exact b NUM_SAMPLES 0 ∧
      dma_sum_exact b NUM_SAMPLES 0 ≤ 1024 * 65535 ∧ dma_mean b ≤ 65535 := by
    intro b hb
    have h := dma_sum_loop_eq b hb NUM_SAMPLES 0 0 (by decide)
    have hsum : dma_sum_loop b NUM_SAMPLES 0 0 = dma_sum_exact b NUM_SAMPLES 0 := by
      rw [h.1]; omega
    have hle : dma_sum_exact b NUM_SAMPLES 0 ≤ 1024 * 65535 := h.2
    refine ⟨hsum, hle, ?_⟩
    unfold dma_mean
    rw [hsum]
    show dma_sum_exact b NUM_SAMPLES 0 / 1024 ≤ 65535
    omega
  obtain ⟨hs0, hl0, hm0⟩ := hmean b0 h0
  obtain ⟨_, _, hm1⟩ := hmean b1 h1
  obtain ⟨_, _, hm2⟩ := hmean b2 h2
  have havg : dma_average b0 b1 b2 = (dma_mean b0 + dma_mean b1 + dma_mean b2) / 3 := by
    have e0 : (0 + dma_mean b0) % 2 ^ 32 = dma_mean b0 := by
      rw [Nat.zero_add]; exact Nat.mod_eq_of_lt (by omega)
    have e1 : (dma_mean b0 + dma_mean b1) % 2 ^ 32 = dma_mean b0 + dma_mean b1 :=
      Nat.mod_eq_of_lt (by omega)
    have e2 : (dma_mean b0 + dma_mean b1 + dma_mean b2) % 2 ^ 32 =
        dma_mean b0 + dma_mean b1 + dma_mean b2 := Nat.mod_eq_of_lt (by omega)
    simp only [dma_average, e0, e1, e2, SAMPLE_COUNT]
  have hle : dma_average b0 b1 b2 ≤ 65535 := by rw [havg]; omega
  have hnarrow : dma_average b0 b1 b2 % 2 ^ 16 = dma_average b0 b1 b2 :=
    Nat.mod_eq_of_lt (by omega)
  exact ⟨⟨hs0, hl0, by decide⟩, ⟨hm0, hm1, hm2⟩, havg, hle, hnarrow, hnarrow⟩

/-- Witness for `sampler_average_fits_16_bits`: three buffers of 2048 bytes,
all bytes 255, all bytes 0, and all bytes 128. -/
theorem sampler_average_fits_16_bits_witness :
    (List.replicate 2048 255).length = 2048 ∧
    dma_average (List.replicate 2048 255) (List.replicate 2048 0) (List.replicate 2048 128)
      ≤ 65535 :=
  ⟨List.length_replicate 2048 255,
   (sampler_average_fits_16_bits (List.replicate 2048 255) (List.replicate 2048 0)
      (List.replicate 2048 128) Solenoid.constructed
      (fun x hx => by rw [List.eq_of_mem_replicate hx]; decide)
      (fun x hx => by rw [List.eq_of_mem_replicate hx]; decide)
      (fun x hx => by rw [List.eq_of_mem_replicate hx]; decide)).2.2.2.1⟩

/-! ## The frame of the field setters -/

theorem setField_testBit_of_outside (raw v o w m i : Nat)
    (hm : m = (2 ^ 64 - 1) ^^^ ((2 ^ w - 1) <<< o)) (hi : i < 64)
    (hout : i < o ∨ o + w ≤ i) :
    ((raw &&& m) ||| ((v &&& (2 ^ w - 1)) <<< o)).testBit i = raw.testBit i := by
  subst hm
  simp only [Nat.testBit_and, Nat.testBit_or, Nat.testBit_shiftLeft, Nat.testBit_xor,
    Nat.testBit_two_pow_sub_one]
  rcases hout with h | h
  · have h1 : ¬ (i ≥ o) := by omega
    simp [h1, hi]
  · have h1 : i ≥ o := by omega
    have h2 : ¬ (i - o < w) := by omega
    simp [h1, h2, hi]

theorem getField_congr (r1 r2 o w : Nat)
    (h : ∀ i : Nat, o ≤ i → i < o + w → r1.testBit i = r2.testBit i) :
    (r1 >>> o) &&& (2 ^ w - 1) = (r2 >>> o) &&& (2 ^ w - 1) := by
  apply Nat.eq_of_testBit_eq
  intro j
  simp only [Nat.testBit_and, Nat.testBit_shiftRight, Nat.testBit_two_pow_sub_one]
  by_cases hj : j < w
  · rw [h (o + j) (by omega) (by omega)]
  · simp [hj]

theorem read_write_of_disjoint {α : Type} (raw : α → Nat) (X Y : FieldInfo α)
    (hX : X.frame_ok raw) (hY : Y.frame_ok raw)
    (hdis : X.offset + X.width ≤ Y.offset ∨ Y.offset + Y.width ≤ X.offset) (f : α) (v : Nat) :
    Y.acc.read (X.acc.write f v) = Y.acc.read f := by
  apply hY.2.2
  intro i h1 h2
  have h64 := hY.1
  exact hX.2.1 f v i (by omega) (by omega)

theorem frame_ok_num {α : Type} (raw : α → Nat) (o w m : Nat)
    (set : α → Nat → α) (get : α → Nat) (hw : o + w ≤ 64)
    (hm : m = (2 ^ 64 - 1) ^^^ ((2 ^ w - 1) <<< o))
    (hset : ∀ f v, raw (set f v) = (raw f &&& m) ||| ((v &&& (2 ^ w - 1)) <<< o))
    (hget : ∀ f, get f = (raw f >>> o) &&& (2 ^ w - 1)) :
    FieldInfo.frame_ok raw ⟨o, w, .num set get⟩ := by
  refine ⟨hw, ?_, ?_⟩
  · intro f v i hi hout
    show (raw (set f v)).testBit i = (raw f).testBit i
    rw [hset]
    exact setField_testBit_of_outside (raw f) v o w m i hm hi hout
  · intro f g h
    show get f = get g
    rw [hget, hget]
    exact getField_congr (raw f) (raw g) o w h

theorem frame_ok_flag {α : Type} (raw : α → Nat) (o m : Nat)
    (set : α → Bool → α) (get : α → Bool) (hw : o + 1 ≤ 64)
    (hm : m = (2 ^ 64 - 1) ^^^ ((2 ^ 1 - 1) <<< o))
    (hset : ∀ f b, raw (set f b) = (raw f &&& m) ||| ((b.toNat &&& (2 ^ 1 - 1)) <<< o))
    (hget : ∀ f, get f = (((raw f >>> o) &&& (2 ^ 1 - 1)) != 0)) :
    FieldInfo.frame_ok raw ⟨o, 1, .flag set get⟩ := by
  refine ⟨hw, ?_, ?_⟩
  · intro f v i hi hout
    show (raw (set f (v != 0))).testBit i = (raw f).testBit i
    rw [hset]
    exact setField_testBit_of_outside (raw f) _ o 1 m i hm hi hout
  · intro f g h
    show (get f).toNat = (get g).toNat
    rw [hget, hget, getField_congr (raw f) (raw g) o 1 h]

theorem frame_GS_218_MTGL_EGS : FieldInfo.frame_ok GS_218.raw ⟨63, 1, .flag GS_218.set_MTGL_EGS GS_218.get_MTGL_EGS⟩ :=
  frame_ok_flag GS_218.raw 63 0x7fffffffffffffff GS_218.set_MTGL_EGS GS_218.get_MTGL_EGS (by decide) (by decide)
    (fun _ _ => rfl) (fun _ => rfl)

theorem frame_GS_218_MMIN_EGS : FieldInfo.frame_ok GS_218.raw ⟨62, 1, .flag GS_218.set_MMIN_EGS GS_218.get_MMIN_EGS⟩ :=
  frame_ok_flag GS_218.raw 62 0xbfffffffffffffff GS_218.set_MMIN_EGS GS_218.get_MMIN_EGS (by decide) (by decide)
    (fun _ _ => rfl) (fun _ => rfl)

theorem frame_GS_218_MMAX_EGS : FieldInfo.frame_ok GS_218.raw ⟨61, 1, .flag GS_218.set_MMAX_EGS GS_218.get_MMAX_EGS⟩ :=
  frame_ok_flag GS_218.raw 61 0xdfffffffffffffff GS_218.set_MMAX_EGS GS_218.get_MMAX_EGS (by decide) (by decide)
    (fun _ _ => rfl) (fun _ => rfl)

theorem frame_GS_218_M_EGS : FieldInfo.frame_ok GS_218.raw ⟨48, 13, .num GS_218.set_M_EGS GS_218.get_M_EGS⟩ :=
  frame_ok_num GS_218.raw 48 13 0xe000ffffffffffff GS_218.set_M_EGS GS_218.get_M_EGS
    (by decide) (by decide) (fun _ _ => rfl) (fun _ => rfl)

theorem frame_GS_218_GZC : FieldInfo.frame_ok GS_218.raw ⟨44, 4, .num GS_218.set_GZC GS_218.get_GZC⟩ :=
  frame_ok_num GS_218.raw 44 4 0xffff0fffffffffff GS_218.set_GZC GS_218.get_GZC
    (by decide) (by decide) (fun _ _ => rfl) (fun _ => rfl)

theorem frame_GS_218_GIC : FieldInfo.frame_ok GS_218.raw ⟨40, 4, .num GS_218.set_GIC GS_218.get_GIC⟩ :=
  frame_ok_num GS_218.raw 40 4 0xfffff0ffffffffff GS_218.set_GIC GS_218.get_GIC
    (by decide) (by decide) (fun _ _ => rfl) (fun _ => rfl)

theorem frame_GS_218_K_S_B : FieldInfo.frame_ok GS_218.raw ⟨39, 1, .flag GS_218.set_K_S_B GS_218.get_K_S_B⟩ :=
  frame_ok_flag GS_218.raw 39 0xffffff7fffffffff GS_218.set_K_S_B GS_218.get_K_S_B (by decide) (by decide)
    (fun _ _ => rfl) (fun _ => rfl)

theorem frame_GS_218_K_O_B : FieldInfo.frame_ok GS_218.raw ⟨38, 1, .flag GS_218.set_K_O_B GS_218.get_K_O_B⟩ :=
  frame_ok_flag GS_218.raw 38 0xffffffbfffffffff GS_218.set_K_O_B GS_218.get_K_O_B (by decide) (by decide)
    (fun _ _ => rfl) (fun _ => rfl)

theorem frame_GS_218_K_G_B : FieldInfo.frame_ok GS_218.raw ⟨37, 1, .flag GS_218.set_K_G_B GS_218.get_K_G_B⟩ :=
  frame_ok_flag GS_218.raw 37 0xffffffdfffffffff GS_218.set_K_G_B GS_218.get_K_G_B (by decide) (by decide)
    (fun _ _ => rfl) (fun _ => rfl)

theorem frame_GS_218_G_G : FieldInfo.frame_ok GS_218.raw ⟨36, 1, .flag GS_218.set_G_G GS_218.get_G_G⟩ :=
  frame_ok_flag GS_218.raw 36 0xffffffefffffffff GS_218.set_G_G GS_218.get_G_G (by decide) (by decide)
    (fun _ _ => rfl) (fun _ => rfl)

theorem frame_GS_218_GSP_OK : FieldInfo.frame_ok GS_218.raw ⟨35, 1, .flag GS_218.set_GSP_OK GS_218.get_GSP_OK⟩ :=
  frame_ok_flag GS_218.raw 35 0xfffffff7ffffffff GS_218.set_GSP_OK GS_218.get_GSP_OK (by decide) (by decide)
    (fun _ _ => rfl) (fun _ => rfl)

theorem frame_GS_218_FW_HOCH : FieldInfo.frame_ok GS_218.raw ⟨34, 1, .flag GS_218.set_FW_HOCH GS_218.get_FW_HOCH⟩ :=
  frame_ok_flag GS_218.raw 34 0xfffffffbffffffff GS_218.set_FW_HOCH GS_218.get_FW_HOCH (by decide) (by decide)
    (fun _ _ => rfl) (fun _ => rfl)

theorem frame_GS_218_SCHALT : FieldInfo.frame_ok GS_218.raw ⟨33, 1, .flag GS_218.set_SCHALT GS_218.get_SCHALT⟩ :=
  frame_ok_flag GS_218.raw 33 0xfffffffdffffffff GS_218.set_SCHALT GS_218.get_SCHALT (by decide) (by decide)
    (fun _ _ => rfl) (fun _ => rfl)

theorem frame_GS_218_HSM : FieldInfo.frame_ok GS_218.raw ⟨32, 1, .flag GS_218.set_HSM GS_218.get_HSM⟩ :=
  frame_ok_flag GS_218.raw 32 0xfffffffeffffffff GS_218.set_HSM GS_218.get_HSM (by decide) (by decide)
    (fun _ _ => rfl) (fun _ => rfl)

theorem frame_GS_218_GET_OK : FieldInfo.frame_ok GS_218.raw ⟨31, 1, .flag GS_218.set_GET_OK GS_218.get_GET_OK⟩ :=
  frame_ok_flag GS_218.raw 31 0xffffffff7fffffff GS_218.set_GET_OK GS_218.get_GET_OK (by decide) (by decide)
    (fun _ _ => rfl) (fun _ => rfl)

theorem frame_GS_218_KS : FieldInfo.frame_ok GS_218.raw ⟨30, 1, .flag GS_218.set_KS GS_218.get_KS⟩ :=
  frame_ok_flag GS_218.raw 30 0xffffffffbfffffff GS_218.set_KS GS_218.get_KS (by decide) (by decide)
    (fun _ _ => rfl) (fun _ => rfl)

theorem frame_GS_218_ALF : FieldInfo.frame_ok GS_218.raw ⟨29, 1, .flag GS_218.set_ALF GS_218.get_ALF⟩ :=
  frame_ok_flag GS_218.raw 29 0xffffffffdfffffff GS_218.set_ALF GS_218.get_ALF (by decide) (by decide)
    (fun _ _ => rfl) (fun _ => rfl)

theorem frame_GS_218_GS_NOTL : FieldInfo.frame_ok GS_218.raw ⟨28, 1, .flag GS_218.set_GS_NOTL GS_218.get_GS_NOTL⟩ :=
  frame_ok_flag GS_218.raw 28 0xffffffffefffffff GS_218.set_GS_NOTL GS_218.get_GS_NOTL (by decide) (by decide)
    (fun _ _ => rfl) (fun _ => rfl)

theorem frame_GS_218_UEHITZ_GET : FieldInfo.frame_ok GS_218.raw ⟨27, 1, .flag GS_218.set_UEHITZ_GET GS_218.get_UEHITZ_GET⟩ :=
  frame_ok_flag GS_218.raw 27 0xfffffffff7ffffff GS_218.set_UEHITZ_GET GS_218.get_UEHITZ_GET (by decide) (by decide)
    (fun _ _ => rfl) (fun _ => rfl)

theorem frame_GS_218_KD : FieldInfo.frame_ok GS_218.raw ⟨26, 1, .flag GS_218.set_KD GS_218.get_KD⟩ :=
  frame_ok_flag GS_218.raw 26 0xfffffffffbffffff GS_218.set_KD GS_218.get_KD (by decide) (by decide)
    (fun _ _ => rfl) (fun _ => rfl)

theorem frame_GS_218_FPC_AAD : FieldInfo.frame_ok GS_218.raw ⟨24, 2, .num GS_218.set_FPC_AAD GS_218.get_FPC_AAD⟩ :=
  frame_ok_num GS_218.raw 24 2 0xfffffffffcffffff GS_218.set_FPC_AAD GS_218.get_FPC_AAD
    (by decide) (by decide) (fun _ _ => rfl) (fun _ => rfl)

theorem frame_GS_218_MPAR_EGS : FieldInfo.frame_ok GS_218.raw ⟨23, 1, .flag GS_218.set_MPAR_EGS GS_218.get_MPAR_EGS⟩ :=
  frame_ok_flag GS_218.raw 23 0xffffffffff7fffff GS_218.set_MPAR_EGS GS_218.get_MPAR_EGS (by decide) (by decide)
    (fun _ _ => rfl) (fun _ => rfl)

theorem frame_GS_218_DYN1_EGS : FieldInfo.frame_ok GS_218.raw ⟨22, 1, .flag GS_218.set_DYN1_EGS GS_218.get_DYN1_EGS⟩ :=
  frame_ok_flag GS_218.raw 22 0xffffffffffbfffff GS_218.set_DYN1_EGS GS_218.get_DYN1_EGS (by decide) (by decide)
    (fun _ _ => rfl) (fun _ => rfl)

theorem frame_GS_218_DYN0_AMR_EGS : FieldInfo.frame_ok GS_218.raw ⟨21, 1, .flag GS_218.set_DYN0_AMR_EGS GS_218.get_DYN0_AMR_EGS⟩ :=
  frame_ok_flag GS_218.raw 21 0xffffffffffdfffff GS_218.set_DYN0_AMR_EGS GS_218.get_DYN0_AMR_EGS (by decide) (by decide)
    (fun _ _ => rfl) (fun _ => rfl)

theorem frame_GS_218_K_LSTFR : FieldInfo.frame_ok GS_218.raw ⟨18, 1, .flag GS_218.set_K_LSTFR GS_218.get_K_LSTFR⟩ :=
  frame_ok_flag GS_218.raw 18 0xfffffffffffbffff GS_218.set_K_LSTFR GS_218.get_K_LSTFR (by decide) (by decide)
    (fun _ _ => rfl) (fun _ => rfl)

theorem frame_GS_218_MOT_NAUS_CNF : FieldInfo.frame_ok GS_218.raw ⟨17, 1, .flag GS_218.set_MOT_NAUS_CNF GS_218.get_MOT_NAUS_CNF⟩ :=
  frame_ok_flag GS_218.raw 17 0xfffffffffffdffff GS_218.set_MOT_NAUS_CNF GS_218.get_MOT_NAUS_CNF (by decide) (by decide)
    (fun _ _ => rfl) (fun _ => rfl)

theorem frame_GS_218_MOT_NAUS : FieldInfo.frame_ok GS_218.raw ⟨16, 1, .flag GS_218.set_MOT_NAUS GS_218.get_MOT_NAUS⟩ :=
  frame_ok_flag GS_218.raw 16 0xfffffffffffeffff GS_218.set_MOT_NAUS GS_218.get_MOT_NAUS (by decide) (by decide)
    (fun _ _ => rfl) (fun _ => rfl)

theorem frame_GS_218_MKRIECH : FieldInfo.frame_ok GS_218.raw ⟨8, 8, .num GS_218.set_MKRIECH GS_218.get_MKRIECH⟩ :=
  frame_ok_num GS_218.raw 8 8 0xffffffffffff00ff GS_218.set_MKRIECH GS_218.get_MKRIECH
    (by decide) (by decide) (fun _ _ => rfl) (fun _ => rfl)

theorem frame_GS_218_FEHLPRF_ST : FieldInfo.frame_ok GS_218.raw ⟨6, 2, .num GS_218.set_FEHLPRF_ST GS_218.get_FEHLPRF_ST⟩ :=
  frame_ok_num GS_218.raw 6 2 0xffffffffffffff3f GS_218.set_FEHLPRF_ST GS_218.get_FEHLPRF_ST
    (by decide) (by decide) (fun _ _ => rfl) (fun _ => rfl)

theorem frame_GS_218_CALID_CVN_AKT : FieldInfo.frame_ok GS_218.raw ⟨5, 1, .flag GS_218.set_CALID_CVN_AKT GS_218.get_CALID_CVN_AKT⟩ :=
  frame_ok_flag GS_218.raw 5 0xffffffffffffffdf GS_218.set_CALID_CVN_AKT GS_218.get_CALID_CVN_AKT (by decide) (by decide)
    (fun _ _ => rfl) (fun _ => rfl)

theorem frame_GS_218_FEHLER : FieldInfo.frame_ok GS_218.raw ⟨0, 5, .num GS_218.set_FEHLER GS_218.get_FEHLER⟩ :=
  frame_ok_num GS_218.raw 0 5 0xffffffffffffffe0 GS_218.set_FEHLER GS_218.get_FEHLER
    (by decide) (by decide) (fun _ _ => rfl) (fun _ => rfl)

theorem frame_GS_338_NAB : FieldInfo.frame_ok GS_338.raw ⟨48, 16, .num GS_338.set_NAB GS_338.get_NAB⟩ :=
  frame_ok_num GS_338.raw 48 16 0x0000ffffffffffff GS_338.set_NAB GS_338.get_NAB
    (by decide) (by decide) (fun _ _ => rfl) (fun _ => rfl)

theorem frame_GS_338_NTURBINE : FieldInfo.frame_ok GS_338.raw ⟨0, 16, .num GS_338.set_NTURBINE GS_338.get_NTURBINE⟩ :=
  frame_ok_num GS_338.raw 0 16 0xffffffffffff0000 GS_338.set_NTURBINE GS_338.get_NTURBINE
    (by decide) (by decide) (fun _ _ => rfl) (fun _ => rfl)

theorem frame_GS_418_FSC : FieldInfo.frame_ok GS_418.raw ⟨56, 8, .num GS_418.set_FSC GS_418.get_FSC⟩ :=
  frame_ok_num GS_418.raw 56 8 0x00ffffffffffffff GS_418.set_FSC GS_418.get_FSC
    (by decide) (by decide) (fun _ _ => rfl) (fun _ => rfl)

theorem frame_GS_418_FPC : FieldInfo.frame_ok GS_418.raw ⟨48, 8, .num GS_418.set_FPC GS_418.get_FPC⟩ :=
  frame_ok_num GS_418.raw 48 8 0xff00ffffffffffff GS_418.set_FPC GS_418.get_FPC
    (by decide) (by decide) (fun _ _ => rfl) (fun _ => rfl)

theorem frame_GS_418_T_GET : FieldInfo.frame_ok GS_418.raw ⟨40, 8, .num GS_418.set_T_GET GS_418.get_T_GET⟩ :=
  frame_ok_num GS_418.raw 40 8 0xffff00ffffffffff GS_418.set_T_GET GS_418.get_T_GET
    (by decide) (by decide) (fun _ _ => rfl) (fun _ => rfl)

theorem frame_GS_418_ALLRAD : FieldInfo.frame_ok GS_418.raw ⟨39, 1, .flag GS_418.set_ALLRAD GS_418.get_ALLRAD⟩ :=
  frame_ok_flag GS_418.raw 39 0xffffff7fffffffff GS_418.set_ALLRAD GS_418.get_ALLRAD (by decide) (by decide)
    (fun _ _ => rfl) (fun _ => rfl)

theorem frame_GS_418_FRONT : FieldInfo.frame_ok GS_418.raw ⟨38, 1, .flag GS_418.set_FRONT GS_418.get_FRONT⟩ :=
  frame_ok_flag GS_418.raw 38 0xffffffbfffffffff GS_418.set_FRONT GS_418.get_FRONT (by decide) (by decide)
    (fun _ _ => rfl) (fun _ => rfl)

theorem frame_GS_418_SCHALT : FieldInfo.frame_ok GS_418.raw ⟨37, 1, .flag GS_418.set_SCHALT GS_418.get_SCHALT⟩ :=
  frame_ok_flag GS_418.raw 37 0xffffffdfffffffff GS_418.set_SCHALT GS_418.get_SCHALT (by decide) (by decide)
    (fun _ _ => rfl) (fun _ => rfl)

theorem frame_GS_418_CVT : FieldInfo.frame_ok GS_418.raw ⟨36, 1, .flag GS_418.set_CVT GS_418.get_CVT⟩ :=
  frame_ok_flag GS_418.raw 36 0xffffffefffffffff GS_418.set_CVT GS_418.get_CVT (by decide) (by decide)
    (fun _ _ => rfl) (fun _ => rfl)

theorem frame_GS_418_MECH : FieldInfo.frame_ok GS_418.raw ⟨34, 2, .num GS_418.set_MECH GS_418.get_MECH⟩ :=
  frame_ok_num GS_418.raw 34 2 0xfffffff3ffffffff GS_418.set_MECH GS_418.get_MECH
    (by decide) (by decide) (fun _ _ => rfl) (fun _ => rfl)

theorem frame_GS_418_ESV_BRE : FieldInfo.frame_ok GS_418.raw ⟨33, 1, .flag GS_418.set_ESV_BRE GS_418.get_ESV_BRE⟩ :=
  frame_ok_flag GS_418.raw 33 0xfffffffdffffffff GS_418.set_ESV_BRE GS_418.get_ESV_BRE (by decide) (by decide)
    (fun _ _ => rfl) (fun _ => rfl)

theorem frame_GS_418_KD : FieldInfo.frame_ok GS_418.raw ⟨32, 1, .flag GS_418.set_KD GS_418.get_KD⟩ :=
  frame_ok_flag GS_418.raw 32 0xfffffffeffffffff GS_418.set_KD GS_418.get_KD (by decide) (by decide)
    (fun _ _ => rfl) (fun _ => rfl)

theorem frame_GS_418_GZC : FieldInfo.frame_ok GS_418.raw ⟨28, 4, .num GS_418.set_GZC GS_418.get_GZC⟩ :=
  frame_ok_num GS_418.raw 28 4 0xffffffff0fffffff GS_418.set_GZC GS_418.get_GZC
    (by decide) (by decide) (fun _ _ => rfl) (fun _ => rfl)

theorem frame_GS_418_GIC : FieldInfo.frame_ok GS_418.raw ⟨24, 4, .num GS_418.set_GIC GS_418.get_GIC⟩ :=
  frame_ok_num GS_418.raw 24 4 0xfffffffff0ffffff GS_418.set_GIC GS_418.get_GIC
    (by decide) (by decide) (fun _ _ => rfl) (fun _ => rfl)

theorem frame_GS_418_M_VERL : FieldInfo.frame_ok GS_418.raw ⟨16, 8, .num GS_418.set_M_VERL GS_418.get_M_VERL⟩ :=
  frame_ok_num GS_418.raw 16 8 0xffffffffff00ffff GS_418.set_M_VERL GS_418.get_M_VERL
    (by decide) (by decide) (fun _ _ => rfl) (fun _ => rfl)

theorem frame_GS_418_FMRADPAR : FieldInfo.frame_ok GS_418.raw ⟨15, 1, .flag GS_418.set_FMRADPAR GS_418.get_FMRADPAR⟩ :=
  frame_ok_flag GS_418.raw 15 0xffffffffffff7fff GS_418.set_FMRADPAR GS_418.get_FMRADPAR (by decide) (by decide)
    (fun _ _ => rfl) (fun _ => rfl)

theorem frame_GS_418_FMRADTGL : FieldInfo.frame_ok GS_418.raw ⟨14, 1, .flag GS_418.set_FMRADTGL GS_418.get_FMRADTGL⟩ :=
  frame_ok_flag GS_418.raw 14 0xffffffffffffbfff GS_418.set_FMRADTGL GS_418.get_FMRADTGL (by decide) (by decide)
    (fun _ _ => rfl) (fun _ => rfl)

theorem frame_GS_418_WHST : FieldInfo.frame_ok GS_418.raw ⟨11, 3, .num GS_418.set_WHST GS_418.get_WHST⟩ :=
  frame_ok_num GS_418.raw 11 3 0xffffffffffffc7ff GS_418.set_WHST GS_418.get_WHST
    (by decide) (by decide) (fun _ _ => rfl) (fun _ => rfl)

theorem frame_GS_418_FMRAD : FieldInfo.frame_ok GS_418.raw ⟨0, 11, .num GS_418.set_FMRAD GS_418.get_FMRAD⟩ :=
  frame_ok_num GS_418.raw 0 11 0xfffffffffffff800 GS_418.set_FMRAD GS_418.get_FMRAD
    (by decide) (by decide) (fun _ _ => rfl) (fun _ => rfl)

theorem frame_GS_CUSTOM_558_MPC_DUTY : FieldInfo.frame_ok GS_CUSTOM_558.raw ⟨56, 8, .num GS_CUSTOM_558.set_MPC_DUTY GS_CUSTOM_558.get_MPC_DUTY⟩ :=
  frame_ok_num GS_CUSTOM_558.raw 56 8 0x00ffffffffffffff GS_CUSTOM_558.set_MPC_DUTY GS_CUSTOM_558.get_MPC_DUTY
    (by decide) (by decide) (fun _ _ => rfl) (fun _ => rfl)

theorem frame_GS_CUSTOM_558_SPC_DUTY : FieldInfo.frame_ok GS_CUSTOM_558.raw ⟨48, 8, .num GS_CUSTOM_558.set_SPC_DUTY GS_CUSTOM_558.get_SPC_DUTY⟩ :=
  frame_ok_num GS_CUSTOM_558.raw 48 8 0xff00ffffffffffff GS_CUSTOM_558.set_SPC_DUTY GS_CUSTOM_558.get_SPC_DUTY
    (by decide) (by decide) (fun _ _ => rfl) (fun _ => rfl)

theorem frame_GS_CUSTOM_558_TCC_DUTY : FieldInfo.frame_ok GS_CUSTOM_558.raw ⟨40, 8, .num GS_CUSTOM_558.set_TCC_DUTY GS_CUSTOM_558.get_TCC_DUTY⟩ :=
  frame_ok_num GS_CUSTOM_558.raw 40 8 0xffff00ffffffffff GS_CUSTOM_558.set_TCC_DUTY GS_CUSTOM_558.get_TCC_DUTY
    (by decide) (by decide) (fun _ _ => rfl) (fun _ => rfl)

theorem frame_GS_CUSTOM_558_TCC_SLIP : FieldInfo.frame_ok GS_CUSTOM_558.raw ⟨16, 16, .num GS_CUSTOM_558.set_TCC_SLIP GS_CUSTOM_558.get_TCC_SLIP⟩ :=
  frame_ok_num GS_CUSTOM_558.raw 16 16 0xffffffff0000ffff GS_CUSTOM_558.set_TCC_SLIP GS_CUSTOM_558.get_TCC_SLIP
    (by decide) (by decide) (fun _ _ => rfl) (fun _ => rfl)

theorem frame_GS_CUSTOM_558_AI_UP : FieldInfo.frame_ok GS_CUSTOM_558.raw ⟨8, 8, .num GS_CUSTOM_558.set_AI_UP GS_CUSTOM_558.get_AI_UP⟩ :=
  frame_ok_num GS_CUSTOM_558.raw 8 8 0xffffffffffff00ff GS_CUSTOM_558.set_AI_UP GS_CUSTOM_558.get_AI_UP
    (by decide) (by decide) (fun _ _ => rfl) (fun _ => rfl)

theorem frame_GS_CUSTOM_558_AI_DN : FieldInfo.frame_ok GS_CUSTOM_558.raw ⟨8, 8, .num GS_CUSTOM_558.set_AI_DN GS_CUSTOM_558.get_AI_DN⟩ :=
  frame_ok_num GS_CUSTOM_558.raw 8 8 0xffffffffffff00ff GS_CUSTOM_558.set_AI_DN GS_CUSTOM_558.get_AI_DN
    (by decide) (by decide) (fun _ _ => rfl) (fun _ => rfl)

theorem GS_218_fields_frame_ok : ∀ X ∈ GS_218.fields, X.frame_ok GS_218.raw := by
  unfold GS_218.fields
  intro X hX
  simp only [List.mem_cons, List.mem_singleton, List.not_mem_nil, or_false] at hX
  rcases hX with rfl | rfl | rfl | rfl | rfl | rfl | rfl | rfl | rfl | rfl | rfl | rfl | rfl | rfl | rfl | rfl | rfl | rfl | rfl | rfl | rfl | rfl | rfl | rfl | rfl | rfl | rfl | rfl | rfl | rfl | rfl
  exacts [frame_GS_218_MTGL_EGS,
    frame_GS_218_MMIN_EGS,
    frame_GS_218_MMAX_EGS,
    frame_GS_218_M_EGS,
    frame_GS_218_GZC,
    frame_GS_218_GIC,
    frame_GS_218_K_S_B,
    frame_GS_218_K_O_B,
    frame_GS_218_K_G_B,
    frame_GS_218_G_G,
    frame_GS_218_GSP_OK,
    frame_GS_218_FW_HOCH,
    frame_GS_218_SCHALT,
    frame_GS_218_HSM,
    frame_GS_218_GET_OK,
    frame_GS_218_KS,
    frame_GS_218_ALF,
    frame_GS_218_GS_NOTL,
    frame_GS_218_UEHITZ_GET,
    frame_GS_218_KD,
    frame_GS_218_FPC_AAD,
    frame_GS_218_MPAR_EGS,
    frame_GS_218_DYN1_EGS,
    frame_GS_218_DYN0_AMR_EGS,
    frame_GS_218_K_LSTFR,
    frame_GS_218_MOT_NAUS_CNF,
    frame_GS_218_MOT_NAUS,
    frame_GS_218_MKRIECH,
    frame_GS_218_FEHLPRF_ST,
    frame_GS_218_CALID_CVN_AKT,
    frame_GS_218_FEHLER]

theorem GS_338_fields_frame_ok : ∀ X ∈ GS_338.fields, X.frame_ok GS_338.raw := by
  unfold GS_338.fields
  intro X hX
  simp only [List.mem_cons, List.mem_singleton, List.not_mem_nil, or_false] at hX
  rcases hX with rfl | rfl
  exacts [frame_GS_338_NAB,
    frame_GS_338_NTURBINE]

theorem GS_418_fields_frame_ok : ∀ X ∈ GS_418.fields, X.frame_ok GS_418.raw := by
  unfold GS_418.fields
  intro X hX
  simp only [List.mem_cons, List.mem_singleton, List.not_mem_nil, or_false] at hX
  rcases hX with rfl | rfl | rfl | rfl | rfl | rfl | rfl | rfl | rfl | rfl | rfl | rfl | rfl | rfl | rfl | rfl | rfl
  exacts [frame_GS_418_FSC,
    frame_GS_418_FPC,
    frame_GS_418_T_GET,
    frame_GS_418_ALLRAD,
    frame_GS_418_FRONT,
    frame_GS_418_SCHALT,
    frame_GS_418_CVT,
    frame_GS_418_MECH,
    frame_GS_418_ESV_BRE,
    frame_GS_418_KD,
    frame_GS_418_GZC,
    frame_GS_418_GIC,
    frame_GS_418_M_VERL,
    frame_GS_418_FMRADPAR,
    frame_GS_418_FMRADTGL,
    frame_GS_418_WHST,
    frame_GS_418_FMRAD]

theorem GS_CUSTOM_558_fields_frame_ok : ∀ X ∈ GS_CUSTOM_558.fields, X.frame_ok GS_CUSTOM_558.raw := by
  unfold GS_CUSTOM_558.fields
  intro X hX
  simp only [List.mem_cons, List.mem_singleton, List.not_mem_nil, or_false] at hX
  rcases hX with rfl | rfl | rfl | rfl | rfl | rfl
  exacts [frame_GS_CUSTOM_558_MPC_DUTY,
    frame_GS_CUSTOM_558_SPC_DUTY,
    frame_GS_CUSTOM_558_TCC_DUTY,
    frame_GS_CUSTOM_558_TCC_SLIP,
    frame_GS_CUSTOM_558_AI_UP,
    frame_GS_CUSTOM_558_AI_DN]

theorem GS_218_fields_disjoint :
    ∀ X ∈ GS_218.fields, ∀ Y ∈ GS_218.fields, X.offset ≠ Y.offset →
      X.offset + X.width ≤ Y.offset ∨ Y.offset + Y.width ≤ X.offset := by
  decide

theorem GS_338_fields_disjoint :
    ∀ X ∈ GS_338.fields, ∀ Y ∈ GS_338.fields, X.offset ≠ Y.offset →
      X.offset + X.width ≤ Y.offset ∨ Y.offset + Y.width ≤ X.offset := by
  decide

theorem GS_418_fields_disjoint :
    ∀ X ∈ GS_418.fields, ∀ Y ∈ GS_418.fields, X.offset ≠ Y.offset →
      X.offset + X.width ≤ Y.offset ∨ Y.offset + Y.width ≤ X.offset := by
  decide

theorem GS_CUSTOM_558_fields_disjoint :
    ∀ X ∈ GS_CUSTOM_558.fields, ∀ Y ∈ GS_CUSTOM_558.fields, X.offset ≠ Y.offset →
      X.offset + X.width ≤ Y.offset ∨ Y.offset + Y.width ≤ X.offset := by
  decide

/-- C21: in `GS_218`, `GS_338` and `GS_418`, whose fields are listed in the
tables `fields` at pairwise different offsets, a call of the setter of a field
with any argument leaves the value returned by the getter of every other field
as it was, and leaves every bit of `raw` outside the field's own range
`[offset, offset + width)`, unused bits included, as it was. -/
theorem setters_change_only_own_field :
    ((∀ X ∈ GS_218.fields, ∀ Y ∈ GS_218.fields, X.offset ≠ Y.offset →
        ∀ (f : GS_218) (v : Nat), Y.acc.read (X.acc.write f v) = Y.acc.read f) ∧
      (∀ X ∈ GS_218.fields, X.writes_only_own_bits GS_218.raw) ∧
      GS_218.fields.length = 31 ∧ (GS_218.fields.map (fun X => X.offset)).Nodup) ∧
    ((∀ X ∈ GS_338.fields, ∀ Y ∈ GS_338.fields, X.offset ≠ Y.offset →
        ∀ (f : GS_338) (v : Nat), Y.acc.read (X.acc.write f v) = Y.acc.read f) ∧
      (∀ X ∈ GS_338.fields, X.writes_only_own_bits GS_338.raw) ∧
      GS_338.fields.length = 2 ∧ (GS_338.fields.map (fun X => X.offset)).Nodup) ∧
    ((∀ X ∈ GS_418.fields, ∀ Y ∈ GS_418.fields, X.offset ≠ Y.offset →
        ∀ (f : GS_418) (v : Nat), Y.acc.read (X.acc.write f v) = Y.acc.read f) ∧
      (∀ X ∈ GS_418.fields, X.writes_only_own_bits GS_418.raw) ∧
      GS_418.fields.length = 17 ∧ (GS_418.fields.map (fun X => X.offset)).Nodup) ∧
    (∀ (f : GS_218) (v : Nat), (f.set_GIC v).get_GZC = f.get_GZC ∧
      (f.set_GZC v).get_GIC = f.get_GIC) := by
  refine ⟨⟨?_, ?_, rfl, by decide⟩, ⟨?_, ?_, rfl, by decide⟩, ⟨?_, ?_, rfl, by decide⟩, ?_⟩
  · intro X hX Y hY hne f v
    exact read_write_of_disjoint GS_218.raw X Y (GS_218_fields_frame_ok X hX)
      (GS_218_fields_frame_ok Y hY) (GS_218_fields_disjoint X hX Y hY hne) f v
  · intro X hX
    exact (GS_218_fields_frame_ok X hX).2.1
  · intro X hX Y hY hne f v
    exact read_write_of_disjoint GS_338.raw X Y (GS_338_fields_frame_ok X hX)
      (GS_338_fields_frame_ok Y hY) (GS_338_fields_disjoint X hX Y hY hne) f v
  · intro X hX
    exact (GS_338_fields_frame_ok X hX).2.1
  · intro X hX Y hY hne f v
    exact read_write_of_disjoint GS_418.raw X Y (GS_418_fields_frame_ok X hX)
      (GS_418_fields_frame_ok Y hY) (GS_418_fields_disjoint X hX Y hY hne) f v
  · intro X hX
    exact (GS_418_fields_frame_ok X hX).2.1
  · intro f v
    exact ⟨read_write_of_disjoint GS_218.raw ⟨40, 4, .num GS_218.set_GIC GS_218.get_GIC⟩
        ⟨44, 4, .num GS_218.set_GZC GS_218.get_GZC⟩ frame_GS_218_GIC frame_GS_218_GZC
        (by decide) f v,
      read_write_of_disjoint GS_218.raw ⟨44, 4, .num GS_218.set_GZC GS_218.get_GZC⟩
        ⟨40, 4, .num GS_218.set_GIC GS_218.get_GIC⟩ frame_GS_218_GZC frame_GS_218_GIC
        (by decide) f v⟩

/-- C22: evaluation of the `GS_CUSTOM_558` setters. `set_AI_DN` and `set_AI_UP`
use the same mask and offset (bits 8 to 15), so `get_AI_UP` after
`set_AI_DN(v)` returns `v` modulo 256 and `get_AI_DN` after `set_AI_UP(v)`
returns `v` modulo 256: on `raw = 0`, `set_AI_DN(5)` changes `get_AI_UP` from
0 to 5. Every other pair of fields, at different offsets, is independent. -/
theorem set_AI_DN_overwrites_AI_UP :
    (∀ (f : GS_CUSTOM_558) (v : Nat), (f.set_AI_DN v).get_AI_UP = v % 2 ^ 8) ∧
    (∀ (f : GS_CUSTOM_558) (v : Nat), (f.set_AI_UP v).get_AI_DN = v % 2 ^ 8) ∧
    ((GS_CUSTOM_558.mk 0).get_AI_UP = 0 ∧ ((GS_CUSTOM_558.mk 0).set_AI_DN 5).get_AI_UP = 5) ∧
    (∀ X ∈ GS_CUSTOM_558.fields, ∀ Y ∈ GS_CUSTOM_558.fields, X.offset ≠ Y.offset →
      ∀ (f : GS_CUSTOM_558) (v : Nat), Y.acc.read (X.acc.write f v) = Y.acc.read f) := by
  refine ⟨?_, ?_, by decide, ?_⟩
  · intro f v
    simpa [GS_CUSTOM_558.set_AI_DN, GS_CUSTOM_558.get_AI_UP] using
      getField_setField f.raw v 8 8 0xffffffffffff00ff (by decide) (by decide)
  · intro f v
    simpa [GS_CUSTOM_558.set_AI_UP, GS_CUSTOM_558.get_AI_DN] using
      getField_setField f.raw v 8 8 0xffffffffffff00ff (by decide) (by decide)
  · intro X hX Y hY hne f v
    exact read_write_of_disjoint GS_CUSTOM_558.raw X Y (GS_CUSTOM_558_fields_frame_ok X hX)
      (GS_CUSTOM_558_fields_frame_ok Y hY) (GS_CUSTOM_558_fields_disjoint X hX Y hY hne) f v

/-! ## Enumeration-typed getters -/

theorem ofNat_sound_GS_218h_GZC (v : Nat) (e : GS_218h_GZC) (h : GS_218h_GZC.ofNat? v = some e) :
    e.toNat = v := by
  unfold GS_218h_GZC.ofNat? at h
  split at h <;> simp at h <;> subst h <;> rfl

theorem member_iff_GS_218h_GZC (v : Nat) :
    (∃ e : GS_218h_GZC, e.toNat = v) ↔ (GS_218h_GZC.ofNat? v).isSome = true := by
  constructor
  · rintro ⟨e, rfl⟩
    cases e <;> rfl
  · intro h
    obtain ⟨e, he⟩ := Option.isSome_iff_exists.1 h
    exact ⟨e, ofNat_sound_GS_218h_GZC v e he⟩

theorem ofNat_sound_GS_218h_GIC (v : Nat) (e : GS_218h_GIC) (h : GS_218h_GIC.ofNat? v = some e) :
    e.toNat = v := by
  unfold GS_218h_GIC.ofNat? at h
  split at h <;> simp at h <;> subst h <;> rfl

theorem member_iff_GS_218h_GIC (v : Nat) :
    (∃ e : GS_218h_GIC, e.toNat = v) ↔ (GS_218h_GIC.ofNat? v).isSome = true := by
  constructor
  · rintro ⟨e, rfl⟩
    cases e <;> rfl
  · intro h
    obtain ⟨e, he⟩ := Option.isSome_iff_exists.1 h
    exact ⟨e, ofNat_sound_GS_218h_GIC v e he⟩

theorem ofNat_sound_GS_218h_FPC_AAD (v : Nat) (e : GS_218h_FPC_AAD) (h : GS_218h_FPC_AAD.ofNat? v = some e) :
    e.toNat = v := by
  unfold GS_218h_FPC_AAD.ofNat? at h
  split at h <;> simp at h <;> subst h <;> rfl

theorem member_iff_GS_218h_FPC_AAD (v : Nat) :
    (∃ e : GS_218h_FPC_AAD, e.toNat = v) ↔ (GS_218h_FPC_AAD.ofNat? v).isSome = true := by
  constructor
  · rintro ⟨e, rfl⟩
    cases e <;> rfl
  · intro h
    obtain ⟨e, he⟩ := Option.isSome_iff_exists.1 h
    exact ⟨e, ofNat_sound_GS_218h_FPC_AAD v e he⟩

theorem ofNat_sound_GS_218h_FEHLPRF_ST (v : Nat) (e : GS_218h_FEHLPRF_ST) (h : GS_218h_FEHLPRF_ST.ofNat? v = some e) :
    e.toNat = v := by
  unfold GS_218h_FEHLPRF_ST.ofNat? at h
  split at h <;> simp at h <;> subst h <;> rfl

theorem member_iff_GS_218h_FEHLPRF_ST (v : Nat) :
    (∃ e : GS_218h_FEHLPRF_ST, e.toNat = v) ↔ (GS_218h_FEHLPRF_ST.ofNat? v).isSome = true := by
  constructor
  · rintro ⟨e, rfl⟩
    cases e <;> rfl
  · intro h
    obtain ⟨e, he⟩ := Option.isSome_iff_exists.1 h
    exact ⟨e, ofNat_sound_GS_218h_FEHLPRF_ST v e he⟩

theorem ofNat_sound_GS_418h_FPC (v : Nat) (e : GS_418h_FPC) (h : GS_418h_FPC.ofNat? v = some e) :
    e.toNat = v := by
  unfold GS_418h_FPC.ofNat? at h
  split at h <;> simp at h <;> subst h <;> rfl

theorem member_iff_GS_418h_FPC (v : Nat) :
    (∃ e : GS_418h_FPC, e.toNat = v) ↔ (GS_418h_FPC.ofNat? v).isSome = true := by
  constructor
  · rintro ⟨e, rfl⟩
    cases e <;> rfl
  · intro h
    obtain ⟨e, he⟩ := Option.isSome_iff_exists.1 h
    exact ⟨e, ofNat_sound_GS_418h_FPC v e he⟩

theorem ofNat_sound_GS_418h_MECH (v : Nat) (e : GS_418h_MECH) (h : GS_418h_MECH.ofNat? v = some e) :
    e.toNat = v := by
  unfold GS_418h_MECH.ofNat? at h
  split at h <;> simp at h <;> subst h <;> rfl

theorem member_iff_GS_418h_MECH (v : Nat) :
    (∃ e : GS_418h_MECH, e.toNat = v) ↔ (GS_418h_MECH.ofNat? v).isSome = true := by
  constructor
  · rintro ⟨e, rfl⟩
    cases e <;> rfl
  · intro h
    obtain ⟨e, he⟩ := Option.isSome_iff_exists.1 h
    exact ⟨e, ofNat_sound_GS_418h_MECH v e he⟩

theorem ofNat_sound_GS_418h_GZC (v : Nat) (e : GS_418h_GZC) (h : GS_418h_GZC.ofNat? v = some e) :
    e.toNat = v := by
  unfold GS_418h_GZC.ofNat? at h
  split at h <;> simp at h <;> subst h <;> rfl

theorem member_iff_GS_418h_GZC (v : Nat) :
    (∃ e : GS_418h_GZC, e.toNat = v) ↔ (GS_418h_GZC.ofNat? v).isSome = true := by
  constructor
  · rintro ⟨e, rfl⟩
    cases e <;> rfl
  · intro h
    obtain ⟨e, he⟩ := Option.isSome_iff_exists.1 h
    exact ⟨e, ofNat_sound_GS_418h_GZC v e he⟩

theorem ofNat_sound_GS_418h_GIC (v : Nat) (e : GS_418h_GIC) (h : GS_418h_GIC.ofNat? v = some e) :
    e.toNat = v := by
  unfold GS_418h_GIC.ofNat? at h
  split at h <;> simp at h <;> subst h <;> rfl

theorem member_iff_GS_418h_GIC (v : Nat) :
    (∃ e : GS_418h_GIC, e.toNat = v) ↔ (GS_418h_GIC.ofNat? v).isSome = true := by
  constructor
  · rintro ⟨e, rfl⟩
    cases e <;> rfl
  · intro h
    obtain ⟨e, he⟩ := Option.isSome_iff_exists.1 h
    exact ⟨e, ofNat_sound_GS_418h_GIC v e he⟩

theorem ofNat_sound_GS_418h_WHST (v : Nat) (e : GS_418h_WHST) (h : GS_418h_WHST.ofNat? v = some e) :
    e.toNat = v := by
  unfold GS_418h_WHST.ofNat? at h
  split at h <;> simp at h <;> subst h <;> rfl

theorem member_iff_GS_418h_WHST (v : Nat) :
    (∃ e : GS_418h_WHST, e.toNat = v) ↔ (GS_418h_WHST.ofNat? v).isSome = true := by
  constructor
  · rintro ⟨e, rfl⟩
    cases e <;> rfl
  · intro h
    obtain ⟨e, he⟩ := Option.isSome_iff_exists.1 h
    exact ⟨e, ofNat_sound_GS_418h_WHST v e he⟩

theorem member_GS_218_GZC (f : GS_218) : ∃ e : GS_218h_GZC, e.toNat = f.get_GZC := by
  have hlt : f.get_GZC < 2 ^ 4 := Nat.and_lt_two_pow _ (by decide)
  have hall : ∀ v, v < 2 ^ 4 → (GS_218h_GZC.ofNat? v).isSome = true := by decide
  exact (member_iff_GS_218h_GZC _).2 (hall _ hlt)

theorem member_GS_218_GIC (f : GS_218) : ∃ e : GS_218h_GIC, e.toNat = f.get_GIC := by
  have hlt : f.get_GIC < 2 ^ 4 := Nat.and_lt_two_pow _ (by decide)
  have hall : ∀ v, v < 2 ^ 4 → (GS_218h_GIC.ofNat? v).isSome = true := by decide
  exact (member_iff_GS_218h_GIC _).2 (hall _ hlt)

theorem member_GS_218_FPC_AAD (f : GS_218) : ∃ e : GS_218h_FPC_AAD, e.toNat = f.get_FPC_AAD := by
  have hlt : f.get_FPC_AAD < 2 ^ 2 := Nat.and_lt_two_pow _ (by decide)
  have hall : ∀ v, v < 2 ^ 2 → (GS_218h_FPC_AAD.ofNat? v).isSome = true := by decide
  exact (member_iff_GS_218h_FPC_AAD _).2 (hall _ hlt)

theorem member_GS_218_FEHLPRF_ST (f : GS_218) : ∃ e : GS_218h_FEHLPRF_ST, e.toNat = f.get_FEHLPRF_ST := by
  have hlt : f.get_FEHLPRF_ST < 2 ^ 2 := Nat.and_lt_two_pow _ (by decide)
  have hall : ∀ v, v < 2 ^ 2 → (GS_218h_FEHLPRF_ST.ofNat? v).isSome = true := by decide
  exact (member_iff_GS_218h_FEHLPRF_ST _).2 (hall _ hlt)

theorem member_GS_418_MECH (f : GS_418) : ∃ e : GS_418h_MECH, e.toNat = f.get_MECH := by
  have hlt : f.get_MECH < 2 ^ 2 := Nat.and_lt_two_pow _ (by decide)
  have hall : ∀ v, v < 2 ^ 2 → (GS_418h_MECH.ofNat? v).isSome = true := by decide
  exact (member_iff_GS_418h_MECH _).2 (hall _ hlt)

theorem member_GS_418_GZC (f : GS_418) : ∃ e : GS_418h_GZC, e.toNat = f.get_GZC := by
  have hlt : f.get_GZC < 2 ^ 4 := Nat.and_lt_two_pow _ (by decide)
  have hall : ∀ v, v < 2 ^ 4 → (GS_418h_GZC.ofNat? v).isSome = true := by decide
  exact (member_iff_GS_418h_GZC _).2 (hall _ hlt)

theorem member_GS_418_GIC (f : GS_418) : ∃ e : GS_418h_GIC, e.toNat = f.get_GIC := by
  have hlt : f.get_GIC < 2 ^ 4 := Nat.and_lt_two_pow _ (by decide)
  have hall : ∀ v, v < 2 ^ 4 → (GS_418h_GIC.ofNat? v).isSome = true := by decide
  exact (member_iff_GS_418h_GIC _).2 (hall _ hlt)

/-- C23, as stated, fails: the payload `0x1800` has the selector field 3, and
`get_WHST` returns 3, which is none of P, R, N, D, SNV; the payload 0 has the
driving program field 0, and `get_FPC` returns 0, which is no member of
`GS_418h_FPC`. -/
theorem whst_and_fpc_outside_enum :
    (GS_418.mk 0x1800).get_WHST = 3 ∧ (¬ ∃ e : GS_418h_WHST, e.toNat = 3) ∧
    (GS_418.mk 0).get_FPC = 0 ∧ (¬ ∃ e : GS_418h_FPC, e.toNat = 0) := by
  refine ⟨by decide, ?_, by decide, ?_⟩
  · rw [member_iff_GS_418h_WHST]; decide
  · rw [member_iff_GS_418h_FPC]; decide

/-- C23 (amended): for every payload, the enumeration-typed getters of `GS_218`
(`get_GZC`, `get_GIC`, `get_FPC_AAD`, `get_FEHLPRF_ST`) and the getters
`get_MECH`, `get_GZC`, `get_GIC` of `GS_418` return a defined member of their
enumeration. `get_WHST` returns the 3-bit field as it is: a defined member
exactly when the field is not 3, 5 or 6. `get_FPC` returns the 8-bit field as
it is: a defined member for 41 of the 256 field values, and every field value
occurs. -/
theorem enum_getters_members :
    (∀ f : GS_218,
      (∃ e : GS_218h_GZC, e.toNat = f.get_GZC) ∧ (∃ e : GS_218h_GIC, e.toNat = f.get_GIC) ∧
      (∃ e : GS_218h_FPC_AAD, e.toNat = f.get_FPC_AAD) ∧
      (∃ e : GS_218h_FEHLPRF_ST, e.toNat = f.get_FEHLPRF_ST)) ∧
    (∀ f : GS_418,
      (∃ e : GS_418h_MECH, e.toNat = f.get_MECH) ∧ (∃ e : GS_418h_GZC, e.toNat = f.get_GZC) ∧
      (∃ e : GS_418h_GIC, e.toNat = f.get_GIC)) ∧
    (∀ f : GS_418, (∃ e : GS_418h_WHST, e.toNat = f.get_WHST) ↔
      (f.get_WHST ≠ 3 ∧ f.get_WHST ≠ 5 ∧ f.get_WHST ≠ 6)) ∧
    (∀ f : GS_418, (∃ e : GS_418h_FPC, e.toNat = f.get_FPC) ↔
      (GS_418h_FPC.ofNat? f.get_FPC).isSome = true) ∧
    ((List.range 256).filter (fun v => (GS_418h_FPC.ofNat? v).isSome)).length = 41 ∧
    (∀ v, v < 8 → (GS_418.mk (v <<< 11)).get_WHST = v) ∧
    (∀ v, v < 256 → (GS_418.mk (v <<< 48)).get_FPC = v) := by
  refine ⟨fun f => ⟨member_GS_218_GZC f, member_GS_218_GIC f, member_GS_218_FPC_AAD f,
      member_GS_218_FEHLPRF_ST f⟩,
    fun f => ⟨member_GS_418_MECH f, member_GS_418_GZC f, member_GS_418_GIC f⟩,
    ?_, fun f => member_iff_GS_418h_FPC _, by decide, by decide, ?_⟩
  swap
  · intro v hv
    show ((v <<< 48) >>> 48) &&& (2 ^ 8 - 1) = v
    rw [Nat.shiftLeft_shiftRight, Nat.and_pow_two_sub_one_eq_mod, Nat.mod_eq_of_lt hv]
  intro f
  have hlt : f.get_WHST < 2 ^ 3 := Nat.and_lt_two_pow _ (by decide)
  have hall : ∀ v, v < 2 ^ 3 →
      ((GS_418h_WHST.ofNat? v).isSome = true ↔ (v ≠ 3 ∧ v ≠ 5 ∧ v ≠ 6)) := by decide
  rw [member_iff_GS_418h_WHST]
  exact hall _ hlt

/-! ## Compensation at the nominal voltage -/

/-- C31, as stated, fails: with a nominal and supply voltage of 16829 mV and
`percent = 997` the product 16778513 is above `2 ^ 24` and is rounded to the
`float` 16778512, the `float` quotient is below 997 and is truncated to 996,
and the call commits the duty 4048 of `write_pwm_percent(996)`, not the duty
4064 of `write_pwm_percent(997)`. -/
theorem compensation_at_16829_mv_truncates :
    (16829 ≠ 0 ∧ 997 ≤ 1000) ∧
    to_float (997 * 16829) = 16778512 ∧
    ⌊scaled_percent 16829 997 16829⌋₊ = 996 ∧
    Solenoid.constructed.write_pwm_percent_with_voltage 16829 997 16829 =
      .returned (Solenoid.constructed.write_pwm_percent 996) ∧
    (Solenoid.constructed.write_pwm_percent 996).duty = 4048 ∧
    (Solenoid.constructed.write_pwm_percent 997).duty = 4064 := by
  decide!

/-- C31 (amended): compensation is the identity at a nominal voltage of at
most 16777 mV. For every `percent` from 0 to 1000 and a supply voltage equal
to a non-zero `solenoid_vref` of at most 16777, the product
`percent * solenoid_vref` is below `2 ^ 24`, the `float` quotient is `percent`
itself, `write_pwm_percent_with_voltage` returns, and the duty it has
committed last is the duty `write_pwm_percent(percent)` commits; for
`percent != 0` the whole effect on the solenoid is the same, for `percent = 0`
zero is written twice. -/
theorem compensation_identity_at_nominal (s : Solenoid) (solenoid_vref percent : Nat)
    (hv : solenoid_vref ≠ 0) (hv2 : solenoid_vref ≤ 16777) (hp : percent ≤ 1000) :
    ∃ s1, s.write_pwm_percent_with_voltage solenoid_vref percent solenoid_vref =
        .returned s1 ∧
      s1.duty = (s.write_pwm_percent percent).duty ∧
      (percent ≠ 0 → s1 = s.write_pwm_percent percent) ∧
      (percent = 0 → s1 = (s.write_pwm_percent 0).write_pwm_percent 0) ∧
      scaled_percent solenoid_vref percent solenoid_vref = percent ∧
      percent * solenoid_vref < 2 ^ 24 := by
  have hq : scaled_percent solenoid_vref percent solenoid_vref = percent :=
    scaled_percent_at_nominal solenoid_vref percent hv hv2 hp
  have hfl : ⌊scaled_percent solenoid_vref percent solenoid_vref⌋₊ = percent := by
    rw [hq, Nat.floor_natCast]
  have h1 : ¬ (percent > 65535) := by omega
  have h2 : ¬ (percent > 1000) := by omega
  have hexact : percent * solenoid_vref < 2 ^ 24 :=
    calc percent * solenoid_vref ≤ 1000 * 16777 := Nat.mul_le_mul hp hv2
      _ < 2 ^ 24 := by decide
  by_cases h0 : percent = 0
  · subst h0
    refine ⟨(s.write_pwm_percent 0).write_pwm_percent 0, ?_, rfl, fun h => absurd rfl h,
      fun _ => rfl, hq, hexact⟩
    simp [Solenoid.write_pwm_percent_with_voltage, hv, hfl]
  · refine ⟨s.write_pwm_percent percent, ?_, rfl, fun _ => rfl, fun h => absurd h h0, hq,
      hexact⟩
    simp [Solenoid.write_pwm_percent_with_voltage, hv, hfl, h0, h1, h2]

/-- Witness for `compensation_identity_at_nominal`: 50% at a nominal and
supply voltage of 12000 mV commits the duty 2032, as `write_pwm_percent(500)`
does. -/
theorem compensation_identity_at_nominal_witness :
    (12000 ≠ 0 ∧ 12000 ≤ 16777 ∧ 500 ≤ 1000) ∧
    Solenoid.constructed.write_pwm_percent_with_voltage 12000 500 12000 =
      .returned (Solenoid.constructed.write_pwm_percent 500) ∧
    (Solenoid.constructed.write_pwm_percent 500).duty = 2032 ∧
    ∃ s1, Solenoid.constructed.write_pwm_percent_with_voltage 12000 500 12000 =
        .returned s1 ∧
      s1.duty = (Solenoid.constructed.write_pwm_percent 500).duty ∧
      (500 ≠ 0 → s1 = Solenoid.constructed.write_pwm_percent 500) ∧
      (500 = 0 → s1 = (Solenoid.constructed.write_pwm_percent 0).write_pwm_percent 0) ∧
      scaled_percent 12000 500 12000 = ((500 : ℕ) : ℚ) ∧
      500 * 12000 < 2 ^ 24 :=
  ⟨by decide, by decide!, by decide,
   compensation_identity_at_nominal Solenoid.constructed 12000 500 (by decide) (by decide)
     (by decide)⟩

end Nag52
